import Mathlib

/-!
Verification of the response-normalization layer of the `liiga_api`
client library (`liiga_api/utils.py`, `liiga_api/endpoints.py`,
`liiga_api/endpoints/games.py`) against its natural-language
specification.

JSON values are modelled by the inductive type `JVal`. Python
dictionaries appearing in this code all have string keys; they are
modelled as insertion-ordered association lists with unique keys
(`recSet` replaces in place or appends, exactly like CPython dicts).
Python floats are modelled as exact rationals: the code only ever
classifies them with `isinstance` and adds them, and the claims under
study never depend on rounding. Python's `bool` is a subclass of
`int`, which the `isinstance` helpers below reproduce.
-/

/-- A JSON value as manipulated by the Python code. -/
inductive JVal where
  | null
  | bool (b : Bool)
  | int (n : Int)
  | float (q : ℚ)
  | str (s : String)
  | arr (xs : List JVal)
  | obj (fields : List (String × JVal))
deriving Repr

/-- Is this value Python's `None`? -/
def JVal.isNull : JVal → Bool
  | .null => true
  | _ => false

/-- The numeric value of a Python number (`bool` counts, as in Python,
where `True == 1`); `none` for non-numbers. -/
def toNum? : JVal → Option ℚ
  | .bool b => some (if b then 1 else 0)
  | .int n => some n
  | .float q => some q
  | _ => none

/-- Association-list lookup: the value bound to `k`, if any.  Keys are
unique in every record built by `recSet`, so first-match is the match. -/
def recGet? : List (String × JVal) → String → Option JVal
  | [], _ => none
  | (k', v) :: rest, k => if k' = k then some v else recGet? rest k

/-- CPython dict assignment `out[k] = v`: replace the value in place if
the key is present (keeping its position), otherwise append. -/
def recSet : List (String × JVal) → String → JVal → List (String × JVal)
  | [], k, v => [(k, v)]
  | (k', v') :: rest, k, v =>
    if k' = k then (k', v) :: rest else (k', v') :: recSet rest k v

/-- Python `d.get(k)`: `None` when the key is absent. -/
def pyGet (r : List (String × JVal)) (k : String) : JVal :=
  (recGet? r k).getD .null

/-- Python `d.get(k, dflt)`: the default is used only when the key is
absent; a stored `None` is returned as `None`. -/
def pyGetD (r : List (String × JVal)) (k : String) (dflt : JVal) : JVal :=
  (recGet? r k).getD dflt

/-- Python `out.update(s)`: assign every binding of `s` into `out`, in
`s`'s iteration order. -/
def recUpdate (out : List (String × JVal)) (s : List (String × JVal)) :
    List (String × JVal) :=
  s.foldl (fun acc kv => recSet acc kv.1 kv.2) out

/-- Python `s.split(sep)` for a one-character separator: split on every
occurrence, keeping empty segments (`"".split(".") == [""]`). -/
def splitCharAux (sep : Char) : List Char → List Char → List String
  | [], acc => [String.mk acc.reverse]
  | c :: cs, acc =>
    if c = sep then String.mk acc.reverse :: splitCharAux sep cs []
    else splitCharAux sep cs (c :: acc)

/-- Python `s.split(sep)` for a one-character separator. -/
def pySplit (s : String) (sep : Char) : List String :=
  splitCharAux sep s.toList []

/-- `ResponseParser._get_nested`, the loop body: walk the key segments,
returning `None` as soon as the current value is not a dict or the
looked-up value is absent or `None` (`utils.py` lines 13-23). -/
def get_nested_loop : JVal → List String → JVal
  | cur, [] => cur
  | cur, k :: ks =>
    match cur with
    | .obj fields =>
      let next := pyGet fields k
      if next.isNull then .null else get_nested_loop next ks
    | _ => .null

/-- `ResponseParser._get_nested(data, path)`: navigate a nested dict
using dot notation (`utils.py` lines 13-23). -/
def get_nested (data : JVal) (path : String) : JVal :=
  get_nested_loop data (pySplit path '.')

/-- `ResponseParser._parse_record(data, columns)`: the dict
comprehension building one output field per `(path, col)` entry of the
column spec (`utils.py` lines 5-10). -/
def parse_record (data : JVal) (columns : List (String × String)) :
    List (String × JVal) :=
  columns.foldl (fun acc pc => recSet acc pc.2 (get_nested data pc.1)) []

/-!
The body of `flatten_dict` (`utils.py` lines 28-38), with the
accumulator `out` threaded through the item loop.  Note the source
computes `parent_key=f"{parent_key}{k}_"` for the recursive call but
stores every leaf under its bare key `k`.  For a non-dict value the
skip-list branch and the fallthrough branch of the source both execute
`out[k] = v`, so `flatten_one` only distinguishes the skip list for
dict values.
-/
mutual

/-- The item loop of `flatten_dict`, threading the accumulator `out`. -/
def flatten_items : List (String × JVal) → String → List String →
    List (String × JVal) → List (String × JVal)
  | [], _, _, out => out
  | (k, v) :: rest, pk, sk, out =>
    flatten_items rest pk sk (flatten_one k v pk sk out)
termination_by l => sizeOf l

/-- The body of `flatten_dict`'s item loop for one key-value pair. -/
def flatten_one : String → JVal → String → List String →
    List (String × JVal) → List (String × JVal)
  | k, .obj sub, pk, sk, out =>
    if k ∈ sk then recSet out k (.obj sub)
    else recUpdate out (flatten_items sub (pk ++ k ++ "_") sk [])
  | k, v, _, _, out => recSet out k v
termination_by _ v => sizeOf v

end

/-- `flatten_dict(d, parent_key="", skip_keys=None)` (`utils.py`
lines 28-38). -/
def flatten_dict (d : List (String × JVal)) (parent_key : String)
    (skip_keys : List String) : List (String × JVal) :=
  flatten_items d parent_key skip_keys []

/-!
## Python runtime semantics

The game-stat parsers can raise: the explicit `LiigaAPIError` of
`GameStatsBase._parse_by_period`, and the implicit `AttributeError` /
`TypeError` / `IndexError` of attribute access, iteration, `max`, `+`,
`sorted` and indexing on unexpected values.  Fallible steps live in
`Except PyErr`.
-/

/-- The exceptions the embedded code can raise.  Python renders the
message of the `LiigaAPIError` with `type(...)`, which prints as a
class object; the embedding keeps just the bare type name. -/
inductive PyErr where
  | attributeError (msg : String)
  | typeError (msg : String)
  | indexError (msg : String)
  | liigaAPIError (msg : String)
deriving DecidableEq, Repr

/-- Python's `type(v).__name__`. -/
def pyTypeName : JVal → String
  | .null => "NoneType"
  | .bool _ => "bool"
  | .int _ => "int"
  | .float _ => "float"
  | .str _ => "str"
  | .arr _ => "list"
  | .obj _ => "dict"

/-- Python truthiness `bool(v)`. -/
def pyTruthy : JVal → Bool
  | .null => false
  | .bool b => b
  | .int n => decide (n ≠ 0)
  | .float q => decide (q ≠ 0)
  | .str s => decide (s ≠ "")
  | .arr xs => !xs.isEmpty
  | .obj fs => !fs.isEmpty

/-- Python `isinstance(v, int)`.  `bool` is a subclass of `int`. -/
def isinstInt : JVal → Bool
  | .bool _ => true
  | .int _ => true
  | _ => false

/-- Python `isinstance(v, (int, float))`.  `bool` counts. -/
def isinstNum : JVal → Bool
  | .bool _ => true
  | .int _ => true
  | .float _ => true
  | _ => false

/-- The `int` value of a Python `int` or `bool` (0 otherwise). -/
def intVal : JVal → Int
  | .bool b => if b then 1 else 0
  | .int n => n
  | _ => 0

/-- Python `a + b` on the values this code adds: numbers add (the
result is a `float` iff one operand is), strings and lists concatenate,
anything else raises `TypeError`. -/
def pyAdd (a b : JVal) : Except PyErr JVal :=
  match a, b with
  | .str x, .str y => .ok (.str (x ++ y))
  | .arr x, .arr y => .ok (.arr (x ++ y))
  | .float x, b => match toNum? b with
    | some y => .ok (.float (x + y))
    | none => .error (.typeError "unsupported operand types for +")
  | a, .float y => match toNum? a with
    | some x => .ok (.float (x + y))
    | none => .error (.typeError "unsupported operand types for +")
  | a, b =>
    if isinstInt a && isinstInt b then .ok (.int (intVal a + intVal b))
    else .error (.typeError "unsupported operand types for +")

/-- Python `a > b`: numbers compare by value (`bool` as 0/1), strings
compare lexicographically by code point — written on the character
lists, which is exactly `String`'s order (`String.lt_iff_toList_lt`)
but evaluates in the kernel — and any other combination raises
`TypeError`. -/
def pyGt (a b : JVal) : Except PyErr Bool :=
  match a, b with
  | .str x, .str y => .ok (decide (y.toList < x.toList))
  | a, b =>
    match toNum? a, toNum? b with
    | some x, some y => .ok (decide (y < x))
    | _, _ => .error (.typeError "unsupported comparison")

/-- Python `a < b`, same comparability rules as `pyGt`. -/
def pyLt (a b : JVal) : Except PyErr Bool :=
  match a, b with
  | .str x, .str y => .ok (decide (x.toList < y.toList))
  | a, b =>
    match toNum? a, toNum? b with
    | some x, some y => .ok (decide (x < y))
    | _, _ => .error (.typeError "unsupported comparison")

/-- Python `max(a, b)`: `b if b > a else a`. -/
def pyMax (a b : JVal) : Except PyErr JVal := do
  let gt ← pyGt b a
  pure (if gt then b else a)

/-- Insert `x` into an already-sorted list, before the first strictly
greater element, raising `TypeError` on an unsupported comparison. -/
def pyInsert (x : JVal) : List JVal → Except PyErr (List JVal)
  | [] => .ok [x]
  | y :: ys => do
    let lt ← pyLt x y
    if lt then pure (x :: y :: ys)
    else do
      let rest ← pyInsert x ys
      pure (y :: rest)

/-- Python `sorted(l)` (insertion sort with Python's `<`; agrees with
`sorted` on every list of mutually comparable values, and raises
`TypeError` on incomparable ones like Python does). -/
def pySorted : List JVal → Except PyErr (List JVal)
  | [] => .ok []
  | x :: xs => do
    let s ← pySorted xs
    pyInsert x s

/-- Python iteration `for x in v`: lists yield their elements, strings
their characters, dicts their keys; other values raise `TypeError`. -/
def pyIter : JVal → Except PyErr (List JVal)
  | .arr xs => .ok xs
  | .str s => .ok (s.toList.map fun c => .str (String.mk [c]))
  | .obj fs => .ok (fs.map fun kv => .str kv.1)
  | v => .error (.typeError (pyTypeName v ++ " object is not iterable"))

/-- Python `v.get(k, dflt)` on an arbitrary value: `AttributeError`
unless `v` is a dict. -/
def pyAttrGet (v : JVal) (k : String) (dflt : JVal) : Except PyErr JVal :=
  match v with
  | .obj fields => .ok (pyGetD fields k dflt)
  | _ => .error (.attributeError (pyTypeName v ++ " object has no attribute get"))

/-- Python `xs[i]` on a list of strings. -/
def pyIndex (xs : List String) (i : Nat) : Except PyErr String :=
  match xs.get? i with
  | some s => .ok s
  | none => .error (.indexError "list index out of range")

/-- Python `v.split(sep)[0]` on an arbitrary value: `AttributeError`
unless `v` is a string; `[0]` always exists since `split` never
returns an empty list. -/
def pySplitHead (v : JVal) (sep : Char) : Except PyErr String :=
  match v with
  | .str s => .ok ((pySplit s sep).headD "")
  | _ => .error (.attributeError (pyTypeName v ++ " object has no attribute split"))

/-- `side.replace("Team", "").lower()` for the loop values
`"homeTeam"` and `"awayTeam"` (the only strings the code passes). -/
def sideTag (side : String) : String :=
  if side = "homeTeam" then "home" else "away"

/-- Is the value usable as a Python dict key?  Lists and dicts are
unhashable. -/
def hashable : JVal → Bool
  | .arr _ => false
  | .obj _ => false
  | _ => true

/-- Python `==` on hashable (scalar) values: `None == None`, strings by
content, numbers by value across `bool` / `int` / `float`; any other
combination is unequal. -/
def scalarEq (a b : JVal) : Bool :=
  match a, b with
  | .null, .null => true
  | .str x, .str y => decide (x = y)
  | a, b =>
    match toNum? a, toNum? b with
    | some x, some y => decide (x = y)
    | _, _ => false
/-- `SkaterGameStats._PERIOD_PLAYERSTAT_KEYS` (games.py lines 470-520). -/
def skater_PERIOD_PLAYERSTAT_KEYS : List (String × String) := [
  ("jerseyId", "jerseyId"),
  ("playerId", "playerId"),
  ("period.points", "points"),
  ("period.period", "period"),
  ("period.assists", "assists"),
  ("period.goals", "goals"),
  ("period.validGoals", "validGoals"),
  ("period.plusminus", "plusminus"),
  ("period.plus", "plus"),
  ("period.minus", "minus"),
  ("period.shots", "shots"),
  ("period.penaltyminutes", "penaltyminutes"),
  ("period.powerplayGoals", "powerplayGoals"),
  ("period.shortHandedGoals", "shortHandedGoals"),
  ("period.winningGoal", "winningGoal"),
  ("period.blockedShots", "blockedShots"),
  ("period.faceoffsTotal", "faceoffsTotal"),
  ("period.faceoffsWon", "faceoffsWon"),
  ("period.corsiFor", "corsiFor"),
  ("period.corsiAgainst", "corsiAgainst"),
  ("period.faceoffsCenterTotal", "faceoffsCenterTotal"),
  ("period.faceoffsCenterWon", "faceoffsCenterWon"),
  ("period.faceoffsDefenceTotal", "faceoffsDefenceTotal"),
  ("period.faceoffsDefenceWon", "faceoffsDefenceWon"),
  ("period.faceoffsOffenceTotal", "faceoffsOffenceTotal"),
  ("period.faceoffsOffenceWon", "faceoffsOffenceWon"),
  ("period.fsZoneStartsDz", "fsZoneStartsDz"),
  ("period.fsZoneStartsOz", "fsZoneStartsOz"),
  ("period.powerplay2Goals", "powerplay2Goals"),
  ("period.penaltykill2Goals", "penaltykill2Goals"),
  ("period.powerplayAssists", "powerplayAssists"),
  ("period.penaltykillAssists", "penaltykillAssists"),
  ("period.goalsToEmptyGoal", "goalsToEmptyGoal"),
  ("period.fsTeamShots", "fsTeamShots"),
  ("period.fsTeamGoals", "fsTeamGoals"),
  ("period.fsTeamShotsAgainst", "fsTeamShotsAgainst"),
  ("period.fsTeamGoalsAgainst", "fsTeamGoalsAgainst"),
  ("period.timeofice", "timeofice"),
  ("distance", "distance"),
  ("totalPasses", "totalPasses"),
  ("successfulPasses", "successfulPasses"),
  ("playerPassesUnderPressure", "playerPassesUnderPressure"),
  ("playerSuccessfulPassesUnderPressure", "playerSuccessfulPassesUnderPressure"),
  ("playerPassesUnderHighPressure", "playerPassesUnderHighPressure"),
  ("playerSuccessfulPassesUnderHighPressure", "playerSuccessfulPassesUnderHighPressure"),
  ("expectedGoalsPlayer", "expectedGoalsPlayer"),
  ("expectedGoalsTeam", "expectedGoalsTeam"),
  ("expectedGoalsAgainst", "expectedGoalsAgainst"),
  ("expectedGoalsAgainstShotOnGoal", "expectedGoalsAgainstShotOnGoal")
]

/-- `SkaterGameStats._PERIOD_TEAM_CONTEXT` (games.py lines 521-534). -/
def skater_PERIOD_TEAM_CONTEXT : List (String × String) := [
  ("teamId", "teamId"),
  ("goals", "teamGoals"),
  ("shots", "teamShots"),
  ("powerPlayGoals", "teamPowerPlayGoals"),
  ("shortHandedGoalsAgainst", "teamShortHandedGoalsAgainst"),
  ("penaltyMinutes", "teamPenaltyMinutes"),
  ("faceOffWins", "teamFaceOffWins"),
  ("twoMinutePenalties", "teamTwoMinutePenalties"),
  ("fiveMinutePenalties", "teamFiveMinutePenalties"),
  ("tenMinutePenalties", "teamTenMinutePenalties"),
  ("twentyMinutePenalties", "teamTwentyMinutePenalties"),
  ("totalDistanceTravelled", "teamTotalDistanceTravelled")
]

/-- `SkaterGameStats._PERIOD_PUCK_KEYS` (games.py lines 536-542). -/
def skater_PERIOD_PUCK_KEYS : List (String × String) := [
  ("periodNumber", "periodNumber"),
  ("homeTeamControlDuration", "homeTeamControlDuration"),
  ("awayTeamControlDuration", "awayTeamControlDuration"),
  ("contestedControlDuration", "contestedControlDuration"),
  ("distance", "distance")
]

/-- `GoalieGameStats._PERIOD_PLAYERSTAT_KEYS` (games.py lines 614-666). -/
def goalie_PERIOD_PLAYERSTAT_KEYS : List (String × String) := [
  ("jerseyId", "jerseyId"),
  ("playerId", "playerId"),
  ("period.shotsOnGoal", "shotsOnGoal"),
  ("period.period", "period"),
  ("period.penaltyminutes", "penaltyminutes"),
  ("period.timeofice", "timeofice"),
  ("period.saves", "saves"),
  ("period.goalsAllowed", "goalsAllowed"),
  ("period.savesPercentage", "savesPercentage"),
  ("period.assists", "assists"),
  ("period.goals", "goals"),
  ("period.validGoals", "validGoals"),
  ("period.blockedShots", "blockedShots"),
  ("period.faceoffsTotal", "faceoffsTotal"),
  ("period.faceoffsWon", "faceoffsWon"),
  ("period.faceoffsCenterTotal", "faceoffsCenterTotal"),
  ("period.faceoffsCenterWon", "faceoffsCenterWon"),
  ("period.faceoffsDefenceTotal", "faceoffsDefenceTotal"),
  ("period.faceoffsDefenceWon", "faceoffsDefenceWon"),
  ("period.faceoffsOffenceTotal", "faceoffsOffenceTotal"),
  ("period.faceoffsOffenceWon", "faceoffsOffenceWon"),
  ("period.points", "points"),
  ("period.plus", "plus"),
  ("period.minus", "minus"),
  ("period.powerplayGoals", "powerplayGoals"),
  ("period.shortHandedGoals", "shortHandedGoals"),
  ("period.winningGoal", "winningGoal"),
  ("period.corsiFor", "corsiFor"),
  ("period.corsiAgainst", "corsiAgainst"),
  ("period.fsZoneStartsOz", "fsZoneStartsOz"),
  ("period.fsZoneStartsDz", "fsZoneStartsDz"),
  ("period.powerplay2Goals", "powerplay2Goals"),
  ("period.penaltykill2Goals", "penaltykill2Goals"),
  ("period.powerplayAssists", "powerplayAssists"),
  ("period.penaltykillAssists", "penaltykillAssists"),
  ("period.goalsToEmptyGoal", "goalsToEmptyGoal"),
  ("period.fsTeamShots", "fsTeamShots"),
  ("period.fsTeamGoals", "fsTeamGoals"),
  ("period.fsTeamShotsAgainst", "fsTeamShotsAgainst"),
  ("period.fsTeamGoalsAgainst", "fsTeamGoalsAgainst"),
  ("distance", "distance"),
  ("totalPasses", "totalPasses"),
  ("successfulPasses", "successfulPasses"),
  ("playerPassesUnderPressure", "playerPassesUnderPressure"),
  ("playerSuccessfulPassesUnderPressure", "playerSuccessfulPassesUnderPressure"),
  ("playerPassesUnderHighPressure", "playerPassesUnderHighPressure"),
  ("playerSuccessfulPassesUnderHighPressure", "playerSuccessfulPassesUnderHighPressure"),
  ("expectedGoalsPlayer", "expectedGoalsPlayer"),
  ("expectedGoalsTeam", "expectedGoalsTeam"),
  ("expectedGoalsAgainst", "expectedGoalsAgainst"),
  ("expectedGoalsAgainstShotOnGoal", "expectedGoalsAgainstShotOnGoal")
]

/-- `GoalieGameStats._PERIOD_TEAM_CONTEXT` (games.py lines 669-682). -/
def goalie_PERIOD_TEAM_CONTEXT : List (String × String) := [
  ("teamId", "teamId"),
  ("goals", "teamGoals"),
  ("shots", "teamShots"),
  ("powerPlayGoals", "teamPowerPlayGoals"),
  ("shortHandedGoalsAgainst", "teamShortHandedGoalsAgainst"),
  ("penaltyMinutes", "teamPenaltyMinutes"),
  ("faceOffWins", "teamFaceOffWins"),
  ("twoMinutePenalties", "teamTwoMinutePenalties"),
  ("fiveMinutePenalties", "teamFiveMinutePenalties"),
  ("tenMinutePenalties", "teamTenMinutePenalties"),
  ("twentyMinutePenalties", "teamTwentyMinutePenalties"),
  ("totalDistanceTravelled", "teamTotalDistanceTravelled")
]

/-- `GoalieGameStats._PERIOD_PUCK_KEYS` (games.py lines 684-690). -/
def goalie_PERIOD_PUCK_KEYS : List (String × String) := [
  ("periodNumber", "periodNumber"),
  ("homeTeamControlDuration", "homeTeamControlDuration"),
  ("awayTeamControlDuration", "awayTeamControlDuration"),
  ("contestedControlDuration", "contestedControlDuration"),
  ("distance", "distance")
]

/-!
## Period buckets and player totals

`periods_out` and `player_totals` are CPython dicts keyed by JSON
values (`period_number` resp. `player_id`): insertion-ordered, keys
compared with Python `==`, unhashable keys raising `TypeError`.
-/

/-- The bucket bound to `key` in `periods_out`, if present. -/
def bucketFind? : List (JVal × List (List (String × JVal))) → JVal →
    Option (List (List (String × JVal)))
  | [], _ => none
  | (k, b) :: rest, key => if scalarEq k key then some b else bucketFind? rest key

/-- `periods_out[key]` for a key known to be present. -/
def bucketGet (m : List (JVal × List (List (String × JVal)))) (key : JVal) :
    List (List (String × JVal)) :=
  (bucketFind? m key).getD []

/-- Append `r` to the bucket of `key`, creating the bucket at the end
of the dict if absent (the combined effect of the source's
`if period_number not in periods_out: periods_out[period_number] = []`
followed by `periods_out[period_number].append(...)`). -/
def bucketAppend : List (JVal × List (List (String × JVal))) → JVal →
    List (String × JVal) → List (JVal × List (List (String × JVal)))
  | [], key, r => [(key, [r])]
  | (k, b) :: rest, key, r =>
    if scalarEq k key then (k, b ++ [r]) :: rest
    else (k, b) :: bucketAppend rest key r

/-- `bucketAppend` guarded by hashability of the key, as in Python
where `period_number not in periods_out` hashes the key first. -/
def bucketAdd (m : List (JVal × List (List (String × JVal)))) (key : JVal)
    (r : List (String × JVal)) :
    Except PyErr (List (JVal × List (List (String × JVal)))) :=
  if hashable key then .ok (bucketAppend m key r)
  else .error (.typeError ("unhashable type: " ++ pyTypeName key))

/-- Create an empty bucket for `key` if absent
(`if period_number not in periods_out: periods_out[period_number] = []`
of `GameStatsBase._parse_by_period`, where the append is separate). -/
def bucketTouch (m : List (JVal × List (List (String × JVal)))) (key : JVal) :
    Except PyErr (List (JVal × List (List (String × JVal)))) :=
  if hashable key then
    match bucketFind? m key with
    | some _ => .ok m
    | none => .ok (m ++ [(key, [])])
  else .error (.typeError ("unhashable type: " ++ pyTypeName key))

/-- The running total bound to `player_id` in `player_totals`, if
present. -/
def totalsFind? : List (JVal × List (String × JVal)) → JVal →
    Option (List (String × JVal))
  | [], _ => none
  | (k, t) :: rest, key => if scalarEq k key then some t else totalsFind? rest key

/-- `player_totals[player_id]` for a key known to be present. -/
def totalsGet (m : List (JVal × List (String × JVal))) (key : JVal) :
    List (String × JVal) :=
  (totalsFind? m key).getD []

/-- `player_totals[player_id] = t`: replace in place, else append. -/
def totalsSet : List (JVal × List (String × JVal)) → JVal →
    List (String × JVal) → List (JVal × List (String × JVal))
  | [], key, t => [(key, t)]
  | (k, t') :: rest, key, t =>
    if scalarEq k key then (k, t) :: rest
    else (k, t') :: totalsSet rest key t

/-!
## `SkaterGameStats` (`endpoints/games.py`)
-/

/-- The body of the player loop of `SkaterGameStats._parse_by_period`
(games.py lines 569-573): extract the player's columns, merge in the
team context and the puck stats of this period, and tag the side. -/
def skater_player_record (side : String) (team_stats puck_period : List (String × JVal))
    (player : JVal) : List (String × JVal) :=
  let player_stats := parse_record player skater_PERIOD_PLAYERSTAT_KEYS
  let player_stats := recUpdate player_stats team_stats
  let player_stats := recUpdate player_stats puck_period
  recSet player_stats "teamSide" (.str (sideTag side))

/-- One iteration of `for i, period in enumerate(team_periods)` in
`SkaterGameStats._parse_by_period` (games.py lines 562-577). -/
def skater_process_period (side : String) (puck_stats : List (List (String × JVal)))
    (i : Nat) (period : JVal) (m : List (JVal × List (List (String × JVal)))) :
    Except PyErr (List (JVal × List (List (String × JVal)))) := do
  let team_stats := parse_record period skater_PERIOD_TEAM_CONTEXT
  let tid ← pySplitHead (pyGet team_stats "teamId") ':'
  let team_stats := recSet team_stats "teamId" (.str tid)
  let puck_period := if i < puck_stats.length then puck_stats.getD i [] else []
  let playersRaw ← pyAttrGet period "periodPlayerStats" (.arr [])
  let players ← pyIter playersRaw
  players.foldlM (fun m player =>
      let player_stats := skater_player_record side team_stats puck_period player
      bucketAdd m (pyGet player_stats "period") player_stats) m

/-- `SkaterGameStats._parse_by_period` (games.py lines 555-579). -/
def skater_parse_by_period (response : JVal) :
    Except PyErr (List (List (List (String × JVal)))) := do
  let puckRaw ← pyAttrGet response "puckStats" (.arr [])
  let puckItems ← pyIter puckRaw
  let puck_stats := puckItems.map fun p => parse_record p skater_PERIOD_PUCK_KEYS
  let m ← ["homeTeam", "awayTeam"].foldlM (fun m side => do
      let teamPeriodsRaw ← pyAttrGet response side (.arr [])
      let team_periods ← pyIter teamPeriodsRaw
      team_periods.enum.foldlM
        (fun m ip => skater_process_period side puck_stats ip.1 ip.2 m) m)
    []
  let keys ← pySorted (m.map Prod.fst)
  .ok ((keys.map (bucketGet m)).filter fun b => !b.isEmpty)

/-- One field of the merge loop of `SkaterGameStats._parse_sum_players`
(games.py lines 597-608): identity fields skipped, `period` maxed with
non-`int` incoming values as 0, numeric values summed onto a default
of 0, non-numeric non-`None` values overwritten, `None` ignored. -/
def mergeField (total : List (String × JVal)) (k : String) (v : JVal) :
    Except PyErr (List (String × JVal)) :=
  if k ∈ ["playerId", "jerseyId", "teamId"] then .ok total
  else if k = "period" then do
    let m ← pyMax (pyGetD total k (.int 0)) (if isinstInt v then v else .int 0)
    .ok (recSet total k m)
  else if isinstNum v then do
    let s ← pyAdd (pyGetD total k (.int 0)) v
    .ok (recSet total k s)
  else if v.isNull then .ok total
  else .ok (recSet total k v)

/-- The whole `for k, v in player.items()` merge loop of
`SkaterGameStats._parse_sum_players`. -/
def mergePlayer (total player : List (String × JVal)) :
    Except PyErr (List (String × JVal)) :=
  player.foldlM (fun t kv => mergeField t kv.1 kv.2) total

/-- One player record folded into `player_totals`
(games.py lines 587-608): records with a falsy `playerId` are skipped,
a first occurrence is copied, later occurrences are merged. -/
def sum_fold (totals : List (JVal × List (String × JVal)))
    (player : List (String × JVal)) :
    Except PyErr (List (JVal × List (String × JVal))) := do
  let player_id := pyGet player "playerId"
  if !pyTruthy player_id then .ok totals
  else if hashable player_id then
    match totalsFind? totals player_id with
    | none => .ok (totals ++ [(player_id, player)])
    | some t => do
      let t' ← mergePlayer t player
      .ok (totalsSet totals player_id t')
  else .error (.typeError ("unhashable type: " ++ pyTypeName player_id))

/-- The aggregation of `SkaterGameStats._parse_sum_players`
(games.py lines 582-610) applied to the by-period buckets, ending with
`[player_totals[pid] for pid in sorted(player_totals)]`.
`GoalieGameStats._parse_sum_players` (games.py lines 729-757) is the
same code verbatim. -/
def sum_players_from (by_period : List (List (List (String × JVal)))) :
    Except PyErr (List (List (String × JVal))) := do
  let totals ← by_period.foldlM (fun ts period => period.foldlM sum_fold ts) []
  let keys ← pySorted (totals.map Prod.fst)
  .ok (keys.map (totalsGet totals))

/-- `SkaterGameStats._parse_sum_players` (games.py lines 582-610). -/
def skater_parse_sum_players (response : JVal) :
    Except PyErr (List (List (String × JVal))) := do
  let bp ← skater_parse_by_period response
  sum_players_from bp
/-!
## `GoalieGameStats` (`endpoints/games.py`)

Same shape as `SkaterGameStats` except for the goalie column spec, the
player key `"goaliePeriodStats"`, and the pairing of periods with puck
stats: `zip(team_periods, puck_stats)` truncates to the shorter list
instead of padding with an empty dict.
-/

/-- The body of the player loop of `GoalieGameStats._parse_by_period`
(games.py lines 715-719). -/
def goalie_player_record (side : String) (team_stats puck_period : List (String × JVal))
    (player : JVal) : List (String × JVal) :=
  let player_stats := parse_record player goalie_PERIOD_PLAYERSTAT_KEYS
  let player_stats := recUpdate player_stats team_stats
  let player_stats := recUpdate player_stats puck_period
  recSet player_stats "teamSide" (.str (sideTag side))

/-- One iteration of `for period, puck_period in zip(team_periods,
puck_stats)` in `GoalieGameStats._parse_by_period`
(games.py lines 710-723). -/
def goalie_process_period (side : String) (period : JVal)
    (puck_period : List (String × JVal))
    (m : List (JVal × List (List (String × JVal)))) :
    Except PyErr (List (JVal × List (List (String × JVal)))) := do
  let team_stats := parse_record period goalie_PERIOD_TEAM_CONTEXT
  let tid ← pySplitHead (pyGet team_stats "teamId") ':'
  let team_stats := recSet team_stats "teamId" (.str tid)
  let playersRaw ← pyAttrGet period "goaliePeriodStats" (.arr [])
  let players ← pyIter playersRaw
  players.foldlM (fun m player =>
      let player_stats := goalie_player_record side team_stats puck_period player
      bucketAdd m (pyGet player_stats "period") player_stats) m

/-- `GoalieGameStats._parse_by_period` (games.py lines 703-727). -/
def goalie_parse_by_period (response : JVal) :
    Except PyErr (List (List (List (String × JVal)))) := do
  let puckRaw ← pyAttrGet response "puckStats" (.arr [])
  let puckItems ← pyIter puckRaw
  let puck_stats := puckItems.map fun p => parse_record p goalie_PERIOD_PUCK_KEYS
  let m ← ["homeTeam", "awayTeam"].foldlM (fun m side => do
      let teamPeriodsRaw ← pyAttrGet response side (.arr [])
      let team_periods ← pyIter teamPeriodsRaw
      (team_periods.zip puck_stats).foldlM
        (fun m pp => goalie_process_period side pp.1 pp.2 m) m)
    []
  let keys ← pySorted (m.map Prod.fst)
  .ok ((keys.map (bucketGet m)).filter fun b => !b.isEmpty)

/-- `GoalieGameStats._parse_sum_players` (games.py lines 729-757), a
verbatim copy of the skater version over the goalie by-period output. -/
def goalie_parse_sum_players (response : JVal) :
    Except PyErr (List (List (String × JVal))) := do
  let bp ← goalie_parse_by_period response
  sum_players_from bp

/-!
## `GameStatsBase` (`endpoints.py`)

The older sibling module: explicit `LiigaAPIError` shape check,
`flatten_dict` per player instead of a column spec, snake_case team
context with the composite id split into `team_id` and `team_name`
(`[1]` raising `IndexError` when the id has no colon), buckets created
per period entry even when no player record follows (so the trailing
`if periods_out[p]` filter is live), `player_id is None` instead of
falsiness, `None` overwriting in the merge, and no final sort.
-/

/-- `flatten_dict(player)` on an arbitrary value: iterating `.items()`
raises `AttributeError` unless the value is a dict. -/
def pyFlatten (v : JVal) : Except PyErr (List (String × JVal)) :=
  match v with
  | .obj fields => .ok (flatten_dict fields "" [])
  | _ => .error (.attributeError (pyTypeName v ++ " object has no attribute items"))

/-- The `team_context` dict literal of `GameStatsBase._parse_by_period`
(endpoints.py lines 586-596), with its fallible value expressions
evaluated in order. -/
def gsb_team_context (side : String) (period : JVal) :
    Except PyErr (List (String × JVal)) := do
  let tid ← pyAttrGet period "teamId" .null
  let team_id ← pySplitHead tid ':'
  let parts ←
    match tid with
    | .str s => Except.ok (pySplit s ':')
    | _ => Except.error (.attributeError (pyTypeName tid ++ " object has no attribute split"))
  let team_name ← pyIndex parts 1
  let goals ← pyAttrGet period "goals" .null
  let shots ← pyAttrGet period "shots" .null
  let pens ← pyAttrGet period "penaltyMinutes" .null
  let fow ← pyAttrGet period "faceOffWins" .null
  let ppg ← pyAttrGet period "powerPlayGoals" .null
  let shga ← pyAttrGet period "shortHandedGoalsAgainst" .null
  .ok [("team_side", .str (sideTag side)),
       ("team_id", .str team_id),
       ("team_name", .str team_name),
       ("team_goals", goals),
       ("team_shots", shots),
       ("team_penalty_minutes", pens),
       ("team_faceoff_wins", fow),
       ("team_powerplay_goals", ppg),
       ("team_shorthanded_goals_against", shga)]

/-- One iteration of the period loop of
`GameStatsBase._parse_by_period` (endpoints.py lines 581-601):
the bucket for the period entry's own `period` field is created before
any player is seen. -/
def gsb_process_period (player_stats_key : String) (side : String) (period : JVal)
    (m : List (JVal × List (List (String × JVal)))) :
    Except PyErr (List (JVal × List (List (String × JVal)))) := do
  let period_number ← pyAttrGet period "period" .null
  let m ← bucketTouch m period_number
  let team_context ← gsb_team_context side period
  let playersRaw ← pyAttrGet period player_stats_key (.arr [])
  let players ← pyIter playersRaw
  players.foldlM (fun m player => do
      let flattened ← pyFlatten player
      let flattened := recUpdate flattened team_context
      bucketAdd m period_number flattened) m

/-- `GameStatsBase._parse_by_period` (endpoints.py lines 571-603),
parameterized like the source by `ENDPOINT_NAME` and
`PLAYER_STATS_KEY` (the subclasses `GameSkaterStats` and
`GameGoalieStats` set `"periodPlayerStats"` resp.
`"goaliePeriodStats"`). -/
def gsb_parse_by_period (endpoint_name player_stats_key : String) (response : JVal) :
    Except PyErr (List (List (List (String × JVal)))) :=
  match response with
  | .obj _ => do
    let m ← ["homeTeam", "awayTeam"].foldlM (fun m side => do
        let teamPeriodsRaw ← pyAttrGet response side (.arr [])
        let team_periods ← pyIter teamPeriodsRaw
        team_periods.foldlM
          (fun m period => gsb_process_period player_stats_key side period m) m)
      []
    let keys ← pySorted (m.map Prod.fst)
    .ok ((keys.map (bucketGet m)).filter fun b => !b.isEmpty)
  | _ =>
    .error (.liigaAPIError
      ("Unexpected response type for " ++ endpoint_name ++ ": " ++ pyTypeName response))

/-- One field of the merge loop of `GameStatsBase._parse_sum_players`
(endpoints.py lines 618-629): like the skater merge but the final
`else` overwrites unconditionally, `None` included. -/
def gsb_mergeField (total : List (String × JVal)) (k : String) (v : JVal) :
    Except PyErr (List (String × JVal)) :=
  if k ∈ ["playerId", "jerseyId", "teamId"] then .ok total
  else if k = "period" then do
    let m ← pyMax (pyGetD total k (.int 0)) (if isinstInt v then v else .int 0)
    .ok (recSet total k m)
  else if isinstNum v then do
    let s ← pyAdd (pyGetD total k (.int 0)) v
    .ok (recSet total k s)
  else .ok (recSet total k v)

/-- One player record folded into `player_totals` in
`GameStatsBase._parse_sum_players` (endpoints.py lines 610-629):
only a `playerId` that `is None` is skipped. -/
def gsb_sum_fold (totals : List (JVal × List (String × JVal)))
    (player : List (String × JVal)) :
    Except PyErr (List (JVal × List (String × JVal))) := do
  let player_id := pyGet player "playerId"
  if player_id.isNull then .ok totals
  else if hashable player_id then
    match totalsFind? totals player_id with
    | none => .ok (totals ++ [(player_id, player)])
    | some t => do
      let t' ← player.foldlM (fun t kv => gsb_mergeField t kv.1 kv.2) t
      .ok (totalsSet totals player_id t')
  else .error (.typeError ("unhashable type: " ++ pyTypeName player_id))

/-- The aggregation of `GameStatsBase._parse_sum_players`
(endpoints.py lines 605-631) applied to the by-period buckets, ending
with `list(player_totals.values())` — first-occurrence order, no
sort. -/
def gsb_sum_players_from (by_period : List (List (List (String × JVal)))) :
    Except PyErr (List (List (String × JVal))) := do
  let totals ← by_period.foldlM (fun ts period => period.foldlM gsb_sum_fold ts) []
  .ok (totals.map Prod.snd)

/-- `GameStatsBase._parse_sum_players` (endpoints.py lines 605-631). -/
def gsb_parse_sum_players (endpoint_name player_stats_key : String) (response : JVal) :
    Except PyErr (List (List (String × JVal))) := do
  let bp ← gsb_parse_by_period endpoint_name player_stats_key response
  gsb_sum_players_from bp
/-- Python `isinstance(v, dict)`, the shape check of
`GameStatsBase._parse_by_period`. -/
def isinstDict : JVal → Bool
  | .obj _ => true
  | _ => false

/-- A strict JSON number: an `int` or a `float` (not a `bool`).  Used
to state the "purely numeric stat fields" hypothesis of the
commutativity claim. -/
def numericVal : JVal → Bool
  | .int _ => true
  | .float _ => true
  | _ => false

/-- Specification of the per-field result of the merge loop of
`_parse_sum_players` on well-typed records: the value the merged
record associates to `k` after folding `player` into `total`. -/
def mergeSpec (total player : List (String × JVal)) (k : String) : Option JVal :=
  if k ∈ ["playerId", "jerseyId", "teamId"] then recGet? total k
  else
    match recGet? player k with
    | none => recGet? total k
    | some v =>
      if k = "period" then
        some (.int (max (intVal (pyGetD total k (.int 0))) (intVal v)))
      else (pyAdd (pyGetD total k (.int 0)) v).toOption

/-- The key sequence of a CPython dict built by inserting `keys` left
to right past the already-`seen` keys: first occurrences in order,
later duplicates (under Python `==`) ignored. -/
def dedupKeys (seen : List JVal) : List JVal → List JVal
  | [] => []
  | x :: xs =>
    if seen.any (fun k => scalarEq k x) then dedupKeys seen xs
    else x :: dedupKeys (seen ++ [x]) xs

/-!
## Flat record streams of `SkaterGameStats._parse_by_period`

The source interleaves record construction with bucketing.  The
following defs collect, in processing order, exactly the records the
loops of `_parse_by_period` construct (home side first, then away,
periods in response order, players in response order), with the same
error behaviour.  They are the same code with the
`periods_out`-insertion steps removed, and are related to
`skater_parse_by_period` by a proved bridge theorem.
-/

/-- The records one iteration of the period loop of
`SkaterGameStats._parse_by_period` constructs, in order. -/
def skater_period_records (side : String)
    (puck_stats : List (List (String × JVal))) (i : Nat) (period : JVal) :
    Except PyErr (List (List (String × JVal))) := do
  let team_stats := parse_record period skater_PERIOD_TEAM_CONTEXT
  let tid ← pySplitHead (pyGet team_stats "teamId") ':'
  let team_stats := recSet team_stats "teamId" (.str tid)
  let puck_period := if i < puck_stats.length then puck_stats.getD i [] else []
  let playersRaw ← pyAttrGet period "periodPlayerStats" (.arr [])
  let players ← pyIter playersRaw
  .ok (players.map (skater_player_record side team_stats puck_period))

/-- The records one side's iterations of the period loop construct. -/
def skater_side_records (response : JVal)
    (puck_stats : List (List (String × JVal))) (side : String) :
    Except PyErr (List (List (String × JVal))) := do
  let teamPeriodsRaw ← pyAttrGet response side (.arr [])
  let team_periods ← pyIter teamPeriodsRaw
  team_periods.enum.foldlM
    (fun acc ip => do
      let prs ← skater_period_records side puck_stats ip.1 ip.2
      .ok (acc ++ prs)) []

/-- All the records the loops of `SkaterGameStats._parse_by_period`
construct, in processing order. -/
def skater_all_records (response : JVal) :
    Except PyErr (List (List (String × JVal))) := do
  let puckRaw ← pyAttrGet response "puckStats" (.arr [])
  let puckItems ← pyIter puckRaw
  let puck_stats := puckItems.map fun p => parse_record p skater_PERIOD_PUCK_KEYS
  ["homeTeam", "awayTeam"].foldlM
    (fun acc side => do
      let srs ← skater_side_records response puck_stats side
      .ok (acc ++ srs)) []

/-!
## Basic lemmas about the record and bucket operations
-/

theorem recGet?_recSet_self (r : List (String × JVal)) (k : String) (v : JVal) :
    recGet? (recSet r k v) k = some v := by
  induction r with
  | nil => simp [recSet, recGet?]
  | cons kv rest ih =>
    obtain ⟨k', v'⟩ := kv
    by_cases h : k' = k <;> simp [recSet, recGet?, h, ih]

theorem recGet?_recSet_ne (r : List (String × JVal)) (k k' : String) (v : JVal)
    (h : k ≠ k') : recGet? (recSet r k v) k' = recGet? r k' := by
  induction r with
  | nil => simp [recSet, recGet?, h]
  | cons kv rest ih =>
    obtain ⟨k₀, v₀⟩ := kv
    by_cases h₀ : k₀ = k
    · subst h₀
      simp [recSet, recGet?, h]
    · simp [recSet, recGet?, h₀, ih]

theorem recSet_keys_of_not_mem (r : List (String × JVal)) (k : String) (v : JVal)
    (h : k ∉ r.map Prod.fst) :
    (recSet r k v).map Prod.fst = r.map Prod.fst ++ [k] := by
  induction r with
  | nil => simp [recSet]
  | cons kv rest ih =>
    obtain ⟨k₀, v₀⟩ := kv
    simp only [List.map_cons, List.mem_cons] at h
    push_neg at h
    simp [recSet, Ne.symm h.1, ih h.2]

theorem recGet?_recUpdate_not_mem (out s : List (String × JVal)) (k : String)
    (h : k ∉ s.map Prod.fst) : recGet? (recUpdate out s) k = recGet? out k := by
  induction s generalizing out with
  | nil => simp [recUpdate]
  | cons kv rest ih =>
    obtain ⟨k₀, v₀⟩ := kv
    simp only [List.map_cons, List.mem_cons] at h
    push_neg at h
    have step : recUpdate out ((k₀, v₀) :: rest) = recUpdate (recSet out k₀ v₀) rest := by
      simp [recUpdate]
    rw [step, ih _ h.2, recGet?_recSet_ne _ _ _ _ (Ne.symm h.1)]

theorem recGet?_recUpdate_mem_nodup (out s : List (String × JVal)) (k : String)
    (v : JVal) (hnd : (s.map Prod.fst).Nodup) (h : recGet? s k = some v) :
    recGet? (recUpdate out s) k = some v := by
  induction s generalizing out with
  | nil => simp [recGet?] at h
  | cons kv rest ih =>
    obtain ⟨k₀, v₀⟩ := kv
    simp only [List.map_cons, List.nodup_cons] at hnd
    have step : recUpdate out ((k₀, v₀) :: rest) = recUpdate (recSet out k₀ v₀) rest := by
      simp [recUpdate]
    rw [step]
    by_cases hk : k₀ = k
    · subst hk
      simp only [recGet?, if_pos rfl] at h
      obtain rfl : v₀ = v := by injection h
      rw [recGet?_recUpdate_not_mem _ _ _ hnd.1, recGet?_recSet_self]
    · simp only [recGet?, if_neg hk] at h
      exact ih _ hnd.2 h
/-!
## `scalarEq` is an equivalence on hashable values
-/

theorem scalarEq_refl (a : JVal) (h : hashable a = true) : scalarEq a a = true := by
  cases a <;> simp_all [hashable, scalarEq, toNum?]

theorem scalarEq_symm (a b : JVal) : scalarEq a b = scalarEq b a := by
  cases a <;> cases b <;>
    first
      | rfl
      | exact decide_eq_decide.mpr eq_comm

theorem scalarEq_trans {a b c : JVal} (h₁ : scalarEq a b = true)
    (h₂ : scalarEq b c = true) : scalarEq a c = true := by
  cases a <;> cases b <;> cases c <;> simp_all [scalarEq, toNum?]

/-!
## Bridging `pySorted` with Mathlib's `insertionSort`
-/

theorem orderedInsert_lt_sorted {α : Type} [LinearOrder α] (a : α) :
    ∀ l : List α, l.Sorted (· ≤ ·) → (l.orderedInsert (· < ·) a).Sorted (· ≤ ·)
  | [], _ => List.sorted_singleton a
  | b :: l, h => by
    by_cases hab : a < b
    · simp only [List.orderedInsert, if_pos hab]
      refine List.sorted_cons.2 ⟨fun c hc => ?_, h⟩
      rcases List.mem_cons.1 hc with rfl | hc
      · exact le_of_lt hab
      · exact le_trans (le_of_lt hab) ((List.sorted_cons.1 h).1 c hc)
    · simp only [List.orderedInsert, if_neg hab]
      have h' := List.sorted_cons.1 h
      refine List.sorted_cons.2 ⟨fun c hc => ?_, orderedInsert_lt_sorted a l h'.2⟩
      rcases (List.mem_orderedInsert _).1 hc with rfl | hc
      · exact le_of_not_lt hab
      · exact h'.1 c hc

theorem insertionSort_lt_sorted {α : Type} [LinearOrder α] :
    ∀ l : List α, (l.insertionSort (· < ·)).Sorted (· ≤ ·)
  | [] => List.sorted_nil
  | a :: l => orderedInsert_lt_sorted a _ (insertionSort_lt_sorted l)

theorem pyInsert_map {α : Type} [LinearOrder α] (f : α → JVal)
    (hcmp : ∀ a b : α, pyLt (f a) (f b) = .ok (decide (a < b))) (x : α) :
    ∀ l : List α, pyInsert (f x) (l.map f) = .ok ((l.orderedInsert (· < ·) x).map f)
  | [] => rfl
  | y :: ys => by
    by_cases h : x < y
    · simp [pyInsert, hcmp, h, List.orderedInsert, Bind.bind, Except.bind,
        Pure.pure, Except.pure]
    · simp [pyInsert, hcmp, h, List.orderedInsert, pyInsert_map f hcmp x ys,
        Bind.bind, Except.bind, Functor.map, Except.map, Pure.pure, Except.pure]

theorem pySorted_map {α : Type} [LinearOrder α] (f : α → JVal)
    (hcmp : ∀ a b : α, pyLt (f a) (f b) = .ok (decide (a < b))) :
    ∀ l : List α, pySorted (l.map f) = .ok ((l.insertionSort (· < ·)).map f)
  | [] => rfl
  | x :: xs => by
    simp [pySorted, pySorted_map f hcmp xs, List.insertionSort, pyInsert_map f hcmp,
      Bind.bind, Except.bind]

theorem pyLt_str (a b : String) : pyLt (.str a) (.str b) = .ok (decide (a < b)) :=
  congrArg Except.ok (decide_eq_decide.mpr String.lt_iff_toList_lt.symm)

theorem pyLt_int (m n : Int) : pyLt (.int m) (.int n) = .ok (decide (m < n)) := by
  simp only [pyLt, toNum?]
  exact congrArg Except.ok (decide_eq_decide.mpr (by exact_mod_cast Iff.rfl))
/-!
## C4: the three null cases of `_get_nested`
-/

/-- C4: for every mapping `r`, `ResponseParser._get_nested(r, "a.b")`
returns `None` (never raising) when `r` has no key `"a"`, when
`r["a"]` is not a mapping, and when `r["a"]` is a mapping without key
`"b"` — the same `None` in all three cases. -/
theorem c4_get_nested_null_cases (r : List (String × JVal)) :
    (recGet? r "a" = none → get_nested (.obj r) "a.b" = .null) ∧
    (∀ v, recGet? r "a" = some v → (∀ fs, v ≠ .obj fs) →
      get_nested (.obj r) "a.b" = .null) ∧
    (∀ fs, recGet? r "a" = some (.obj fs) → recGet? fs "b" = none →
      get_nested (.obj r) "a.b" = .null) := by
  have hsplit : get_nested (.obj r) "a.b" = get_nested_loop (.obj r) ["a", "b"] := rfl
  refine ⟨fun ha => ?_, fun v hv hnobj => ?_, fun fs hv hb => ?_⟩
  · rw [hsplit]
    simp [get_nested_loop, pyGet, ha, JVal.isNull]
  · rw [hsplit]
    cases v with
    | obj fs => exact absurd rfl (hnobj fs)
    | null => simp [get_nested_loop, pyGet, hv, JVal.isNull]
    | bool b => simp [get_nested_loop, pyGet, hv, JVal.isNull]
    | int n => simp [get_nested_loop, pyGet, hv, JVal.isNull]
    | float q => simp [get_nested_loop, pyGet, hv, JVal.isNull]
    | str s => simp [get_nested_loop, pyGet, hv, JVal.isNull]
    | arr xs => simp [get_nested_loop, pyGet, hv, JVal.isNull]
  · rw [hsplit]
    simp [get_nested_loop, pyGet, hv, hb, JVal.isNull]

/-- Witness for C4 at three concrete records. -/
theorem c4_get_nested_null_cases_witness :
    get_nested (.obj [("x", .int 1)]) "a.b" = .null ∧
    get_nested (.obj [("a", .int 1)]) "a.b" = .null ∧
    get_nested (.obj [("a", .obj [("c", .int 1)])]) "a.b" = .null :=
  ⟨(c4_get_nested_null_cases [("x", .int 1)]).1 rfl,
   (c4_get_nested_null_cases [("a", .int 1)]).2.1 (.int 1) rfl
     (fun _ h => JVal.noConfusion h),
   (c4_get_nested_null_cases [("a", .obj [("c", .int 1)])]).2.2
     [("c", .int 1)] rfl rfl⟩

/-!
## C5: `_parse_record` produces exactly the declared columns
-/

theorem parse_record_fold (data : JVal) :
    ∀ (cols : List (String × String)) (acc : List (String × JVal)),
      (cols.map Prod.snd).Nodup →
      (∀ c ∈ cols.map Prod.snd, c ∉ acc.map Prod.fst) →
      (cols.foldl (fun acc pc => recSet acc pc.2 (get_nested data pc.1)) acc).map
          Prod.fst = acc.map Prod.fst ++ cols.map Prod.snd
  | [], acc, _, _ => by simp
  | (p, c) :: cols, acc, hnd, hdisj => by
    simp only [List.map_cons, List.nodup_cons] at hnd
    simp only [List.map_cons, List.mem_cons, forall_eq_or_imp] at hdisj
    have hkeys := recSet_keys_of_not_mem acc c (get_nested data p) hdisj.1
    have hdisj' : ∀ c' ∈ cols.map Prod.snd,
        c' ∉ (recSet acc c (get_nested data p)).map Prod.fst := by
      intro c' hc'
      rw [hkeys]
      simp only [List.mem_append, List.mem_singleton, not_or]
      exact ⟨hdisj.2 c' hc', fun hcc => hnd.1 (hcc ▸ hc')⟩
    have ih := parse_record_fold data cols (recSet acc c (get_nested data p))
      hnd.2 hdisj'
    simp only [List.foldl_cons]
    rw [ih, hkeys, List.append_assoc]
    rfl

/-- C5: for every column spec with unique output names and every
record, `ResponseParser._parse_record` returns a mapping whose keys
are exactly the declared output column names (even in declaration
order), whatever is present in the record. -/
theorem c5_parse_record_columns (data : JVal) (columns : List (String × String))
    (h : (columns.map Prod.snd).Nodup) :
    (parse_record data columns).map Prod.fst = columns.map Prod.snd := by
  have := parse_record_fold data columns [] h (by simp)
  simpa [parse_record] using this

/-- Witness for C5: a two-column spec applied to a record containing
neither source path. -/
theorem c5_parse_record_columns_witness :
    ((([("a.b", "x"), ("c", "y")] : List (String × String)).map Prod.snd).Nodup) ∧
    (parse_record (.obj [("unrelated", .int 7)]) [("a.b", "x"), ("c", "y")]).map
        Prod.fst = [("a.b", "x"), ("c", "y")].map Prod.snd :=
  ⟨by decide,
   c5_parse_record_columns (.obj [("unrelated", .int 7)]) [("a.b", "x"), ("c", "y")]
     (by decide)⟩

/-!
## C2: `flatten_dict` ignores the path prefix it builds
-/

/-- C2 (code bug): `flatten_dict` threads
`parent_key=f"{parent_key}{k}_"` through every recursive call but then
stores each leaf under its bare key, so for `{"a": {"b": 1}}` the leaf
lands under `"b"`, not under the path key `"a_b"` the spec promises,
and for `{"a": {"x": 1}, "c": {"x": 2}}` the two leaves collide and
the first is lost instead of appearing once each under `"a_x"` and
`"c_x"`. -/
theorem c2_flatten_dict_bare_keys :
    flatten_dict [("a", .obj [("b", .int 1)])] "" [] = [("b", .int 1)] ∧
    flatten_dict [("a", .obj [("x", .int 1)]), ("c", .obj [("x", .int 2)])] "" []
      = [("x", .int 2)] := by
  constructor <;>
    simp [flatten_dict, flatten_items, flatten_one, recUpdate, recSet]

/-!
## C3: non-mapping responses
-/

/-- C3 (counterexample): on the non-mapping response `[]`,
`SkaterGameStats._parse_by_period` raises `AttributeError` from
`self.response.get(...)`, not the `LiigaAPIError` the claim
promises. -/
theorem c3_counterexample :
    skater_parse_by_period (.arr []) =
      .error (.attributeError "list object has no attribute get") ∧
    ¬ ∃ msg, skater_parse_by_period (.arr []) = .error (.liigaAPIError msg) := by
  refine ⟨rfl, ?_⟩
  rintro ⟨msg, h⟩
  rw [show skater_parse_by_period (.arr [])
      = .error (.attributeError "list object has no attribute get") from rfl] at h
  exact PyErr.noConfusion (Except.error.inj h)

/-- C3 (amended): on every non-mapping response, all six game-stat
parses stop with an error before any extraction — `GameStatsBase`
(both modes) with the explicit `LiigaAPIError`, but `SkaterGameStats`
and `GoalieGameStats` (both modes) with the `AttributeError` of
calling `.get` on a non-dict. -/
theorem c3_amended (endpoint_name player_stats_key : String) (response : JVal)
    (h : isinstDict response = false) :
    skater_parse_by_period response =
      .error (.attributeError (pyTypeName response ++ " object has no attribute get")) ∧
    skater_parse_sum_players response =
      .error (.attributeError (pyTypeName response ++ " object has no attribute get")) ∧
    goalie_parse_by_period response =
      .error (.attributeError (pyTypeName response ++ " object has no attribute get")) ∧
    goalie_parse_sum_players response =
      .error (.attributeError (pyTypeName response ++ " object has no attribute get")) ∧
    gsb_parse_by_period endpoint_name player_stats_key response =
      .error (.liigaAPIError
        ("Unexpected response type for " ++ endpoint_name ++ ": " ++ pyTypeName response)) ∧
    gsb_parse_sum_players endpoint_name player_stats_key response =
      .error (.liigaAPIError
        ("Unexpected response type for " ++ endpoint_name ++ ": " ++ pyTypeName response)) := by
  cases response with
  | obj fields => exact absurd h (by simp [isinstDict])
  | null => exact ⟨rfl, rfl, rfl, rfl, rfl, rfl⟩
  | bool b => exact ⟨rfl, rfl, rfl, rfl, rfl, rfl⟩
  | int n => exact ⟨rfl, rfl, rfl, rfl, rfl, rfl⟩
  | float q => exact ⟨rfl, rfl, rfl, rfl, rfl, rfl⟩
  | str s => exact ⟨rfl, rfl, rfl, rfl, rfl, rfl⟩
  | arr xs => exact ⟨rfl, rfl, rfl, rfl, rfl, rfl⟩

/-- Witness for C3 (amended) at the list response `[]`. -/
theorem c3_amended_witness :
    isinstDict (.arr []) = false ∧
    gsb_parse_by_period "GameSkaterStats" "periodPlayerStats" (.arr []) =
      .error (.liigaAPIError
        "Unexpected response type for GameSkaterStats: list") :=
  ⟨rfl,
   (c3_amended "GameSkaterStats" "periodPlayerStats" (.arr []) rfl).2.2.2.2.1⟩
/-!
## Arithmetic helpers for the merge loop
-/

theorem toNum?_isSome_of_isinstNum (v : JVal) (h : isinstNum v = true) :
    ∃ y, toNum? v = some y := by
  cases v <;> simp_all [isinstNum, toNum?]

theorem pyAdd_num (a b : JVal) (x y : ℚ) (hx : toNum? a = some x)
    (hy : toNum? b = some y) :
    ∃ s, pyAdd a b = .ok s ∧ toNum? s = some (x + y) := by
  cases a <;> cases b <;>
    simp_all [toNum?, pyAdd, isinstInt, intVal]

theorem pyMax_int (a b : Int) : pyMax (.int a) (.int b) = .ok (.int (max a b)) := by
  have hcast : ((a : ℚ) < (b : ℚ)) ↔ a < b := by exact_mod_cast Iff.rfl
  by_cases h : a < b
  · simp [pyMax, pyGt, toNum?, Bind.bind, Except.bind, Pure.pure, Except.pure,
      hcast, h, max_eq_right (le_of_lt h)]
  · simp [pyMax, pyGt, toNum?, Bind.bind, Except.bind, Pure.pure, Except.pure,
      hcast, h, max_eq_left (not_lt.1 h)]

/-!
## C1: the merge rules of `_parse_sum_players`
-/

/-- C1 (amended): the merge rules of
`SkaterGameStats._parse_sum_players`, with the period rule corrected to
treat every non-`int` incoming value — a `float` included — as 0,
where the claim said "non-numeric": identity fields are skipped, the
period is maxed, numeric incoming values are added to the running
total (0 when absent), non-numeric non-null incoming values overwrite,
and the claim's concrete scenario for player `X` yields goals 1,
shots 5, period 2. -/
theorem c1_merge_rules (total : List (String × JVal)) (k : String) (v : JVal)
    (a : Int) :
    (k ∈ ["playerId", "jerseyId", "teamId"] → mergeField total k v = .ok total) ∧
    (pyGetD total "period" (.int 0) = .int a → ∀ b : Int,
      mergeField total "period" (.int b) = .ok (recSet total "period" (.int (max a b)))) ∧
    (pyGetD total "period" (.int 0) = .int a → isinstInt v = false →
      mergeField total "period" v = .ok (recSet total "period" (.int (max a 0)))) ∧
    (k ∉ ["playerId", "jerseyId", "teamId"] → k ≠ "period" → isinstNum v = true →
      ∀ x : ℚ, toNum? (pyGetD total k (.int 0)) = some x →
      ∃ s, mergeField total k v = .ok (recSet total k s) ∧
        toNum? s = some (x + (toNum? v).getD 0)) ∧
    (k ∉ ["playerId", "jerseyId", "teamId"] → k ≠ "period" → isinstNum v = false →
      v.isNull = false → mergeField total k v = .ok (recSet total k v)) ∧
    sum_players_from
        [[[("playerId", .str "X"), ("goals", .int 1), ("shots", .int 3),
           ("period", .int 1)]],
         [[("playerId", .str "X"), ("goals", .int 0), ("shots", .int 2),
           ("period", .int 2)]]]
      = .ok [[("playerId", .str "X"), ("goals", .int 1), ("shots", .int 5),
              ("period", .int 2)]] := by
  refine ⟨fun hmem => ?_, fun hper b => ?_, fun hper hni => ?_,
    fun hnid hnper hnum x hx => ?_, fun hnid hnper hnum hnn => ?_, rfl⟩
  · simp [mergeField, hmem]
  · simp [mergeField, hper, isinstInt, pyMax_int, Bind.bind, Except.bind]
  · simp [mergeField, hper, hni, pyMax_int, Bind.bind, Except.bind]
  · obtain ⟨y, hy⟩ := toNum?_isSome_of_isinstNum v hnum
    obtain ⟨s, hs, hts⟩ := pyAdd_num (pyGetD total k (.int 0)) v x y hx hy
    refine ⟨s, ?_, by rw [hts, hy]; rfl⟩
    simp [mergeField, hnid, hnper, hnum, hs, Bind.bind, Except.bind]
  · simp [mergeField, hnid, hnper, hnum, hnn]

/-- Witness for C1 at concrete records and values. -/
theorem c1_merge_rules_witness :
    mergeField [("playerId", .str "X")] "playerId" (.int 9) =
      .ok [("playerId", .str "X")] ∧
    mergeField [("period", .int 1)] "period" (.int 2) =
      .ok [("period", .int 2)] ∧
    mergeField [("period", .int 3)] "period" (.str "x") =
      .ok [("period", .int 3)] ∧
    (∃ s, mergeField [("goals", .int 1)] "goals" (.int 2) =
        .ok (recSet [("goals", .int 1)] "goals" s) ∧
      toNum? s = some (1 + (toNum? (.int 2)).getD 0)) ∧
    mergeField [("goals", .int 1)] "note" (.str "ok") =
      .ok [("goals", .int 1), ("note", .str "ok")] := by
  refine ⟨(c1_merge_rules [("playerId", .str "X")] "playerId" (.int 9) 0).1 (by decide),
    ?_, ?_, ?_, ?_⟩
  · have h := (c1_merge_rules [("period", .int 1)] "period" (.int 9) 1).2.1 rfl 2
    simpa [recSet] using h
  · have h := (c1_merge_rules [("period", .int 3)] "period" (.str "x") 3).2.2.1 rfl rfl
    simpa [recSet] using h
  · exact (c1_merge_rules [("goals", .int 1)] "goals" (.int 2) 0).2.2.2.1
      (by decide) (by decide) rfl 1 rfl
  · have h := (c1_merge_rules [("goals", .int 1)] "note" (.str "ok") 0).2.2.2.2.1
      (by decide) (by decide) rfl rfl
    simpa [recSet] using h

/-- C1 (counterexample): with an incoming `float` period 3.0 — numeric
but not an `int` — the code keeps `max(1, 0) = 1` where the claim's
reading (non-numeric incoming treated as 0, numeric used as is)
requires `max(1, 3.0) = 3.0`. -/
theorem c1_counterexample :
    sum_players_from
        [[[("playerId", .str "X"), ("period", .int 1)]],
         [[("playerId", .str "X"), ("period", .float 3)]]]
      = .ok [[("playerId", .str "X"), ("period", .int 1)]] ∧
    isinstNum (.float 3) = true ∧
    pyMax (.int 1) (.float 3) = .ok (.float 3) ∧
    JVal.int 1 ≠ JVal.float 3 := by
  refine ⟨rfl, rfl, rfl, fun h => JVal.noConfusion h⟩
/-!
## Helper lemmas for the merge characterization
-/

theorem bind_ok_iff {α β : Type} {e : Except PyErr α} {f : α → Except PyErr β}
    {b : β} : (e >>= f) = .ok b ↔ ∃ a, e = .ok a ∧ f a = .ok b := by
  cases e <;> simp [Bind.bind, Except.bind]

theorem recGet?_mem {r : List (String × JVal)} {k : String} {v : JVal}
    (h : recGet? r k = some v) : (k, v) ∈ r := by
  induction r with
  | nil => simp [recGet?] at h
  | cons kv rest ih =>
    obtain ⟨k₀, v₀⟩ := kv
    by_cases hk : k₀ = k
    · subst hk
      rw [show recGet? ((k₀, v₀) :: rest) k₀ = some v₀ from by simp [recGet?]] at h
      cases Option.some.inj h
      exact List.mem_cons_self _ _
    · simp only [recGet?, if_neg hk] at h
      exact List.mem_cons_of_mem _ (ih h)

theorem recSet_mem {r : List (String × JVal)} {k : String} {v : JVal}
    {kv : String × JVal} (h : kv ∈ recSet r k v) : kv = (k, v) ∨ kv ∈ r := by
  induction r with
  | nil => simpa [recSet] using h
  | cons kv₀ rest ih =>
    obtain ⟨k₀, v₀⟩ := kv₀
    by_cases hk : k₀ = k
    · subst hk
      rw [show recSet ((k₀, v₀) :: rest) k₀ v = (k₀, v) :: rest from by
        simp [recSet]] at h
      rcases List.mem_cons.1 h with h' | h'
      · exact Or.inl h'
      · exact Or.inr (List.mem_cons_of_mem _ h')
    · rw [show recSet ((k₀, v₀) :: rest) k v = (k₀, v₀) :: recSet rest k v from by
        simp [recSet, hk]] at h
      rcases List.mem_cons.1 h with h' | h'
      · exact Or.inr (h' ▸ List.mem_cons_self _ _)
      · rcases ih h' with h'' | h''
        · exact Or.inl h''
        · exact Or.inr (List.mem_cons_of_mem _ h'')

theorem pyAdd_comm {a b : JVal} (ha : numericVal a = true)
    (hb : numericVal b = true) : pyAdd a b = pyAdd b a := by
  cases a <;> cases b <;>
    simp_all [numericVal, pyAdd, toNum?, intVal, isinstInt] <;> ring

theorem pyAdd_zero_left {v : JVal} (h : numericVal v = true) :
    pyAdd (.int 0) v = .ok v := by
  cases v <;> simp_all [numericVal, pyAdd, toNum?, intVal, isinstInt]

theorem pyAdd_numericVal {a b s : JVal} (ha : numericVal a = true)
    (hb : numericVal b = true) (h : pyAdd a b = .ok s) : numericVal s = true := by
  cases a <;> cases b <;>
    simp_all [numericVal, pyAdd, toNum?, intVal, isinstInt] <;>
    rw [← h]
theorem numericVal_isinstNum {v : JVal} (h : numericVal v = true) :
    isinstNum v = true := by
  cases v <;> simp_all [numericVal, isinstNum]

theorem numericVal_toNum? {v : JVal} (h : numericVal v = true) :
    ∃ y, toNum? v = some y := by
  cases v <;> simp_all [numericVal, toNum?]

theorem ids_ne_period {k : String} (h : k ∈ ["playerId", "jerseyId", "teamId"]) :
    k ≠ "period" := by
  simp only [List.mem_cons, List.not_mem_nil, or_false] at h
  rcases h with rfl | rfl | rfl <;> decide

theorem mergeSpec_eq_of_get_eq {t t' : List (String × JVal)}
    (player : List (String × JVal))
    (h : ∀ k, recGet? t k = recGet? t' k) (k : String) :
    mergeSpec t player k = mergeSpec t' player k := by
  unfold mergeSpec pyGetD
  rw [h k]

/-- The merge loop of `_parse_sum_players` on well-typed records
succeeds and realizes `mergeSpec` pointwise. -/
theorem mergePlayer_char :
    ∀ (player total : List (String × JVal)),
      (player.map Prod.fst).Nodup →
      (∀ kv ∈ player, kv.1 ∉ ["playerId", "jerseyId", "teamId"] →
        (kv.1 = "period" → ∃ n : Int, kv.2 = .int n) ∧
        (kv.1 ≠ "period" → numericVal kv.2 = true)) →
      (∀ v, recGet? total "period" = some v → ∃ n : Int, v = .int n) →
      (∀ kv ∈ total, kv.1 ∉ ["playerId", "jerseyId", "teamId"] →
        kv.1 ≠ "period" → numericVal kv.2 = true) →
      ∃ M, mergePlayer total player = .ok M ∧
        ∀ k, recGet? M k = mergeSpec total player k
  | [], total, _, _, _, _ => by
    refine ⟨total, rfl, fun k => ?_⟩
    by_cases hk : k ∈ ["playerId", "jerseyId", "teamId"] <;>
      simp [mergeSpec, hk, recGet?]
  | (k₀, v₀) :: rest, total, hnd, hplayer, htper, htnum => by
    simp only [List.map_cons, List.nodup_cons] at hnd
    have hplayer_rest := fun kv hkv => hplayer kv (List.mem_cons_of_mem _ hkv)
    by_cases hk₀ : k₀ ∈ ["playerId", "jerseyId", "teamId"]
    · -- identity field: skipped
      obtain ⟨M, hM, hMk⟩ := mergePlayer_char rest total hnd.2 hplayer_rest htper htnum
      refine ⟨M, ?_, fun k => ?_⟩
      · show (do
            let t ← mergeField total k₀ v₀
            mergePlayer t rest) = .ok M
        rw [show mergeField total k₀ v₀ = .ok total from by simp [mergeField, hk₀]]
        simpa [Bind.bind, Except.bind] using hM
      · rw [hMk k]
        by_cases hk : k ∈ ["playerId", "jerseyId", "teamId"]
        · simp [mergeSpec, hk]
        · have hne : k₀ ≠ k := fun h => hk (h ▸ hk₀)
          simp only [mergeSpec, if_neg hk, recGet?]
          rw [if_neg hne]
    · have hhead := hplayer (k₀, v₀) (List.mem_cons_self _ _) hk₀
      have hrestnone : k₀ ∉ List.map Prod.fst rest → recGet? rest k₀ = none := by
        intro hmem
        cases hrec : recGet? rest k₀ with
        | none => rfl
        | some v => exact absurd (List.mem_map_of_mem Prod.fst (recGet?_mem hrec)) hmem
      by_cases hper : k₀ = "period"
      · -- the period field: maxed
        subst hper
        obtain ⟨b, rfl⟩ := hhead.1 rfl
        obtain ⟨a₀, hex⟩ : ∃ a₀ : Int, pyGetD total "period" (.int 0) = .int a₀ := by
          unfold pyGetD
          cases hrec : recGet? total "period" with
          | none => exact ⟨0, rfl⟩
          | some v =>
            obtain ⟨n, rfl⟩ := htper v hrec
            exact ⟨n, rfl⟩
        have hmf : mergeField total "period" (.int b)
            = .ok (recSet total "period" (.int (max a₀ b))) := by
          unfold mergeField
          rw [if_neg hk₀, if_pos rfl, hex]
          simp [isinstInt, pyMax_int, Bind.bind, Except.bind]
        have htper₁ : ∀ v,
            recGet? (recSet total "period" (.int (max a₀ b))) "period" = some v →
            ∃ n : Int, v = .int n := by
          intro v hv
          rw [recGet?_recSet_self] at hv
          exact ⟨max a₀ b, (Option.some.inj hv).symm⟩
        have htnum₁ : ∀ kv ∈ recSet total "period" (.int (max a₀ b)),
            kv.1 ∉ ["playerId", "jerseyId", "teamId"] →
            kv.1 ≠ "period" → numericVal kv.2 = true := by
          intro kv hkv hkv1 hkv2
          rcases recSet_mem hkv with rfl | hkv'
          · exact absurd rfl hkv2
          · exact htnum kv hkv' hkv1 hkv2
        obtain ⟨M, hM, hMk⟩ := mergePlayer_char rest _ hnd.2 hplayer_rest htper₁ htnum₁
        refine ⟨M, ?_, fun k => ?_⟩
        · show (do
              let t ← mergeField total "period" (.int b)
              mergePlayer t rest) = .ok M
          rw [hmf]
          simpa [Bind.bind, Except.bind] using hM
        · rw [hMk k]
          by_cases hk : k ∈ ["playerId", "jerseyId", "teamId"]
          · have hgk : recGet? (recSet total "period" (.int (max a₀ b))) k
                = recGet? total k :=
              recGet?_recSet_ne _ _ _ _ (Ne.symm (ids_ne_period hk))
            simp [mergeSpec, hk, hgk]
          · by_cases hkper : k = "period"
            · subst hkper
              have hL : mergeSpec (recSet total "period" (.int (max a₀ b))) rest "period"
                  = some (.int (max a₀ b)) := by
                simp [mergeSpec, hk, hrestnone hnd.1, recGet?_recSet_self]
              have hR : mergeSpec total (("period", JVal.int b) :: rest) "period"
                  = some (.int (max a₀ b)) := by
                simp [mergeSpec, hk, recGet?, hex, intVal]
              rw [hL, hR]
            · have hgk : recGet? (recSet total "period" (.int (max a₀ b))) k
                  = recGet? total k := recGet?_recSet_ne _ _ _ _ (Ne.symm hkper)
              have hgkD : ∀ d, pyGetD (recSet total "period" (.int (max a₀ b))) k d
                  = pyGetD total k d := by
                intro d
                unfold pyGetD
                rw [hgk]
              have hcons : recGet? (("period", JVal.int b) :: rest) k
                  = recGet? rest k := by
                simp only [recGet?]
                rw [if_neg (fun h => hkper h.symm)]
              simp only [mergeSpec, if_neg hk, hcons, hgk, hgkD]
      · -- an ordinary stat field: summed
        have hv₀ : numericVal v₀ = true := hhead.2 hper
        obtain ⟨y, hy⟩ := numericVal_toNum? hv₀
        have he : numericVal (pyGetD total k₀ (.int 0)) = true := by
          unfold pyGetD
          cases hrec : recGet? total k₀ with
          | none => rfl
          | some w => exact htnum (k₀, w) (recGet?_mem hrec) hk₀ hper
        obtain ⟨x, hx⟩ := numericVal_toNum? he
        obtain ⟨s, hs, hts⟩ := pyAdd_num _ _ x y hx hy
        have hnums : numericVal s = true := pyAdd_numericVal he hv₀ hs
        have hmf : mergeField total k₀ v₀ = .ok (recSet total k₀ s) := by
          simp [mergeField, hk₀, hper, numericVal_isinstNum hv₀, hs,
            Bind.bind, Except.bind]
        have htper₁ : ∀ v, recGet? (recSet total k₀ s) "period" = some v →
            ∃ n : Int, v = .int n := by
          intro v hv
          rw [recGet?_recSet_ne total k₀ "period" s hper] at hv
          exact htper v hv
        have htnum₁ : ∀ kv ∈ recSet total k₀ s,
            kv.1 ∉ ["playerId", "jerseyId", "teamId"] →
            kv.1 ≠ "period" → numericVal kv.2 = true := by
          intro kv hkv hkv1 hkv2
          rcases recSet_mem hkv with rfl | hkv'
          · exact hnums
          · exact htnum kv hkv' hkv1 hkv2
        obtain ⟨M, hM, hMk⟩ := mergePlayer_char rest _ hnd.2 hplayer_rest htper₁ htnum₁
        refine ⟨M, ?_, fun k => ?_⟩
        · show (do
              let t ← mergeField total k₀ v₀
              mergePlayer t rest) = .ok M
          rw [hmf]
          simpa [Bind.bind, Except.bind] using hM
        · rw [hMk k]
          by_cases hk : k ∈ ["playerId", "jerseyId", "teamId"]
          · have hgk : recGet? (recSet total k₀ s) k = recGet? total k :=
              recGet?_recSet_ne _ _ _ _ (fun h => hk₀ (h ▸ hk))
            simp [mergeSpec, hk, hgk]
          · by_cases hkk : k = k₀
            · subst hkk
              have hL : mergeSpec (recSet total k s) rest k = some s := by
                simp [mergeSpec, hk, hrestnone hnd.1, recGet?_recSet_self]
              have hR : mergeSpec total ((k, v₀) :: rest) k = some s := by
                simp [mergeSpec, hk, recGet?, hper, hs, Except.toOption]
              rw [hL, hR]
            · have hgk : recGet? (recSet total k₀ s) k = recGet? total k :=
                recGet?_recSet_ne _ _ _ _ (Ne.symm hkk)
              have hgkD : ∀ d, pyGetD (recSet total k₀ s) k d = pyGetD total k d := by
                intro d
                unfold pyGetD
                rw [hgk]
              have hcons : recGet? ((k₀, v₀) :: rest) k = recGet? rest k := by
                simp only [recGet?]
                rw [if_neg (fun h => hkk h.symm)]
              simp only [mergeSpec, if_neg hk, hcons, hgk, hgkD]
/-!
## C7: commutativity of the two-period merge
-/

theorem sum_fold_first (P : List (String × JVal)) (pid : String) (hpid : pid ≠ "")
    (h : recGet? P "playerId" = some (.str pid)) :
    sum_fold [] P = .ok [(.str pid, P)] := by
  unfold sum_fold
  simp [pyGet, h, pyTruthy, hpid, hashable, totalsFind?]

theorem sum_fold_second (P₁ P₂ M : List (String × JVal)) (pid : String)
    (hpid : pid ≠ "") (h : recGet? P₂ "playerId" = some (.str pid))
    (hM : mergePlayer P₁ P₂ = .ok M) :
    sum_fold [(.str pid, P₁)] P₂ = .ok [(.str pid, M)] := by
  unfold sum_fold
  simp [pyGet, h, pyTruthy, hpid, hashable, totalsFind?, scalarEq, hM,
    totalsSet, Bind.bind, Except.bind]

theorem sum_two_singletons (P₁ P₂ M : List (String × JVal)) (pid : String)
    (hpid : pid ≠ "")
    (h1 : recGet? P₁ "playerId" = some (.str pid))
    (h2 : recGet? P₂ "playerId" = some (.str pid))
    (hM : mergePlayer P₁ P₂ = .ok M) :
    sum_players_from [[P₁], [P₂]] = .ok [M] := by
  unfold sum_players_from
  rw [show ([[P₁], [P₂]] : List (List (List (String × JVal)))).foldlM
        (fun ts period => period.foldlM sum_fold ts) [] = .ok [(.str pid, M)] from by
    simp [List.foldlM, sum_fold_first P₁ pid hpid h1,
      sum_fold_second P₁ P₂ M pid hpid h2 hM, Bind.bind, Except.bind,
      Pure.pure, Except.pure]]
  simp [pySorted, pyInsert, totalsGet, totalsFind?, scalarEq,
    Bind.bind, Except.bind, Pure.pure, Except.pure]

/-- C7 (amended): for two period records of the same player whose
non-identity stat fields are numbers (ints or floats) and whose
`period` fields are ints, the two processing orders agree on every
non-identity field, and both report `max(P1.period, P2.period)`;
identity fields (`playerId`, `jerseyId`, `teamId`) are taken from the
first-processed record, so the unqualified claim fails when the two
records disagree on a numeric identity field such as `jerseyId`. -/
theorem c7_sum_commutes (P₁ P₂ : List (String × JVal)) (pid : String)
    (p₁ p₂ : Int) (hpid : pid ≠ "")
    (h1 : recGet? P₁ "playerId" = some (.str pid))
    (h2 : recGet? P₂ "playerId" = some (.str pid))
    (hnd1 : (P₁.map Prod.fst).Nodup) (hnd2 : (P₂.map Prod.fst).Nodup)
    (hs1 : ∀ kv ∈ P₁, kv.1 ∉ ["playerId", "jerseyId", "teamId"] →
      (kv.1 = "period" → ∃ n : Int, kv.2 = .int n) ∧
      (kv.1 ≠ "period" → numericVal kv.2 = true))
    (hs2 : ∀ kv ∈ P₂, kv.1 ∉ ["playerId", "jerseyId", "teamId"] →
      (kv.1 = "period" → ∃ n : Int, kv.2 = .int n) ∧
      (kv.1 ≠ "period" → numericVal kv.2 = true))
    (hp1 : recGet? P₁ "period" = some (.int p₁))
    (hp2 : recGet? P₂ "period" = some (.int p₂)) :
    ∃ M₁₂ M₂₁,
      sum_players_from [[P₁], [P₂]] = .ok [M₁₂] ∧
      sum_players_from [[P₂], [P₁]] = .ok [M₂₁] ∧
      (∀ k, k ∉ ["playerId", "jerseyId", "teamId"] → pyGet M₁₂ k = pyGet M₂₁ k) ∧
      pyGet M₁₂ "period" = .int (max p₁ p₂) ∧
      pyGet M₂₁ "period" = .int (max p₁ p₂) := by
  have htper1 : ∀ v, recGet? P₁ "period" = some v → ∃ n : Int, v = .int n := by
    intro v hv
    rw [hp1] at hv
    exact ⟨p₁, (Option.some.inj hv).symm⟩
  have htper2 : ∀ v, recGet? P₂ "period" = some v → ∃ n : Int, v = .int n := by
    intro v hv
    rw [hp2] at hv
    exact ⟨p₂, (Option.some.inj hv).symm⟩
  have htnum1 : ∀ kv ∈ P₁, kv.1 ∉ ["playerId", "jerseyId", "teamId"] →
      kv.1 ≠ "period" → numericVal kv.2 = true :=
    fun kv h hni hnp => (hs1 kv h hni).2 hnp
  have htnum2 : ∀ kv ∈ P₂, kv.1 ∉ ["playerId", "jerseyId", "teamId"] →
      kv.1 ≠ "period" → numericVal kv.2 = true :=
    fun kv h hni hnp => (hs2 kv h hni).2 hnp
  obtain ⟨M₁₂, hM12, hM12k⟩ := mergePlayer_char P₂ P₁ hnd2 hs2 htper1 htnum1
  obtain ⟨M₂₁, hM21, hM21k⟩ := mergePlayer_char P₁ P₂ hnd1 hs1 htper2 htnum2
  have hD1 : pyGetD P₁ "period" (.int 0) = .int p₁ := by
    unfold pyGetD
    rw [hp1]
    rfl
  have hD2 : pyGetD P₂ "period" (.int 0) = .int p₂ := by
    unfold pyGetD
    rw [hp2]
    rfl
  have hper12 : mergeSpec P₁ P₂ "period" = some (.int (max p₁ p₂)) := by
    simp [mergeSpec, hp2, hD1, intVal]
  have hper21 : mergeSpec P₂ P₁ "period" = some (.int (max p₁ p₂)) := by
    simp [mergeSpec, hp1, hD2, intVal, max_comm p₁ p₂]
  refine ⟨M₁₂, M₂₁, sum_two_singletons P₁ P₂ M₁₂ pid hpid h1 h2 hM12,
    sum_two_singletons P₂ P₁ M₂₁ pid hpid h2 h1 hM21, fun k hk => ?_, ?_, ?_⟩
  · have hswap : mergeSpec P₁ P₂ k = mergeSpec P₂ P₁ k := by
      by_cases hkper : k = "period"
      · rw [hkper, hper12, hper21]
      · cases hg2 : recGet? P₂ k with
        | none =>
          cases hg1 : recGet? P₁ k with
          | none => simp [mergeSpec, hk, hg1, hg2]
          | some v₁ =>
            have hv₁ : numericVal v₁ = true := htnum1 (k, v₁) (recGet?_mem hg1) hk hkper
            have hDa : pyGetD P₂ k (.int 0) = .int 0 := by
              unfold pyGetD
              rw [hg2]
              rfl
            simp [mergeSpec, hk, hg1, hg2, hkper, hDa, pyAdd_zero_left hv₁,
              Except.toOption]
        | some v₂ =>
          have hv₂ : numericVal v₂ = true := htnum2 (k, v₂) (recGet?_mem hg2) hk hkper
          cases hg1 : recGet? P₁ k with
          | none =>
            have hDa : pyGetD P₁ k (.int 0) = .int 0 := by
              unfold pyGetD
              rw [hg1]
              rfl
            simp [mergeSpec, hk, hg1, hg2, hkper, hDa, pyAdd_zero_left hv₂,
              Except.toOption]
          | some v₁ =>
            have hv₁ : numericVal v₁ = true := htnum1 (k, v₁) (recGet?_mem hg1) hk hkper
            have hDa : pyGetD P₁ k (.int 0) = v₁ := by
              unfold pyGetD
              rw [hg1]
              rfl
            have hDb : pyGetD P₂ k (.int 0) = v₂ := by
              unfold pyGetD
              rw [hg2]
              rfl
            simp [mergeSpec, hk, hg1, hg2, hkper, hDa, hDb, pyAdd_comm hv₁ hv₂]
    rw [pyGet, pyGet, hM12k k, hM21k k, hswap]
  · rw [pyGet, hM12k "period", hper12]
    rfl
  · rw [pyGet, hM21k "period", hper21]
    rfl
/-- Witness for C7 at two concrete well-typed period records. -/
theorem c7_sum_commutes_witness :
    ∃ M₁₂ M₂₁,
      sum_players_from
          [[[("playerId", .str "X"), ("period", .int 1), ("goals", .int 2)]],
           [[("playerId", .str "X"), ("period", .int 2), ("shots", .float 1)]]]
        = .ok [M₁₂] ∧
      sum_players_from
          [[[("playerId", .str "X"), ("period", .int 2), ("shots", .float 1)]],
           [[("playerId", .str "X"), ("period", .int 1), ("goals", .int 2)]]]
        = .ok [M₂₁] ∧
      (∀ k, k ∉ ["playerId", "jerseyId", "teamId"] → pyGet M₁₂ k = pyGet M₂₁ k) ∧
      pyGet M₁₂ "period" = .int (max 1 2) ∧
      pyGet M₂₁ "period" = .int (max 1 2) := by
  refine c7_sum_commutes _ _ "X" 1 2 (by decide) rfl rfl (by decide) (by decide)
    ?_ ?_ rfl rfl
  · intro kv hkv hni
    simp only [List.mem_cons, List.not_mem_nil, or_false] at hkv
    rcases hkv with rfl | rfl | rfl
    · exact absurd (by decide) hni
    · exact ⟨fun _ => ⟨1, rfl⟩, fun h => absurd rfl h⟩
    · exact ⟨fun h => absurd h (by decide), fun _ => rfl⟩
  · intro kv hkv hni
    simp only [List.mem_cons, List.not_mem_nil, or_false] at hkv
    rcases hkv with rfl | rfl | rfl
    · exact absurd (by decide) hni
    · exact ⟨fun _ => ⟨2, rfl⟩, fun h => absurd rfl h⟩
    · exact ⟨fun h => absurd h (by decide), fun _ => rfl⟩

/-- C7 (counterexample): two period records of the same player with
purely numeric stat fields on which the two orders do NOT agree
field-by-field — the numeric field `jerseyId` keeps the value of the
first-processed record — and whose float periods make the result
differ from `max(P1.period, P2.period)` in the first order. -/
theorem c7_counterexample :
    sum_players_from
        [[[("playerId", .str "X"), ("jerseyId", .int 10), ("period", .float 1),
           ("goals", .int 1)]],
         [[("playerId", .str "X"), ("jerseyId", .int 99), ("period", .float 2),
           ("goals", .int 2)]]]
      = .ok [[("playerId", .str "X"), ("jerseyId", .int 10), ("period", .float 1),
              ("goals", .int 3)]] ∧
    sum_players_from
        [[[("playerId", .str "X"), ("jerseyId", .int 99), ("period", .float 2),
           ("goals", .int 2)]],
         [[("playerId", .str "X"), ("jerseyId", .int 10), ("period", .float 1),
           ("goals", .int 1)]]]
      = .ok [[("playerId", .str "X"), ("jerseyId", .int 99), ("period", .float 2),
              ("goals", .int 3)]] ∧
    isinstNum (.int 10) = true ∧
    JVal.int 10 ≠ JVal.int 99 ∧
    pyMax (.float 1) (.float 2) = .ok (.float 2) ∧
    JVal.float 1 ≠ JVal.float 2 := by
  refine ⟨rfl, rfl, rfl,
    fun h => absurd (JVal.int.inj h) (by decide),
    rfl,
    fun h => absurd (JVal.float.inj h) (by norm_num)⟩
/-!
## Generic lemmas about `foldlM` over `Except`
-/

theorem foldlM_inv {α σ : Type} (P : σ → Prop) :
    ∀ (l : List α) (f : σ → α → Except PyErr σ),
      (∀ s a, a ∈ l → P s → ∀ s', f s a = .ok s' → P s') →
      ∀ s₀ s', l.foldlM f s₀ = .ok s' → P s₀ → P s'
  | [], f, _, s₀, s', h, h₀ => by
    simp only [List.foldlM_nil] at h
    exact (Except.ok.inj h) ▸ h₀
  | a :: l, f, hf, s₀, s', h, h₀ => by
    simp only [List.foldlM_cons] at h
    obtain ⟨t, h1, h2⟩ := bind_ok_iff.1 h
    exact foldlM_inv P l f
      (fun s a' ha' => hf s a' (List.mem_cons_of_mem _ ha'))
      t s' h2 (hf s₀ a (List.mem_cons_self _ _) h₀ t h1)

theorem foldlM_buckets {α σ : Type} (f : σ → α → Except PyErr σ) :
    ∀ (buckets : List (List α)) (s₀ : σ),
      buckets.foldlM (fun s b => b.foldlM f s) s₀ = buckets.flatten.foldlM f s₀
  | [], s₀ => rfl
  | b :: bs, s₀ => by
    simp only [List.foldlM_cons, List.flatten_cons, List.foldlM_append]
    cases hb : b.foldlM f s₀ with
    | error e => simp [Bind.bind, Except.bind]
    | ok t =>
      simp only [Bind.bind, Except.bind]
      exact foldlM_buckets f bs t
/-!
## Identity fields survive the merge loop
-/

theorem mergeField_id_pres {total t₁ : List (String × JVal)} {k₀ : String}
    {v₀ : JVal} (h : mergeField total k₀ v₀ = .ok t₁) {k : String}
    (hk : k ∈ ["playerId", "jerseyId", "teamId"]) :
    recGet? t₁ k = recGet? total k := by
  by_cases h1 : k₀ ∈ ["playerId", "jerseyId", "teamId"]
  · rw [show mergeField total k₀ v₀ = .ok total from by simp [mergeField, h1]] at h
    cases Except.ok.inj h
    rfl
  · have hne : k₀ ≠ k := fun he => h1 (he ▸ hk)
    unfold mergeField at h
    rw [if_neg h1] at h
    split_ifs at h <;>
      first
        | (cases Except.ok.inj h; rfl)
        | (obtain ⟨m, _, ht⟩ := bind_ok_iff.1 h
           cases Except.ok.inj ht
           exact recGet?_recSet_ne total k₀ k m hne)
        | (cases Except.ok.inj h
           exact recGet?_recSet_ne total k₀ k v₀ hne)

theorem mergePlayer_id_pres :
    ∀ (player total M : List (String × JVal)),
      mergePlayer total player = .ok M →
      ∀ k ∈ ["playerId", "jerseyId", "teamId"], recGet? M k = recGet? total k
  | [], total, M, h, k, hk => by
    simp only [mergePlayer, List.foldlM_nil] at h
    cases Except.ok.inj h
    rfl
  | kv :: rest, total, M, h, k, hk => by
    simp only [mergePlayer, List.foldlM_cons] at h
    obtain ⟨t₁, h1, h2⟩ := bind_ok_iff.1 h
    rw [mergePlayer_id_pres rest t₁ M h2 k hk, mergeField_id_pres h1 hk]

theorem gsb_mergeField_id_pres {total t₁ : List (String × JVal)} {k₀ : String}
    {v₀ : JVal} (h : gsb_mergeField total k₀ v₀ = .ok t₁) {k : String}
    (hk : k ∈ ["playerId", "jerseyId", "teamId"]) :
    recGet? t₁ k = recGet? total k := by
  by_cases h1 : k₀ ∈ ["playerId", "jerseyId", "teamId"]
  · rw [show gsb_mergeField total k₀ v₀ = .ok total from by
      simp [gsb_mergeField, h1]] at h
    cases Except.ok.inj h
    rfl
  · have hne : k₀ ≠ k := fun he => h1 (he ▸ hk)
    unfold gsb_mergeField at h
    rw [if_neg h1] at h
    split_ifs at h <;>
      first
        | (obtain ⟨m, _, ht⟩ := bind_ok_iff.1 h
           cases Except.ok.inj ht
           exact recGet?_recSet_ne total k₀ k m hne)
        | (cases Except.ok.inj h
           exact recGet?_recSet_ne total k₀ k v₀ hne)

theorem gsb_merge_fold_id_pres :
    ∀ (player total M : List (String × JVal)),
      player.foldlM (fun t kv => gsb_mergeField t kv.1 kv.2) total = .ok M →
      ∀ k ∈ ["playerId", "jerseyId", "teamId"], recGet? M k = recGet? total k
  | [], total, M, h, k, hk => by
    simp only [List.foldlM_nil] at h
    cases Except.ok.inj h
    rfl
  | kv :: rest, total, M, h, k, hk => by
    simp only [List.foldlM_cons] at h
    obtain ⟨t₁, h1, h2⟩ := bind_ok_iff.1 h
    rw [gsb_merge_fold_id_pres rest t₁ M h2 k hk, gsb_mergeField_id_pres h1 hk]

/-!
## Lemmas about `player_totals`
-/

theorem totalsFind?_mem :
    ∀ {m : List (JVal × List (String × JVal))} {key : JVal}
      {t : List (String × JVal)}, totalsFind? m key = some t →
      ∃ k₁, (k₁, t) ∈ m ∧ scalarEq k₁ key = true
  | [], key, t, h => by simp [totalsFind?] at h
  | (k₀, t₀) :: rest, key, t, h => by
    by_cases he : scalarEq k₀ key = true
    · rw [show totalsFind? ((k₀, t₀) :: rest) key = some t₀ from by
        simp [totalsFind?, he]] at h
      exact ⟨k₀, (Option.some.inj h) ▸ List.mem_cons_self _ _, he⟩
    · rw [show totalsFind? ((k₀, t₀) :: rest) key = totalsFind? rest key from by
        simp [totalsFind?, he]] at h
      obtain ⟨k₁, hmem, hsc⟩ := totalsFind?_mem h
      exact ⟨k₁, List.mem_cons_of_mem _ hmem, hsc⟩

theorem totalsSet_found_char :
    ∀ {m : List (JVal × List (String × JVal))} {key : JVal}
      {t : List (String × JVal)} (t' : List (String × JVal)),
      totalsFind? m key = some t →
      ∀ kt ∈ totalsSet m key t', kt ∈ m ∨ (kt.2 = t' ∧ (kt.1, t) ∈ m ∧
        scalarEq kt.1 key = true)
  | [], key, t, t', h => by simp [totalsFind?] at h
  | (k₀, t₀) :: rest, key, t, t', h => by
    intro kt hkt
    by_cases he : scalarEq k₀ key = true
    · rw [show totalsFind? ((k₀, t₀) :: rest) key = some t₀ from by
        simp [totalsFind?, he]] at h
      cases Option.some.inj h
      rw [show totalsSet ((k₀, t₀) :: rest) key t' = (k₀, t') :: rest from by
        simp [totalsSet, he]] at hkt
      rcases List.mem_cons.1 hkt with rfl | hkt'
      · exact Or.inr ⟨rfl, List.mem_cons_self _ _, he⟩
      · exact Or.inl (List.mem_cons_of_mem _ hkt')
    · rw [show totalsFind? ((k₀, t₀) :: rest) key = totalsFind? rest key from by
        simp [totalsFind?, he]] at h
      rw [show totalsSet ((k₀, t₀) :: rest) key t'
          = (k₀, t₀) :: totalsSet rest key t' from by
        simp [totalsSet, he]] at hkt
      rcases List.mem_cons.1 hkt with rfl | hkt'
      · exact Or.inl (List.mem_cons_self _ _)
      · rcases totalsSet_found_char t' h kt hkt' with h' | ⟨ha, hb, hc⟩
        · exact Or.inl (List.mem_cons_of_mem _ h')
        · exact Or.inr ⟨ha, List.mem_cons_of_mem _ hb, hc⟩

theorem totalsSet_keys_of_found :
    ∀ {m : List (JVal × List (String × JVal))} {key : JVal}
      {t : List (String × JVal)} (t' : List (String × JVal)),
      totalsFind? m key = some t →
      (totalsSet m key t').map Prod.fst = m.map Prod.fst
  | [], key, t, t', h => by simp [totalsFind?] at h
  | (k₀, t₀) :: rest, key, t, t', h => by
    by_cases he : scalarEq k₀ key = true
    · rw [show totalsSet ((k₀, t₀) :: rest) key t' = (k₀, t') :: rest from by
        simp [totalsSet, he]]
      rfl
    · rw [show totalsFind? ((k₀, t₀) :: rest) key = totalsFind? rest key from by
        simp [totalsFind?, he]] at h
      rw [show totalsSet ((k₀, t₀) :: rest) key t'
          = (k₀, t₀) :: totalsSet rest key t' from by
        simp [totalsSet, he]]
      simp [totalsSet_keys_of_found t' h]

theorem totalsFind?_none_iff :
    ∀ {m : List (JVal × List (String × JVal))} {key : JVal},
      totalsFind? m key = none ↔
        (m.map Prod.fst).any (fun k => scalarEq k key) = false
  | [], key => by simp [totalsFind?]
  | (k₀, t₀) :: rest, key => by
    by_cases he : scalarEq k₀ key = true <;>
      simp [totalsFind?, he, totalsFind?_none_iff (m := rest)]
theorem scalarEq_str {a : String} {b : JVal} (h : scalarEq (.str a) b = true) :
    b = .str a := by
  cases b <;> simp_all [scalarEq, toNum?]

theorem jstr_list : ∀ (l : List JVal), (∀ x ∈ l, ∃ s : String, x = .str s) →
    ∃ ss : List String, l = ss.map .str
  | [], _ => ⟨[], rfl⟩
  | x :: xs, h => by
    obtain ⟨s, rfl⟩ := h x (List.mem_cons_self _ _)
    obtain ⟨ss, hss⟩ := jstr_list xs (fun y hy => h y (List.mem_cons_of_mem _ hy))
    exact ⟨s :: ss, by rw [hss]; rfl⟩

theorem pyGet_str_recGet? {player : List (String × JVal)} {s : String}
    (h : pyGet player "playerId" = .str s) :
    recGet? player "playerId" = some (.str s) := by
  unfold pyGet at h
  cases hrec : recGet? player "playerId" with
  | none =>
    rw [hrec] at h
    exact absurd h (by simp)
  | some w =>
    rw [hrec] at h
    simp only [Option.getD_some] at h
    rw [h]

theorem sum_fold_eq_skip {ts : List (JVal × List (String × JVal))}
    {player : List (String × JVal)}
    (h : pyTruthy (pyGet player "playerId") = false) :
    sum_fold ts player = .ok ts := by
  unfold sum_fold
  simp [h]

theorem sum_fold_eq_new {ts : List (JVal × List (String × JVal))}
    {player : List (String × JVal)} {s : String}
    (hstr : pyGet player "playerId" = .str s) (ht : pyTruthy (.str s) = true)
    (hfind : totalsFind? ts (.str s) = none) :
    sum_fold ts player = .ok (ts ++ [(.str s, player)]) := by
  unfold sum_fold
  simp [hstr, ht, hashable, hfind]

theorem sum_fold_eq_merge {ts : List (JVal × List (String × JVal))}
    {player t : List (String × JVal)} {s : String}
    (hstr : pyGet player "playerId" = .str s) (ht : pyTruthy (.str s) = true)
    (hfind : totalsFind? ts (.str s) = some t) :
    sum_fold ts player = (do
      let t' ← mergePlayer t player
      Except.ok (totalsSet ts (.str s) t')) := by
  unfold sum_fold
  simp [hstr, ht, hashable, hfind]

theorem sum_fold_pres_inv {ts ts' : List (JVal × List (String × JVal))}
    {player : List (String × JVal)}
    (hplayer : pyTruthy (pyGet player "playerId") = true →
      ∃ s : String, pyGet player "playerId" = .str s)
    (hinv : ∀ kt ∈ ts, ∃ s : String, kt.1 = .str s ∧
      recGet? kt.2 "playerId" = some (.str s))
    (h : sum_fold ts player = .ok ts') :
    ∀ kt ∈ ts', ∃ s : String, kt.1 = .str s ∧
      recGet? kt.2 "playerId" = some (.str s) := by
  cases htb : pyTruthy (pyGet player "playerId") with
  | false =>
    rw [sum_fold_eq_skip htb] at h
    cases Except.ok.inj h
    exact hinv
  | true =>
    obtain ⟨s, hstr⟩ := hplayer htb
    rw [hstr] at htb
    cases hfind : totalsFind? ts (.str s) with
    | none =>
      rw [sum_fold_eq_new hstr htb hfind] at h
      cases Except.ok.inj h
      intro kt hkt
      rcases List.mem_append.1 hkt with hkt' | hkt'
      · exact hinv kt hkt'
      · rcases List.mem_singleton.1 hkt' with rfl
        exact ⟨s, rfl, pyGet_str_recGet? hstr⟩
    | some t =>
      rw [sum_fold_eq_merge hstr htb hfind] at h
      obtain ⟨M, hM, hset⟩ := bind_ok_iff.1 h
      cases Except.ok.inj hset
      intro kt hkt
      rcases totalsSet_found_char M hfind kt hkt with hkt' | ⟨hM2, hmem, _⟩
      · exact hinv kt hkt'
      · obtain ⟨s₁, hk1, hrec⟩ := hinv (kt.1, t) hmem
        refine ⟨s₁, hk1, ?_⟩
        rw [hM2, mergePlayer_id_pres player t M hM "playerId" (by decide), hrec]

theorem totalsGet_id :
    ∀ (totals : List (JVal × List (String × JVal))) (key : JVal),
      (∀ kt ∈ totals, ∃ s : String, kt.1 = .str s ∧
        recGet? kt.2 "playerId" = some (.str s)) →
      key ∈ totals.map Prod.fst →
      pyGet (totalsGet totals key) "playerId" = key
  | [], key, _, hkey => by simp at hkey
  | (k₀, t₀) :: rest, key, hinv, hkey => by
    obtain ⟨s₀, hk₀, hrec₀⟩ := hinv (k₀, t₀) (List.mem_cons_self _ _)
    replace hk₀ : k₀ = JVal.str s₀ := hk₀
    replace hrec₀ : recGet? t₀ "playerId" = some (.str s₀) := hrec₀
    by_cases he : scalarEq k₀ key = true
    · rw [show totalsGet ((k₀, t₀) :: rest) key = t₀ from by
        simp [totalsGet, totalsFind?, he]]
      subst hk₀
      rw [scalarEq_str he]
      simp [pyGet, hrec₀]
    · have hkey' : key ∈ rest.map Prod.fst := by
        rcases List.mem_cons.1 hkey with h' | h'
        · exfalso
          apply he
          replace h' : key = k₀ := h'
          rw [h', hk₀]
          exact scalarEq_refl _ rfl
        · exact h'
      rw [show totalsGet ((k₀, t₀) :: rest) key = totalsGet rest key from by
        simp [totalsGet, totalsFind?, he]]
      exact totalsGet_id rest key
        (fun kt hkt => hinv kt (List.mem_cons_of_mem _ hkt)) hkey'
/-!
## C8: exclusion and output order of the summed aggregations
-/

theorem foldlM_sum_fold_filter :
    ∀ (rs : List (List (String × JVal))) (ts : List (JVal × List (String × JVal))),
      rs.foldlM sum_fold ts
        = (rs.filter fun r => pyTruthy (pyGet r "playerId")).foldlM sum_fold ts
  | [], ts => rfl
  | r :: rest, ts => by
    cases htb : pyTruthy (pyGet r "playerId") with
    | true =>
      rw [show (r :: rest).filter (fun r => pyTruthy (pyGet r "playerId"))
          = r :: rest.filter (fun r => pyTruthy (pyGet r "playerId")) from by
        simp [List.filter_cons, htb]]
      simp only [List.foldlM_cons]
      cases hr : sum_fold ts r with
      | error e => simp [Bind.bind, Except.bind]
      | ok t =>
        simp only [Bind.bind, Except.bind]
        exact foldlM_sum_fold_filter rest t
    | false =>
      rw [show (r :: rest).filter (fun r => pyTruthy (pyGet r "playerId"))
          = rest.filter (fun r => pyTruthy (pyGet r "playerId")) from by
        simp [List.filter_cons, htb]]
      simp only [List.foldlM_cons]
      rw [sum_fold_eq_skip htb]
      simp only [Bind.bind, Except.bind]
      exact foldlM_sum_fold_filter rest ts

theorem sum_players_from_filter (buckets : List (List (List (String × JVal)))) :
    sum_players_from buckets
      = sum_players_from
          (buckets.map (·.filter fun r => pyTruthy (pyGet r "playerId"))) := by
  unfold sum_players_from
  have key : ∀ (bs : List (List (List (String × JVal))))
      (ts : List (JVal × List (String × JVal))),
      bs.foldlM (fun ts period => period.foldlM sum_fold ts) ts
        = (bs.map (·.filter fun r => pyTruthy (pyGet r "playerId"))).foldlM
            (fun ts period => period.foldlM sum_fold ts) ts := by
    intro bs
    induction bs with
    | nil => intro ts; rfl
    | cons b rest ih =>
      intro ts
      simp only [List.map_cons, List.foldlM_cons]
      rw [← foldlM_sum_fold_filter b ts]
      cases hb : b.foldlM sum_fold ts with
      | error e => simp [Bind.bind, Except.bind]
      | ok t =>
        simp only [Bind.bind, Except.bind]
        exact ih t
  rw [key buckets []]

theorem mem_of_mem_insertionSort {α : Type} {r : α → α → Prop}
    {inst : DecidableRel r} {x : α} {l : List α}
    (h : x ∈ @List.insertionSort α r inst l) : x ∈ l :=
  (@List.perm_insertionSort α r inst l).subset h

theorem sum_players_from_sorted (buckets : List (List (List (String × JVal))))
    (out : List (List (String × JVal)))
    (hstr : ∀ b ∈ buckets, ∀ r ∈ b, pyTruthy (pyGet r "playerId") = true →
      ∃ s : String, pyGet r "playerId" = .str s)
    (h : sum_players_from buckets = .ok out) :
    ∃ ss : List String, (out.map fun r => pyGet r "playerId") = ss.map .str ∧
      ss.Sorted (· ≤ ·) := by
  unfold sum_players_from at h
  obtain ⟨totals, hfold, h'⟩ := bind_ok_iff.1 h
  obtain ⟨keys, hsort, hout⟩ := bind_ok_iff.1 h'
  cases Except.ok.inj hout
  rw [foldlM_buckets] at hfold
  have hinv : ∀ kt ∈ totals, ∃ s : String, kt.1 = .str s ∧
      recGet? kt.2 "playerId" = some (.str s) := by
    refine foldlM_inv
      (fun ts => ∀ kt ∈ ts, ∃ s : String, kt.1 = .str s ∧
        recGet? kt.2 "playerId" = some (.str s))
      buckets.flatten sum_fold ?_ [] totals hfold ?_
    · intro ts r hr hP ts' hstep
      obtain ⟨b, hb, hrb⟩ := List.mem_flatten.1 hr
      exact sum_fold_pres_inv (hstr b hb r hrb) hP hstep
    · intro kt hkt
      exact absurd hkt (List.not_mem_nil kt)
  obtain ⟨ss, hss⟩ := jstr_list (totals.map Prod.fst) (fun x hx => by
    obtain ⟨kt, hkt, hxeq⟩ := List.mem_map.1 hx
    obtain ⟨s, hs, _⟩ := hinv kt hkt
    exact ⟨s, hxeq ▸ hs⟩)
  rw [hss, pySorted_map JVal.str
    (fun a b => (pyLt_str a b).trans
      (congrArg Except.ok (decide_eq_decide.mpr Iff.rfl))) ss] at hsort
  cases Except.ok.inj hsort
  refine ⟨_, ?_, insertionSort_lt_sorted ss⟩
  rw [List.map_map]
  refine (List.map_congr_left (fun key hkey => ?_)).trans (List.map_id _)
  show pyGet (totalsGet totals key) "playerId" = key
  apply totalsGet_id totals key hinv
  rw [hss]
  obtain ⟨s, hs, hseq⟩ := List.mem_map.1 hkey
  exact hseq ▸ List.mem_map_of_mem _ (mem_of_mem_insertionSort hs)
theorem gsb_sum_fold_eq_skip {ts : List (JVal × List (String × JVal))}
    {player : List (String × JVal)}
    (h : (pyGet player "playerId").isNull = true) :
    gsb_sum_fold ts player = .ok ts := by
  unfold gsb_sum_fold
  simp [h]

theorem gsb_sum_fold_eq_new {ts : List (JVal × List (String × JVal))}
    {player : List (String × JVal)} {id : JVal}
    (hid : pyGet player "playerId" = id) (hnn : id.isNull = false)
    (hh : hashable id = true) (hfind : totalsFind? ts id = none) :
    gsb_sum_fold ts player = .ok (ts ++ [(id, player)]) := by
  unfold gsb_sum_fold
  simp [hid, hnn, hh, hfind]

theorem gsb_sum_fold_eq_merge {ts : List (JVal × List (String × JVal))}
    {player t : List (String × JVal)} {id : JVal}
    (hid : pyGet player "playerId" = id) (hnn : id.isNull = false)
    (hh : hashable id = true) (hfind : totalsFind? ts id = some t) :
    gsb_sum_fold ts player = (do
      let t' ← player.foldlM (fun t kv => gsb_mergeField t kv.1 kv.2) t
      Except.ok (totalsSet ts id t')) := by
  unfold gsb_sum_fold
  simp [hid, hnn, hh, hfind]

theorem gsb_sum_fold_hashable {ts ts' : List (JVal × List (String × JVal))}
    {player : List (String × JVal)}
    (h : gsb_sum_fold ts player = .ok ts')
    (hnn : (pyGet player "playerId").isNull = false) :
    hashable (pyGet player "playerId") = true := by
  cases hh : hashable (pyGet player "playerId") with
  | true => rfl
  | false =>
    unfold gsb_sum_fold at h
    simp [hnn, hh] at h

theorem gsb_fold_keys :
    ∀ (rs : List (List (String × JVal)))
      (totals totals' : List (JVal × List (String × JVal))),
      rs.foldlM gsb_sum_fold totals = .ok totals' →
      totals'.map Prod.fst
        = totals.map Prod.fst ++
          dedupKeys (totals.map Prod.fst)
            ((rs.filter fun r => !(pyGet r "playerId").isNull).map
              (fun r => pyGet r "playerId"))
  | [], totals, totals', h => by
    simp only [List.foldlM_nil] at h
    cases Except.ok.inj h
    simp [dedupKeys]
  | r :: rest, totals, totals', h => by
    simp only [List.foldlM_cons] at h
    obtain ⟨t₁, h1, h2⟩ := bind_ok_iff.1 h
    cases hnull : (pyGet r "playerId").isNull with
    | true =>
      rw [gsb_sum_fold_eq_skip hnull] at h1
      cases Except.ok.inj h1
      rw [show (r :: rest).filter (fun r => !(pyGet r "playerId").isNull)
          = rest.filter (fun r => !(pyGet r "playerId").isNull) from by
        simp [List.filter_cons, hnull]]
      exact gsb_fold_keys rest totals totals' h2
    | false =>
      have hh := gsb_sum_fold_hashable h1 hnull
      rw [show (r :: rest).filter (fun r => !(pyGet r "playerId").isNull)
          = r :: rest.filter (fun r => !(pyGet r "playerId").isNull) from by
        simp [List.filter_cons, hnull]]
      cases hfind : totalsFind? totals (pyGet r "playerId") with
      | none =>
        rw [gsb_sum_fold_eq_new rfl hnull hh hfind] at h1
        cases Except.ok.inj h1
        have hany : (totals.map Prod.fst).any
            (fun k => scalarEq k (pyGet r "playerId")) = false :=
          totalsFind?_none_iff.1 hfind
        rw [List.map_cons, show dedupKeys (totals.map Prod.fst)
            (pyGet r "playerId" ::
              (rest.filter (fun r => !(pyGet r "playerId").isNull)).map
                (fun r => pyGet r "playerId"))
            = pyGet r "playerId" ::
              dedupKeys (totals.map Prod.fst ++ [pyGet r "playerId"])
                ((rest.filter (fun r => !(pyGet r "playerId").isNull)).map
                  (fun r => pyGet r "playerId")) from by
          simp [dedupKeys, hany]]
        have ih := gsb_fold_keys rest (totals ++ [(pyGet r "playerId", r)])
          totals' h2
        rw [ih]
        simp
      | some t =>
        rw [gsb_sum_fold_eq_merge rfl hnull hh hfind] at h1
        obtain ⟨M, _, hset⟩ := bind_ok_iff.1 h1
        cases Except.ok.inj hset
        have hkeys := totalsSet_keys_of_found M hfind
        have hany : (totals.map Prod.fst).any
            (fun k => scalarEq k (pyGet r "playerId")) = true := by
          cases ha : (totals.map Prod.fst).any
              (fun k => scalarEq k (pyGet r "playerId")) with
          | true => rfl
          | false =>
            rw [totalsFind?_none_iff.2 ha] at hfind
            exact Option.noConfusion hfind
        rw [List.map_cons, show dedupKeys (totals.map Prod.fst)
            (pyGet r "playerId" ::
              (rest.filter (fun r => !(pyGet r "playerId").isNull)).map
                (fun r => pyGet r "playerId"))
            = dedupKeys (totals.map Prod.fst)
                ((rest.filter (fun r => !(pyGet r "playerId").isNull)).map
                  (fun r => pyGet r "playerId")) from by
          simp [dedupKeys, hany]]
        have ih := gsb_fold_keys rest
          (totalsSet totals (pyGet r "playerId") M) totals' h2
        rw [ih, hkeys]
theorem pyGet_recGet?_of_not_null {player : List (String × JVal)} {k : String}
    (h : (pyGet player k).isNull = false) :
    recGet? player k = some (pyGet player k) := by
  unfold pyGet at h ⊢
  cases hrec : recGet? player k with
  | none =>
    rw [hrec] at h
    exact absurd h (by simp [JVal.isNull])
  | some w => simp [hrec]

theorem gsb_sum_fold_pres_inv {ts ts' : List (JVal × List (String × JVal))}
    {player : List (String × JVal)}
    (hinv : ∀ kt ∈ ts, recGet? kt.2 "playerId" = some kt.1)
    (h : gsb_sum_fold ts player = .ok ts') :
    ∀ kt ∈ ts', recGet? kt.2 "playerId" = some kt.1 := by
  cases hnull : (pyGet player "playerId").isNull with
  | true =>
    rw [gsb_sum_fold_eq_skip hnull] at h
    cases Except.ok.inj h
    exact hinv
  | false =>
    have hh := gsb_sum_fold_hashable h hnull
    cases hfind : totalsFind? ts (pyGet player "playerId") with
    | none =>
      rw [gsb_sum_fold_eq_new rfl hnull hh hfind] at h
      cases Except.ok.inj h
      intro kt hkt
      rcases List.mem_append.1 hkt with hkt' | hkt'
      · exact hinv kt hkt'
      · rcases List.mem_singleton.1 hkt' with rfl
        exact pyGet_recGet?_of_not_null hnull
    | some t =>
      rw [gsb_sum_fold_eq_merge rfl hnull hh hfind] at h
      obtain ⟨M, hM, hset⟩ := bind_ok_iff.1 h
      cases Except.ok.inj hset
      intro kt hkt
      rcases totalsSet_found_char M hfind kt hkt with hkt' | ⟨hM2, hmem, _⟩
      · exact hinv kt hkt'
      · rw [hM2, gsb_merge_fold_id_pres player t M hM "playerId" (by decide)]
        exact hinv (kt.1, t) hmem

theorem gsb_sum_players_from_order
    (buckets : List (List (List (String × JVal))))
    (out : List (List (String × JVal)))
    (h : gsb_sum_players_from buckets = .ok out) :
    out.map (fun r => pyGet r "playerId")
      = dedupKeys []
          ((buckets.flatten.filter fun r => !(pyGet r "playerId").isNull).map
            (fun r => pyGet r "playerId")) := by
  unfold gsb_sum_players_from at h
  obtain ⟨totals, hfold, hout⟩ := bind_ok_iff.1 h
  cases Except.ok.inj hout
  rw [foldlM_buckets] at hfold
  have hkeys := gsb_fold_keys buckets.flatten [] totals hfold
  have hinv : ∀ kt ∈ totals, recGet? kt.2 "playerId" = some kt.1 := by
    refine foldlM_inv (fun ts => ∀ kt ∈ ts, recGet? kt.2 "playerId" = some kt.1)
      buckets.flatten gsb_sum_fold ?_ [] totals hfold ?_
    · intro ts r _ hP ts' hstep
      exact gsb_sum_fold_pres_inv hP hstep
    · intro kt hkt
      exact absurd hkt (List.not_mem_nil kt)
  rw [List.map_map]
  refine Eq.trans ?_ (by simpa using hkeys)
  refine List.map_congr_left (fun kt hkt => ?_)
  show pyGet kt.2 "playerId" = kt.1
  rw [pyGet, hinv kt hkt]
  rfl

theorem foldlM_gsb_sum_fold_filter :
    ∀ (rs : List (List (String × JVal))) (ts : List (JVal × List (String × JVal))),
      rs.foldlM gsb_sum_fold ts
        = (rs.filter fun r => !(pyGet r "playerId").isNull).foldlM gsb_sum_fold ts
  | [], ts => rfl
  | r :: rest, ts => by
    cases hnull : (pyGet r "playerId").isNull with
    | false =>
      rw [show (r :: rest).filter (fun r => !(pyGet r "playerId").isNull)
          = r :: rest.filter (fun r => !(pyGet r "playerId").isNull) from by
        simp [List.filter_cons, hnull]]
      simp only [List.foldlM_cons]
      cases hr : gsb_sum_fold ts r with
      | error e => simp [Bind.bind, Except.bind]
      | ok t =>
        simp only [Bind.bind, Except.bind]
        exact foldlM_gsb_sum_fold_filter rest t
    | true =>
      rw [show (r :: rest).filter (fun r => !(pyGet r "playerId").isNull)
          = rest.filter (fun r => !(pyGet r "playerId").isNull) from by
        simp [List.filter_cons, hnull]]
      simp only [List.foldlM_cons]
      rw [gsb_sum_fold_eq_skip hnull]
      simp only [Bind.bind, Except.bind]
      exact foldlM_gsb_sum_fold_filter rest ts

theorem gsb_sum_players_from_filter
    (buckets : List (List (List (String × JVal)))) :
    gsb_sum_players_from buckets
      = gsb_sum_players_from
          (buckets.map (·.filter fun r => !(pyGet r "playerId").isNull)) := by
  unfold gsb_sum_players_from
  have key : ∀ (bs : List (List (List (String × JVal))))
      (ts : List (JVal × List (String × JVal))),
      bs.foldlM (fun ts period => period.foldlM gsb_sum_fold ts) ts
        = (bs.map (·.filter fun r => !(pyGet r "playerId").isNull)).foldlM
            (fun ts period => period.foldlM gsb_sum_fold ts) ts := by
    intro bs
    induction bs with
    | nil => intro ts; rfl
    | cons b rest ih =>
      intro ts
      simp only [List.map_cons, List.foldlM_cons]
      rw [← foldlM_gsb_sum_fold_filter b ts]
      cases hb : b.foldlM gsb_sum_fold ts with
      | error e => simp [Bind.bind, Except.bind]
      | ok t =>
        simp only [Bind.bind, Except.bind]
        exact ih t
  rw [key buckets []]
/-- C8 (amended): in the `SkaterGameStats`/`GoalieGameStats`
aggregation, records with a falsy `playerId` are excluded without
error, and the output is ascending by `playerId` (all resolvable ids
being strings); in the `GameStatsBase` aggregation, records whose
`playerId` is `None` are excluded without error, but the output is in
first-occurrence order of `playerId` — `list(player_totals.values())`
— not sorted. -/
theorem c8_exclusion_and_order
    (buckets : List (List (List (String × JVal))))
    (out gout : List (List (String × JVal)))
    (hstr : ∀ b ∈ buckets, ∀ r ∈ b, pyTruthy (pyGet r "playerId") = true →
      ∃ s : String, pyGet r "playerId" = .str s)
    (h : sum_players_from buckets = .ok out)
    (hg : gsb_sum_players_from buckets = .ok gout) :
    sum_players_from buckets
      = sum_players_from
          (buckets.map (·.filter fun r => pyTruthy (pyGet r "playerId"))) ∧
    (∃ ss : List String, (out.map fun r => pyGet r "playerId") = ss.map .str ∧
      ss.Sorted (· ≤ ·)) ∧
    gsb_sum_players_from buckets
      = gsb_sum_players_from
          (buckets.map (·.filter fun r => !(pyGet r "playerId").isNull)) ∧
    gout.map (fun r => pyGet r "playerId")
      = dedupKeys []
          ((buckets.flatten.filter fun r => !(pyGet r "playerId").isNull).map
            (fun r => pyGet r "playerId")) :=
  ⟨sum_players_from_filter buckets,
   sum_players_from_sorted buckets out hstr h,
   gsb_sum_players_from_filter buckets,
   gsb_sum_players_from_order buckets gout hg⟩

/-- Witness for C8 at a concrete one-bucket input containing one
resolvable player and one unresolvable record. -/
theorem c8_exclusion_and_order_witness :
    sum_players_from [[[("playerId", .str "A"), ("goals", .int 2)],
                       [("playerId", .null)]]]
      = sum_players_from
          ([[[("playerId", .str "A"), ("goals", .int 2)],
             [("playerId", .null)]]].map
            (·.filter fun r => pyTruthy (pyGet r "playerId"))) ∧
    (∃ ss : List String,
      (([[("playerId", .str "A"), ("goals", .int 2)]] :
          List (List (String × JVal))).map fun r => pyGet r "playerId")
        = ss.map .str ∧ ss.Sorted (· ≤ ·)) ∧
    gsb_sum_players_from [[[("playerId", .str "A"), ("goals", .int 2)],
                           [("playerId", .null)]]]
      = gsb_sum_players_from
          ([[[("playerId", .str "A"), ("goals", .int 2)],
             [("playerId", .null)]]].map
            (·.filter fun r => !(pyGet r "playerId").isNull)) ∧
    ([[("playerId", .str "A"), ("goals", .int 2)]] :
        List (List (String × JVal))).map (fun r => pyGet r "playerId")
      = dedupKeys []
          (([[[("playerId", .str "A"), ("goals", .int 2)],
              [("playerId", .null)]]] :
              List (List (List (String × JVal)))).flatten.filter
            (fun r => !(pyGet r "playerId").isNull) |>.map
            (fun r => pyGet r "playerId")) := by
  refine c8_exclusion_and_order
    [[[("playerId", .str "A"), ("goals", .int 2)], [("playerId", .null)]]]
    [[("playerId", .str "A"), ("goals", .int 2)]]
    [[("playerId", .str "A"), ("goals", .int 2)]]
    ?_ rfl rfl
  intro b hb r hr htr
  simp only [List.mem_cons, List.not_mem_nil, or_false] at hb
  rcases hb with rfl
  simp only [List.mem_cons, List.not_mem_nil, or_false] at hr
  rcases hr with rfl | rfl
  · exact ⟨"A", rfl⟩
  · exact absurd htr (by decide)

/-- C8 (counterexample): `GameStatsBase._parse_sum_players` returns the
players in first-occurrence order — `"B"` before `"A"` — although
`"A" < "B"`, so its output is not ascending by `playerId`. -/
theorem c8_counterexample :
    gsb_sum_players_from [[[("playerId", .str "B")], [("playerId", .str "A")]]]
      = .ok [[("playerId", .str "B")], [("playerId", .str "A")]] ∧
    ¬ (["B", "A"] : List String).Sorted (· ≤ ·) := by
  refine ⟨rfl, fun hcon => ?_⟩
  have h1 : ("B" : String) ≤ "A" := (List.sorted_cons.1 hcon).1 "A" (by simp)
  have h2 : ¬ ("B" : String) ≤ "A" := by
    simp only [String.le_iff_toList_le]
    decide
  exact h2 h1
/-!
## C6: a single-bucket response sums to that bucket
-/

theorem insertionSort_eq_self {α : Type} {r : α → α → Prop}
    {inst : DecidableRel r} {l : List α} (h : l.Sorted r) :
    @List.insertionSort α r inst l = l :=
  @List.Sorted.insertionSort_eq α r inst l h

theorem sum_fold_all_new :
    ∀ (rs : List (List (String × JVal))) (ts : List (JVal × List (String × JVal))),
      (∀ r ∈ rs, ∃ s : String, pyGet r "playerId" = .str s ∧ s ≠ "") →
      (ts.map Prod.fst ++ rs.map fun r => pyGet r "playerId").Pairwise
        (fun a b => scalarEq a b = false) →
      rs.foldlM sum_fold ts
        = .ok (ts ++ rs.map (fun r => (pyGet r "playerId", r)))
  | [], ts, _, _ => by
    simp only [List.foldlM_nil, List.map_nil, List.append_nil]
    rfl
  | r :: rest, ts, hids, hpw => by
    obtain ⟨s, hs, hne⟩ := hids r (List.mem_cons_self _ _)
    have htruthy : pyTruthy (.str s) = true := by simp [pyTruthy, hne]
    have hfind : totalsFind? ts (.str s) = none := by
      refine totalsFind?_none_iff.2 (List.any_eq_false.2 ?_)
      intro k hk
      have := (List.pairwise_append.1 hpw).2.2 k hk (pyGet r "playerId")
        (by simp [List.mem_cons_self])
      rw [hs] at this
      exact ne_true_of_eq_false this
    simp only [List.foldlM_cons]
    rw [sum_fold_eq_new hs htruthy hfind]
    simp only [Bind.bind, Except.bind]
    have hpw' : ((ts ++ [(JVal.str s, r)]).map Prod.fst
        ++ rest.map fun r => pyGet r "playerId").Pairwise
        (fun a b => scalarEq a b = false) := by
      have : (ts ++ [(JVal.str s, r)]).map Prod.fst
          = ts.map Prod.fst ++ [JVal.str s] := by simp
      rw [this, List.append_assoc]
      have hres := hpw
      rw [List.map_cons, hs] at hres
      exact hres
    have ih := sum_fold_all_new rest (ts ++ [(JVal.str s, r)])
      (fun r' hr' => hids r' (List.mem_cons_of_mem _ hr')) hpw'
    rw [ih]
    simp [hs, List.append_assoc]

theorem totalsGet_keys :
    ∀ (totals : List (JVal × List (String × JVal))),
      (totals.map Prod.fst).Pairwise (fun a b => scalarEq a b = false) →
      (∀ k ∈ totals.map Prod.fst, scalarEq k k = true) →
      (totals.map Prod.fst).map (totalsGet totals) = totals.map Prod.snd
  | [], _, _ => rfl
  | (k₀, r₀) :: rest, hpw, hrefl => by
    simp only [List.map_cons]
    rw [show totalsGet ((k₀, r₀) :: rest) k₀ = r₀ from by
      simp [totalsGet, totalsFind?, hrefl k₀ (by simp)]]
    congr 1
    have hstep : ∀ k ∈ rest.map Prod.fst,
        totalsGet ((k₀, r₀) :: rest) k = totalsGet rest k := by
      intro k hk
      have hf : scalarEq k₀ k = false := (List.pairwise_cons.1 hpw).1 k hk
      simp [totalsGet, totalsFind?, hf]
    rw [List.map_congr_left hstep]
    exact totalsGet_keys rest (List.pairwise_cons.1 hpw).2
      (fun k hk => hrefl k (List.mem_cons_of_mem _ hk))

/-- C6 (amended): if the by-period parse returns exactly one bucket
whose records carry distinct, non-empty string playerIds already in
ascending order, the summed parse returns exactly that bucket's
records, each copied verbatim with nothing double-counted; without
those conditions the outputs differ, since the summed parse drops
unresolvable ids and sorts by playerId. -/
theorem c6_single_bucket (response : JVal) (b : List (List (String × JVal)))
    (ss : List String)
    (h : skater_parse_by_period response = .ok [b])
    (hids : ∀ r ∈ b, ∃ s : String, pyGet r "playerId" = .str s ∧ s ≠ "")
    (hmap : b.map (fun r => pyGet r "playerId") = ss.map .str)
    (hsorted : ss.Sorted (· < ·)) :
    skater_parse_sum_players response = .ok b := by
  unfold skater_parse_sum_players
  rw [h]
  simp only [Bind.bind, Except.bind]
  unfold sum_players_from
  have hpw : (b.map fun r => pyGet r "playerId").Pairwise
      (fun a b => scalarEq a b = false) := by
    rw [hmap]
    refine List.Pairwise.map _ ?_ hsorted
    intro a b hab
    simp [scalarEq, ne_of_lt hab]
  have hfold := sum_fold_all_new b [] hids (by simpa using hpw)
  rw [show ([b] : List (List (List (String × JVal)))).foldlM
      (fun ts period => period.foldlM sum_fold ts) []
      = b.foldlM sum_fold [] from by
    simp only [List.foldlM_cons, List.foldlM_nil]
    cases hres : b.foldlM sum_fold ([] : List (JVal × List (String × JVal))) <;>
      simp [Bind.bind, Except.bind, Pure.pure, Except.pure]]
  rw [hfold]
  simp only [List.nil_append, Bind.bind, Except.bind]
  have hkeys : (b.map (fun r => (pyGet r "playerId", r))).map Prod.fst
      = ss.map .str := by
    rw [List.map_map]
    simpa using hmap
  rw [hkeys, pySorted_map JVal.str
    (fun a b => (pyLt_str a b).trans
      (congrArg Except.ok (decide_eq_decide.mpr Iff.rfl))) ss,
    insertionSort_eq_self hsorted]
  show Except.ok ((ss.map JVal.str).map
      (totalsGet (b.map (fun r => (pyGet r "playerId", r))))) = .ok b
  have hrefl : ∀ k ∈ (b.map (fun r => (pyGet r "playerId", r))).map Prod.fst,
      scalarEq k k = true := by
    rw [hkeys]
    intro k hk
    obtain ⟨s, _, rfl⟩ := List.mem_map.1 hk
    simp [scalarEq]
  have hgk := totalsGet_keys (b.map (fun r => (pyGet r "playerId", r)))
    (by rw [hkeys, ← hmap]; exact hpw) hrefl
  rw [show ss.map JVal.str
      = (b.map (fun r => (pyGet r "playerId", r))).map Prod.fst from hkeys.symm,
    hgk]
  simp only [List.map_map]
  exact congrArg Except.ok
    ((List.map_congr_left fun r _ => rfl).trans (List.map_id b))

/-- Witness for C6: the single-bucket theorem applied to a concrete
one-player response, every hypothesis discharged on the concrete data. -/
theorem c6_single_bucket_witness :
    skater_parse_sum_players
      (JVal.obj [("homeTeam", JVal.arr [JVal.obj [
      ("teamId", JVal.str "1:T"),
      ("periodPlayerStats", JVal.arr [
        JVal.obj [("playerId", JVal.str "A"),
          ("period", JVal.obj [("period", JVal.int 1)])]])]])])
    = .ok
    [[("jerseyId", JVal.null),
   ("playerId", JVal.str "A"),
   ("points", JVal.null),
   ("period", JVal.int 1),
   ("assists", JVal.null),
   ("goals", JVal.null),
   ("validGoals", JVal.null),
   ("plusminus", JVal.null),
   ("plus", JVal.null),
   ("minus", JVal.null),
   ("shots", JVal.null),
   ("penaltyminutes", JVal.null),
   ("powerplayGoals", JVal.null),
   ("shortHandedGoals", JVal.null),
   ("winningGoal", JVal.null),
   ("blockedShots", JVal.null),
   ("faceoffsTotal", JVal.null),
   ("faceoffsWon", JVal.null),
   ("corsiFor", JVal.null),
   ("corsiAgainst", JVal.null),
   ("faceoffsCenterTotal", JVal.null),
   ("faceoffsCenterWon", JVal.null),
   ("faceoffsDefenceTotal", JVal.null),
   ("faceoffsDefenceWon", JVal.null),
   ("faceoffsOffenceTotal", JVal.null),
   ("faceoffsOffenceWon", JVal.null),
   ("fsZoneStartsDz", JVal.null),
   ("fsZoneStartsOz", JVal.null),
   ("powerplay2Goals", JVal.null),
   ("penaltykill2Goals", JVal.null),
   ("powerplayAssists", JVal.null),
   ("penaltykillAssists", JVal.null),
   ("goalsToEmptyGoal", JVal.null),
   ("fsTeamShots", JVal.null),
   ("fsTeamGoals", JVal.null),
   ("fsTeamShotsAgainst", JVal.null),
   ("fsTeamGoalsAgainst", JVal.null),
   ("timeofice", JVal.null),
   ("distance", JVal.null),
   ("totalPasses", JVal.null),
   ("successfulPasses", JVal.null),
   ("playerPassesUnderPressure", JVal.null),
   ("playerSuccessfulPassesUnderPressure", JVal.null),
   ("playerPassesUnderHighPressure", JVal.null),
   ("playerSuccessfulPassesUnderHighPressure", JVal.null),
   ("expectedGoalsPlayer", JVal.null),
   ("expectedGoalsTeam", JVal.null),
   ("expectedGoalsAgainst", JVal.null),
   ("expectedGoalsAgainstShotOnGoal", JVal.null),
   ("teamId", JVal.str "1"),
   ("teamGoals", JVal.null),
   ("teamShots", JVal.null),
   ("teamPowerPlayGoals", JVal.null),
   ("teamShortHandedGoalsAgainst", JVal.null),
   ("teamPenaltyMinutes", JVal.null),
   ("teamFaceOffWins", JVal.null),
   ("teamTwoMinutePenalties", JVal.null),
   ("teamFiveMinutePenalties", JVal.null),
   ("teamTenMinutePenalties", JVal.null),
   ("teamTwentyMinutePenalties", JVal.null),
   ("teamTotalDistanceTravelled", JVal.null),
   ("teamSide", JVal.str "home")]] :=
  c6_single_bucket
    (JVal.obj [("homeTeam", JVal.arr [JVal.obj [
      ("teamId", JVal.str "1:T"),
      ("periodPlayerStats", JVal.arr [
        JVal.obj [("playerId", JVal.str "A"),
          ("period", JVal.obj [("period", JVal.int 1)])]])]])])
    [[("jerseyId", JVal.null),
   ("playerId", JVal.str "A"),
   ("points", JVal.null),
   ("period", JVal.int 1),
   ("assists", JVal.null),
   ("goals", JVal.null),
   ("validGoals", JVal.null),
   ("plusminus", JVal.null),
   ("plus", JVal.null),
   ("minus", JVal.null),
   ("shots", JVal.null),
   ("penaltyminutes", JVal.null),
   ("powerplayGoals", JVal.null),
   ("shortHandedGoals", JVal.null),
   ("winningGoal", JVal.null),
   ("blockedShots", JVal.null),
   ("faceoffsTotal", JVal.null),
   ("faceoffsWon", JVal.null),
   ("corsiFor", JVal.null),
   ("corsiAgainst", JVal.null),
   ("faceoffsCenterTotal", JVal.null),
   ("faceoffsCenterWon", JVal.null),
   ("faceoffsDefenceTotal", JVal.null),
   ("faceoffsDefenceWon", JVal.null),
   ("faceoffsOffenceTotal", JVal.null),
   ("faceoffsOffenceWon", JVal.null),
   ("fsZoneStartsDz", JVal.null),
   ("fsZoneStartsOz", JVal.null),
   ("powerplay2Goals", JVal.null),
   ("penaltykill2Goals", JVal.null),
   ("powerplayAssists", JVal.null),
   ("penaltykillAssists", JVal.null),
   ("goalsToEmptyGoal", JVal.null),
   ("fsTeamShots", JVal.null),
   ("fsTeamGoals", JVal.null),
   ("fsTeamShotsAgainst", JVal.null),
   ("fsTeamGoalsAgainst", JVal.null),
   ("timeofice", JVal.null),
   ("distance", JVal.null),
   ("totalPasses", JVal.null),
   ("successfulPasses", JVal.null),
   ("playerPassesUnderPressure", JVal.null),
   ("playerSuccessfulPassesUnderPressure", JVal.null),
   ("playerPassesUnderHighPressure", JVal.null),
   ("playerSuccessfulPassesUnderHighPressure", JVal.null),
   ("expectedGoalsPlayer", JVal.null),
   ("expectedGoalsTeam", JVal.null),
   ("expectedGoalsAgainst", JVal.null),
   ("expectedGoalsAgainstShotOnGoal", JVal.null),
   ("teamId", JVal.str "1"),
   ("teamGoals", JVal.null),
   ("teamShots", JVal.null),
   ("teamPowerPlayGoals", JVal.null),
   ("teamShortHandedGoalsAgainst", JVal.null),
   ("teamPenaltyMinutes", JVal.null),
   ("teamFaceOffWins", JVal.null),
   ("teamTwoMinutePenalties", JVal.null),
   ("teamFiveMinutePenalties", JVal.null),
   ("teamTenMinutePenalties", JVal.null),
   ("teamTwentyMinutePenalties", JVal.null),
   ("teamTotalDistanceTravelled", JVal.null),
   ("teamSide", JVal.str "home")]]
    ["A"] rfl
    (by
      intro r hr
      simp only [List.mem_singleton] at hr
      subst hr
      exact ⟨"A", rfl, by decide⟩)
    rfl (by simp)

/-- C6 counterexample: a response whose by-period parse yields exactly one
bucket with playerIds in the order B, A; the summed parse re-sorts the
records by playerId, so its output is not identical to the bucket. -/
theorem c6_counterexample :
    (Except.map (List.map (List.map (fun r => pyGet r "playerId")))
        (skater_parse_by_period (.obj [("homeTeam", .arr [.obj [
          ("teamId", .str "1:T"),
          ("periodPlayerStats", .arr [
            .obj [("playerId", .str "B"), ("period", .obj [("period", .int 1)])],
            .obj [("playerId", .str "A"), ("period", .obj [("period", .int 1)])]])]])]))
      = .ok [[.str "B", .str "A"]]) ∧
    (Except.map (List.map (fun r => pyGet r "playerId"))
        (skater_parse_sum_players (.obj [("homeTeam", .arr [.obj [
          ("teamId", .str "1:T"),
          ("periodPlayerStats", .arr [
            .obj [("playerId", .str "B"), ("period", .obj [("period", .int 1)])],
            .obj [("playerId", .str "A"), ("period", .obj [("period", .int 1)])]])]])]))
      = .ok [.str "A", .str "B"]) ∧
    [JVal.str "B", JVal.str "A"] ≠ [JVal.str "A", JVal.str "B"] :=
  ⟨rfl, rfl, by simp⟩

/-!
## C10: the `teamSide` and `teamId` invariants of the by-period records
-/

theorem splitCharAux_head_not_sep (sep : Char) :
    ∀ (cs acc : List Char), sep ∉ acc →
      sep ∉ (((splitCharAux sep cs acc).headD "").data)
  | [], acc, h => by
    simp only [splitCharAux, List.headD_cons]
    intro hmem
    exact h (List.mem_reverse.1 (show sep ∈ acc.reverse from hmem))
  | c :: cs, acc, h => by
    by_cases hc : c = sep
    · simp only [splitCharAux, if_pos hc, List.headD_cons]
      intro hmem
      exact h (List.mem_reverse.1 (show sep ∈ acc.reverse from hmem))
    · simp only [splitCharAux, if_neg hc]
      refine splitCharAux_head_not_sep sep cs (c :: acc) ?_
      intro hmem
      rcases List.mem_cons.1 hmem with h1 | h2
      · exact hc h1.symm
      · exact h h2

theorem pySplit_head_no_sep (s : String) (sep : Char) :
    sep ∉ (((pySplit s sep).headD "").data) :=
  splitCharAux_head_not_sep sep s.toList [] (List.not_mem_nil sep)

theorem pySplitHead_ok {v : JVal} {sep : Char} {tid : String}
    (h : pySplitHead v sep = .ok tid) :
    ∃ t : String, v = .str t ∧ tid = (pySplit t sep).headD "" := by
  cases v with
  | str s => exact ⟨s, rfl, (Except.ok.inj h).symm⟩
  | null => exact Except.noConfusion h
  | bool b => exact Except.noConfusion h
  | int n => exact Except.noConfusion h
  | float q => exact Except.noConfusion h
  | arr xs => exact Except.noConfusion h
  | obj fs => exact Except.noConfusion h

theorem recSet_keys_of_mem (r : List (String × JVal)) (k : String) (v : JVal)
    (h : k ∈ r.map Prod.fst) :
    (recSet r k v).map Prod.fst = r.map Prod.fst := by
  induction r with
  | nil => simp at h
  | cons kv rest ih =>
    obtain ⟨k₀, v₀⟩ := kv
    by_cases h₀ : k₀ = k
    · simp [recSet, h₀]
    · simp only [List.map_cons, List.mem_cons] at h
      rcases h with h | h
      · exact absurd h.symm h₀
      · simp [recSet, h₀, ih h]

theorem recSet_keys_nodup {r : List (String × JVal)} {k : String} {v : JVal}
    (h : (r.map Prod.fst).Nodup) : ((recSet r k v).map Prod.fst).Nodup := by
  by_cases hk : k ∈ r.map Prod.fst
  · rw [recSet_keys_of_mem r k v hk]
    exact h
  · rw [recSet_keys_of_not_mem r k v hk]
    simp [List.nodup_append, h, hk]

theorem foldl_recSet_keys_nodup (d : JVal) :
    ∀ (cols : List (String × String)) (acc : List (String × JVal)),
      (acc.map Prod.fst).Nodup →
      (((cols.foldl (fun acc pc => recSet acc pc.2 (get_nested d pc.1)) acc).map
        Prod.fst).Nodup)
  | [], _, h => h
  | _ :: cols, _, h =>
    foldl_recSet_keys_nodup d cols _ (recSet_keys_nodup h)

theorem parse_record_keys_nodup (d : JVal) (cols : List (String × String)) :
    ((parse_record d cols).map Prod.fst).Nodup :=
  foldl_recSet_keys_nodup d cols [] List.nodup_nil

theorem recSet_keys_cases (r : List (String × JVal)) (k : String) (v : JVal) :
    ∀ k', k' ∈ (recSet r k v).map Prod.fst → k' ∈ r.map Prod.fst ∨ k' = k := by
  by_cases hk : k ∈ r.map Prod.fst
  · rw [recSet_keys_of_mem r k v hk]
    exact fun k' h => Or.inl h
  · rw [recSet_keys_of_not_mem r k v hk]
    intro k' h
    rcases List.mem_append.1 h with h | h
    · exact Or.inl h
    · exact Or.inr (List.mem_singleton.1 h)

theorem foldl_recSet_keys_sub (d : JVal) :
    ∀ (cols : List (String × String)) (acc : List (String × JVal)) (k' : String),
      k' ∈ (cols.foldl (fun acc pc => recSet acc pc.2 (get_nested d pc.1)) acc).map
          Prod.fst →
      k' ∈ acc.map Prod.fst ∨ k' ∈ cols.map Prod.snd
  | [], _, _, h => Or.inl h
  | pc :: cols, acc, k', h => by
    rcases foldl_recSet_keys_sub d cols _ k' h with h1 | h1
    · rcases recSet_keys_cases acc pc.2 _ k' h1 with h2 | h2
      · exact Or.inl h2
      · exact Or.inr (by simp [h2])
    · exact Or.inr (List.mem_cons_of_mem _ h1)

theorem parse_record_keys_sub (d : JVal) (cols : List (String × String))
    (k' : String) (h : k' ∈ (parse_record d cols).map Prod.fst) :
    k' ∈ cols.map Prod.snd := by
  rcases foldl_recSet_keys_sub d cols [] k' h with h1 | h1
  · simp at h1
  · exact h1

theorem skater_player_record_teamSide (side : String)
    (team_stats puck_period : List (String × JVal)) (player : JVal) :
    pyGet (skater_player_record side team_stats puck_period player) "teamSide"
      = .str (sideTag side) := by
  simp only [skater_player_record, pyGet]
  rw [recGet?_recSet_self]
  rfl

theorem skater_player_record_teamId (side : String)
    {team_stats : List (String × JVal)} (puck_period : List (String × JVal))
    (player : JVal) {tid : String}
    (hT : recGet? team_stats "teamId" = some (.str tid))
    (hTnd : (team_stats.map Prod.fst).Nodup)
    (hU : "teamId" ∉ puck_period.map Prod.fst) :
    pyGet (skater_player_record side team_stats puck_period player) "teamId"
      = .str tid := by
  simp only [skater_player_record, pyGet]
  rw [recGet?_recSet_ne _ _ _ _ (by decide),
    recGet?_recUpdate_not_mem _ _ _ hU,
    recGet?_recUpdate_mem_nodup _ _ _ _ hTnd hT]
  rfl

theorem sideTag_cases (side : String) :
    sideTag side = "home" ∨ sideTag side = "away" := by
  unfold sideTag
  split
  · exact Or.inl rfl
  · exact Or.inr rfl

theorem bucketAppend_pres {P : List (String × JVal) → Prop} :
    ∀ (m : List (JVal × List (List (String × JVal)))) (key : JVal)
      (r : List (String × JVal)),
      (∀ kb ∈ m, ∀ x ∈ kb.2, P x) → P r →
      ∀ kb ∈ bucketAppend m key r, ∀ x ∈ kb.2, P x
  | [], key, r, _, hr, kb, hkb, x, hx => by
    simp only [bucketAppend, List.mem_singleton] at hkb
    subst hkb
    simp only [List.mem_singleton] at hx
    subst hx
    exact hr
  | (k, b) :: rest, key, r, hm, hr, kb, hkb, x, hx => by
    cases hsc : scalarEq k key with
    | true =>
      simp only [bucketAppend, hsc, if_true] at hkb
      rcases List.mem_cons.1 hkb with h1 | h1
      · subst h1
        rcases List.mem_append.1 hx with h2 | h2
        · exact hm (k, b) (List.mem_cons_self _ _) x h2
        · rw [List.mem_singleton.1 h2]
          exact hr
      · exact hm kb (List.mem_cons_of_mem _ h1) x hx
    | false =>
      simp only [bucketAppend, hsc, Bool.false_eq_true, if_false] at hkb
      rcases List.mem_cons.1 hkb with h1 | h1
      · subst h1
        exact hm (k, b) (List.mem_cons_self _ _) x hx
      · exact bucketAppend_pres rest key r
          (fun kb' hkb' => hm kb' (List.mem_cons_of_mem _ hkb')) hr kb h1 x hx

theorem bucketFind?_some_mem :
    ∀ (m : List (JVal × List (List (String × JVal)))) (key : JVal)
      (b : List (List (String × JVal))),
      bucketFind? m key = some b → ∃ k, (k, b) ∈ m
  | [], _, _, h => by simp [bucketFind?] at h
  | (k₀, b₀) :: rest, key, b, h => by
    cases hsc : scalarEq k₀ key with
    | true =>
      simp only [bucketFind?, hsc, if_true] at h
      obtain rfl : b₀ = b := Option.some.inj h
      exact ⟨k₀, List.mem_cons_self _ _⟩
    | false =>
      simp only [bucketFind?, hsc, Bool.false_eq_true, if_false] at h
      obtain ⟨k, hk⟩ := bucketFind?_some_mem rest key b h
      exact ⟨k, List.mem_cons_of_mem _ hk⟩

theorem bucketAdd_ok {m m' : List (JVal × List (List (String × JVal)))}
    {key : JVal} {r : List (String × JVal)}
    (h : bucketAdd m key r = .ok m') : m' = bucketAppend m key r := by
  unfold bucketAdd at h
  split at h
  · exact (Except.ok.inj h).symm
  · exact Except.noConfusion h

theorem skater_process_period_inv {side : String}
    {puck_stats : List (List (String × JVal))} {i : Nat} {period : JVal}
    {m m' : List (JVal × List (List (String × JVal)))}
    (hpuck : ∀ pp ∈ puck_stats, "teamId" ∉ pp.map Prod.fst)
    (hstep : skater_process_period side puck_stats i period m = .ok m')
    (hm : ∀ kb ∈ m, ∀ r ∈ kb.2,
      (pyGet r "teamSide" = .str "home" ∨ pyGet r "teamSide" = .str "away") ∧
      ∃ t : String, pyGet r "teamId" = .str ((pySplit t ':').headD "")) :
    ∀ kb ∈ m', ∀ r ∈ kb.2,
      (pyGet r "teamSide" = .str "home" ∨ pyGet r "teamSide" = .str "away") ∧
      ∃ t : String, pyGet r "teamId" = .str ((pySplit t ':').headD "") := by
  simp only [skater_process_period] at hstep
  obtain ⟨tid, htid, hstep⟩ := bind_ok_iff.1 hstep
  obtain ⟨t, ht, htid_eq⟩ := pySplitHead_ok htid
  obtain ⟨playersRaw, hpr, hstep⟩ := bind_ok_iff.1 hstep
  obtain ⟨players, hpl, hstep⟩ := bind_ok_iff.1 hstep
  refine foldlM_inv (fun m => ∀ kb ∈ m, ∀ r ∈ kb.2,
      (pyGet r "teamSide" = .str "home" ∨ pyGet r "teamSide" = .str "away") ∧
      ∃ t : String, pyGet r "teamId" = .str ((pySplit t ':').headD ""))
    players _ ?_ m m' hstep hm
  intro m₀ player _ hP m₁ hf
  obtain rfl := bucketAdd_ok hf
  · refine bucketAppend_pres m₀ _ _ hP ?_
    constructor
    · rw [skater_player_record_teamSide]
      rcases sideTag_cases side with hh | hh <;> rw [hh]
      · exact Or.inl rfl
      · exact Or.inr rfl
    · refine ⟨t, ?_⟩
      rw [skater_player_record_teamId side _ player
        (recGet?_recSet_self _ _ _)
        (recSet_keys_nodup (parse_record_keys_nodup period skater_PERIOD_TEAM_CONTEXT))
        ?_, htid_eq]
      split
      · next hi =>
        rw [List.getD_eq_getElem _ _ hi]
        exact hpuck _ (List.getElem_mem hi)
      · simp

/-- C10: every record emitted by `SkaterGameStats._parse_by_period`
has a `teamSide` of exactly `"home"` or `"away"`, and a `teamId` equal
to the part of some composite team identifier before the first `':'`
(`team_stats["teamId"].split(":")[0]`), which therefore contains no
`':'` character. -/
theorem c10_team_invariant (response : JVal)
    (out : List (List (List (String × JVal))))
    (h : skater_parse_by_period response = .ok out) :
    ∀ b ∈ out, ∀ r ∈ b,
      (pyGet r "teamSide" = .str "home" ∨ pyGet r "teamSide" = .str "away") ∧
      ∃ t : String, pyGet r "teamId" = .str ((pySplit t ':').headD "") ∧
        ':' ∉ ((pySplit t ':').headD "").data := by
  simp only [skater_parse_by_period] at h
  obtain ⟨puckRaw, hpr, h⟩ := bind_ok_iff.1 h
  obtain ⟨puckItems, hpi, h⟩ := bind_ok_iff.1 h
  obtain ⟨m, hmfold, h⟩ := bind_ok_iff.1 h
  obtain ⟨keys, hkeys, hout⟩ := bind_ok_iff.1 h
  cases Except.ok.inj hout
  have hpuckP : ∀ pp ∈ puckItems.map (fun p => parse_record p skater_PERIOD_PUCK_KEYS),
      "teamId" ∉ pp.map Prod.fst := by
    intro pp hpp hmem
    obtain ⟨p, _, rfl⟩ := List.mem_map.1 hpp
    exact absurd (parse_record_keys_sub p skater_PERIOD_PUCK_KEYS _ hmem) (by decide)
  have hminv : ∀ kb ∈ m, ∀ r ∈ kb.2,
      (pyGet r "teamSide" = .str "home" ∨ pyGet r "teamSide" = .str "away") ∧
      ∃ t : String, pyGet r "teamId" = .str ((pySplit t ':').headD "") := by
    refine foldlM_inv (fun m => ∀ kb ∈ m, ∀ r ∈ kb.2,
        (pyGet r "teamSide" = .str "home" ∨ pyGet r "teamSide" = .str "away") ∧
        ∃ t : String, pyGet r "teamId" = .str ((pySplit t ':').headD ""))
      ["homeTeam", "awayTeam"] _ ?_ [] m hmfold ?_
    · intro m₀ side _ hP m₁ hside
      obtain ⟨teamPeriodsRaw, htpr, hside⟩ := bind_ok_iff.1 hside
      obtain ⟨team_periods, htp, hside⟩ := bind_ok_iff.1 hside
      refine foldlM_inv (fun m => ∀ kb ∈ m, ∀ r ∈ kb.2,
          (pyGet r "teamSide" = .str "home" ∨ pyGet r "teamSide" = .str "away") ∧
          ∃ t : String, pyGet r "teamId" = .str ((pySplit t ':').headD ""))
        team_periods.enum _ ?_ m₀ m₁ hside hP
      intro s ip _ hPs s' hf
      exact skater_process_period_inv hpuckP hf hPs
    · intro kb hkb
      exact absurd hkb (List.not_mem_nil kb)
  intro b hb r hr
  obtain ⟨key, _, rfl⟩ := List.mem_map.1 (List.mem_filter.1 hb).1
  unfold bucketGet at hr
  cases hfind : bucketFind? m key with
  | none =>
    rw [hfind] at hr
    exact absurd hr (List.not_mem_nil r)
  | some b₀ =>
    rw [hfind, Option.getD_some] at hr
    obtain ⟨k, hk⟩ := bucketFind?_some_mem m key b₀ hfind
    obtain ⟨hside, t, ht⟩ := hminv (k, b₀) hk r hr
    exact ⟨hside, t, ht, pySplit_head_no_sep t ':'⟩

/-- Witness for C10: the invariant instantiated at the concrete record
parsed from a one-player response whose team identifier is `"1:T"`. -/
theorem c10_team_invariant_witness :
    (pyGet
        ([("jerseyId", JVal.null),
   ("playerId", JVal.str "A"),
   ("points", JVal.null),
   ("period", JVal.int 1),
   ("assists", JVal.null),
   ("goals", JVal.null),
   ("validGoals", JVal.null),
   ("plusminus", JVal.null),
   ("plus", JVal.null),
   ("minus", JVal.null),
   ("shots", JVal.null),
   ("penaltyminutes", JVal.null),
   ("powerplayGoals", JVal.null),
   ("shortHandedGoals", JVal.null),
   ("winningGoal", JVal.null),
   ("blockedShots", JVal.null),
   ("faceoffsTotal", JVal.null),
   ("faceoffsWon", JVal.null),
   ("corsiFor", JVal.null),
   ("corsiAgainst", JVal.null),
   ("faceoffsCenterTotal", JVal.null),
   ("faceoffsCenterWon", JVal.null),
   ("faceoffsDefenceTotal", JVal.null),
   ("faceoffsDefenceWon", JVal.null),
   ("faceoffsOffenceTotal", JVal.null),
   ("faceoffsOffenceWon", JVal.null),
   ("fsZoneStartsDz", JVal.null),
   ("fsZoneStartsOz", JVal.null),
   ("powerplay2Goals", JVal.null),
   ("penaltykill2Goals", JVal.null),
   ("powerplayAssists", JVal.null),
   ("penaltykillAssists", JVal.null),
   ("goalsToEmptyGoal", JVal.null),
   ("fsTeamShots", JVal.null),
   ("fsTeamGoals", JVal.null),
   ("fsTeamShotsAgainst", JVal.null),
   ("fsTeamGoalsAgainst", JVal.null),
   ("timeofice", JVal.null),
   ("distance", JVal.null),
   ("totalPasses", JVal.null),
   ("successfulPasses", JVal.null),
   ("playerPassesUnderPressure", JVal.null),
   ("playerSuccessfulPassesUnderPressure", JVal.null),
   ("playerPassesUnderHighPressure", JVal.null),
   ("playerSuccessfulPassesUnderHighPressure", JVal.null),
   ("expectedGoalsPlayer", JVal.null),
   ("expectedGoalsTeam", JVal.null),
   ("expectedGoalsAgainst", JVal.null),
   ("expectedGoalsAgainstShotOnGoal", JVal.null),
   ("teamId", JVal.str "1"),
   ("teamGoals", JVal.null),
   ("teamShots", JVal.null),
   ("teamPowerPlayGoals", JVal.null),
   ("teamShortHandedGoalsAgainst", JVal.null),
   ("teamPenaltyMinutes", JVal.null),
   ("teamFaceOffWins", JVal.null),
   ("teamTwoMinutePenalties", JVal.null),
   ("teamFiveMinutePenalties", JVal.null),
   ("teamTenMinutePenalties", JVal.null),
   ("teamTwentyMinutePenalties", JVal.null),
   ("teamTotalDistanceTravelled", JVal.null),
   ("teamSide", JVal.str "home")] :
          List (String × JVal)) "teamSide" = .str "home" ∨
      pyGet
        ([("jerseyId", JVal.null),
   ("playerId", JVal.str "A"),
   ("points", JVal.null),
   ("period", JVal.int 1),
   ("assists", JVal.null),
   ("goals", JVal.null),
   ("validGoals", JVal.null),
   ("plusminus", JVal.null),
   ("plus", JVal.null),
   ("minus", JVal.null),
   ("shots", JVal.null),
   ("penaltyminutes", JVal.null),
   ("powerplayGoals", JVal.null),
   ("shortHandedGoals", JVal.null),
   ("winningGoal", JVal.null),
   ("blockedShots", JVal.null),
   ("faceoffsTotal", JVal.null),
   ("faceoffsWon", JVal.null),
   ("corsiFor", JVal.null),
   ("corsiAgainst", JVal.null),
   ("faceoffsCenterTotal", JVal.null),
   ("faceoffsCenterWon", JVal.null),
   ("faceoffsDefenceTotal", JVal.null),
   ("faceoffsDefenceWon", JVal.null),
   ("faceoffsOffenceTotal", JVal.null),
   ("faceoffsOffenceWon", JVal.null),
   ("fsZoneStartsDz", JVal.null),
   ("fsZoneStartsOz", JVal.null),
   ("powerplay2Goals", JVal.null),
   ("penaltykill2Goals", JVal.null),
   ("powerplayAssists", JVal.null),
   ("penaltykillAssists", JVal.null),
   ("goalsToEmptyGoal", JVal.null),
   ("fsTeamShots", JVal.null),
   ("fsTeamGoals", JVal.null),
   ("fsTeamShotsAgainst", JVal.null),
   ("fsTeamGoalsAgainst", JVal.null),
   ("timeofice", JVal.null),
   ("distance", JVal.null),
   ("totalPasses", JVal.null),
   ("successfulPasses", JVal.null),
   ("playerPassesUnderPressure", JVal.null),
   ("playerSuccessfulPassesUnderPressure", JVal.null),
   ("playerPassesUnderHighPressure", JVal.null),
   ("playerSuccessfulPassesUnderHighPressure", JVal.null),
   ("expectedGoalsPlayer", JVal.null),
   ("expectedGoalsTeam", JVal.null),
   ("expectedGoalsAgainst", JVal.null),
   ("expectedGoalsAgainstShotOnGoal", JVal.null),
   ("teamId", JVal.str "1"),
   ("teamGoals", JVal.null),
   ("teamShots", JVal.null),
   ("teamPowerPlayGoals", JVal.null),
   ("teamShortHandedGoalsAgainst", JVal.null),
   ("teamPenaltyMinutes", JVal.null),
   ("teamFaceOffWins", JVal.null),
   ("teamTwoMinutePenalties", JVal.null),
   ("teamFiveMinutePenalties", JVal.null),
   ("teamTenMinutePenalties", JVal.null),
   ("teamTwentyMinutePenalties", JVal.null),
   ("teamTotalDistanceTravelled", JVal.null),
   ("teamSide", JVal.str "home")] :
          List (String × JVal)) "teamSide" = .str "away") ∧
    ∃ t : String,
      pyGet
        ([("jerseyId", JVal.null),
   ("playerId", JVal.str "A"),
   ("points", JVal.null),
   ("period", JVal.int 1),
   ("assists", JVal.null),
   ("goals", JVal.null),
   ("validGoals", JVal.null),
   ("plusminus", JVal.null),
   ("plus", JVal.null),
   ("minus", JVal.null),
   ("shots", JVal.null),
   ("penaltyminutes", JVal.null),
   ("powerplayGoals", JVal.null),
   ("shortHandedGoals", JVal.null),
   ("winningGoal", JVal.null),
   ("blockedShots", JVal.null),
   ("faceoffsTotal", JVal.null),
   ("faceoffsWon", JVal.null),
   ("corsiFor", JVal.null),
   ("corsiAgainst", JVal.null),
   ("faceoffsCenterTotal", JVal.null),
   ("faceoffsCenterWon", JVal.null),
   ("faceoffsDefenceTotal", JVal.null),
   ("faceoffsDefenceWon", JVal.null),
   ("faceoffsOffenceTotal", JVal.null),
   ("faceoffsOffenceWon", JVal.null),
   ("fsZoneStartsDz", JVal.null),
   ("fsZoneStartsOz", JVal.null),
   ("powerplay2Goals", JVal.null),
   ("penaltykill2Goals", JVal.null),
   ("powerplayAssists", JVal.null),
   ("penaltykillAssists", JVal.null),
   ("goalsToEmptyGoal", JVal.null),
   ("fsTeamShots", JVal.null),
   ("fsTeamGoals", JVal.null),
   ("fsTeamShotsAgainst", JVal.null),
   ("fsTeamGoalsAgainst", JVal.null),
   ("timeofice", JVal.null),
   ("distance", JVal.null),
   ("totalPasses", JVal.null),
   ("successfulPasses", JVal.null),
   ("playerPassesUnderPressure", JVal.null),
   ("playerSuccessfulPassesUnderPressure", JVal.null),
   ("playerPassesUnderHighPressure", JVal.null),
   ("playerSuccessfulPassesUnderHighPressure", JVal.null),
   ("expectedGoalsPlayer", JVal.null),
   ("expectedGoalsTeam", JVal.null),
   ("expectedGoalsAgainst", JVal.null),
   ("expectedGoalsAgainstShotOnGoal", JVal.null),
   ("teamId", JVal.str "1"),
   ("teamGoals", JVal.null),
   ("teamShots", JVal.null),
   ("teamPowerPlayGoals", JVal.null),
   ("teamShortHandedGoalsAgainst", JVal.null),
   ("teamPenaltyMinutes", JVal.null),
   ("teamFaceOffWins", JVal.null),
   ("teamTwoMinutePenalties", JVal.null),
   ("teamFiveMinutePenalties", JVal.null),
   ("teamTenMinutePenalties", JVal.null),
   ("teamTwentyMinutePenalties", JVal.null),
   ("teamTotalDistanceTravelled", JVal.null),
   ("teamSide", JVal.str "home")] :
          List (String × JVal)) "teamId" = .str ((pySplit t ':').headD "") ∧
      ':' ∉ ((pySplit t ':').headD "").data :=
  c10_team_invariant
    (JVal.obj [("homeTeam", JVal.arr [JVal.obj [
      ("teamId", JVal.str "1:T"),
      ("periodPlayerStats", JVal.arr [
        JVal.obj [("playerId", JVal.str "A"),
          ("period", JVal.obj [("period", JVal.int 1)])]])]])])
    [[[("jerseyId", JVal.null),
   ("playerId", JVal.str "A"),
   ("points", JVal.null),
   ("period", JVal.int 1),
   ("assists", JVal.null),
   ("goals", JVal.null),
   ("validGoals", JVal.null),
   ("plusminus", JVal.null),
   ("plus", JVal.null),
   ("minus", JVal.null),
   ("shots", JVal.null),
   ("penaltyminutes", JVal.null),
   ("powerplayGoals", JVal.null),
   ("shortHandedGoals", JVal.null),
   ("winningGoal", JVal.null),
   ("blockedShots", JVal.null),
   ("faceoffsTotal", JVal.null),
   ("faceoffsWon", JVal.null),
   ("corsiFor", JVal.null),
   ("corsiAgainst", JVal.null),
   ("faceoffsCenterTotal", JVal.null),
   ("faceoffsCenterWon", JVal.null),
   ("faceoffsDefenceTotal", JVal.null),
   ("faceoffsDefenceWon", JVal.null),
   ("faceoffsOffenceTotal", JVal.null),
   ("faceoffsOffenceWon", JVal.null),
   ("fsZoneStartsDz", JVal.null),
   ("fsZoneStartsOz", JVal.null),
   ("powerplay2Goals", JVal.null),
   ("penaltykill2Goals", JVal.null),
   ("powerplayAssists", JVal.null),
   ("penaltykillAssists", JVal.null),
   ("goalsToEmptyGoal", JVal.null),
   ("fsTeamShots", JVal.null),
   ("fsTeamGoals", JVal.null),
   ("fsTeamShotsAgainst", JVal.null),
   ("fsTeamGoalsAgainst", JVal.null),
   ("timeofice", JVal.null),
   ("distance", JVal.null),
   ("totalPasses", JVal.null),
   ("successfulPasses", JVal.null),
   ("playerPassesUnderPressure", JVal.null),
   ("playerSuccessfulPassesUnderPressure", JVal.null),
   ("playerPassesUnderHighPressure", JVal.null),
   ("playerSuccessfulPassesUnderHighPressure", JVal.null),
   ("expectedGoalsPlayer", JVal.null),
   ("expectedGoalsTeam", JVal.null),
   ("expectedGoalsAgainst", JVal.null),
   ("expectedGoalsAgainstShotOnGoal", JVal.null),
   ("teamId", JVal.str "1"),
   ("teamGoals", JVal.null),
   ("teamShots", JVal.null),
   ("teamPowerPlayGoals", JVal.null),
   ("teamShortHandedGoalsAgainst", JVal.null),
   ("teamPenaltyMinutes", JVal.null),
   ("teamFaceOffWins", JVal.null),
   ("teamTwoMinutePenalties", JVal.null),
   ("teamFiveMinutePenalties", JVal.null),
   ("teamTenMinutePenalties", JVal.null),
   ("teamTwentyMinutePenalties", JVal.null),
   ("teamTotalDistanceTravelled", JVal.null),
   ("teamSide", JVal.str "home")]]]
    rfl
    [[("jerseyId", JVal.null),
   ("playerId", JVal.str "A"),
   ("points", JVal.null),
   ("period", JVal.int 1),
   ("assists", JVal.null),
   ("goals", JVal.null),
   ("validGoals", JVal.null),
   ("plusminus", JVal.null),
   ("plus", JVal.null),
   ("minus", JVal.null),
   ("shots", JVal.null),
   ("penaltyminutes", JVal.null),
   ("powerplayGoals", JVal.null),
   ("shortHandedGoals", JVal.null),
   ("winningGoal", JVal.null),
   ("blockedShots", JVal.null),
   ("faceoffsTotal", JVal.null),
   ("faceoffsWon", JVal.null),
   ("corsiFor", JVal.null),
   ("corsiAgainst", JVal.null),
   ("faceoffsCenterTotal", JVal.null),
   ("faceoffsCenterWon", JVal.null),
   ("faceoffsDefenceTotal", JVal.null),
   ("faceoffsDefenceWon", JVal.null),
   ("faceoffsOffenceTotal", JVal.null),
   ("faceoffsOffenceWon", JVal.null),
   ("fsZoneStartsDz", JVal.null),
   ("fsZoneStartsOz", JVal.null),
   ("powerplay2Goals", JVal.null),
   ("penaltykill2Goals", JVal.null),
   ("powerplayAssists", JVal.null),
   ("penaltykillAssists", JVal.null),
   ("goalsToEmptyGoal", JVal.null),
   ("fsTeamShots", JVal.null),
   ("fsTeamGoals", JVal.null),
   ("fsTeamShotsAgainst", JVal.null),
   ("fsTeamGoalsAgainst", JVal.null),
   ("timeofice", JVal.null),
   ("distance", JVal.null),
   ("totalPasses", JVal.null),
   ("successfulPasses", JVal.null),
   ("playerPassesUnderPressure", JVal.null),
   ("playerSuccessfulPassesUnderPressure", JVal.null),
   ("playerPassesUnderHighPressure", JVal.null),
   ("playerSuccessfulPassesUnderHighPressure", JVal.null),
   ("expectedGoalsPlayer", JVal.null),
   ("expectedGoalsTeam", JVal.null),
   ("expectedGoalsAgainst", JVal.null),
   ("expectedGoalsAgainstShotOnGoal", JVal.null),
   ("teamId", JVal.str "1"),
   ("teamGoals", JVal.null),
   ("teamShots", JVal.null),
   ("teamPowerPlayGoals", JVal.null),
   ("teamShortHandedGoalsAgainst", JVal.null),
   ("teamPenaltyMinutes", JVal.null),
   ("teamFaceOffWins", JVal.null),
   ("teamTwoMinutePenalties", JVal.null),
   ("teamFiveMinutePenalties", JVal.null),
   ("teamTenMinutePenalties", JVal.null),
   ("teamTwentyMinutePenalties", JVal.null),
   ("teamTotalDistanceTravelled", JVal.null),
   ("teamSide", JVal.str "home")]]
    (List.mem_singleton.2 rfl)
    [("jerseyId", JVal.null),
   ("playerId", JVal.str "A"),
   ("points", JVal.null),
   ("period", JVal.int 1),
   ("assists", JVal.null),
   ("goals", JVal.null),
   ("validGoals", JVal.null),
   ("plusminus", JVal.null),
   ("plus", JVal.null),
   ("minus", JVal.null),
   ("shots", JVal.null),
   ("penaltyminutes", JVal.null),
   ("powerplayGoals", JVal.null),
   ("shortHandedGoals", JVal.null),
   ("winningGoal", JVal.null),
   ("blockedShots", JVal.null),
   ("faceoffsTotal", JVal.null),
   ("faceoffsWon", JVal.null),
   ("corsiFor", JVal.null),
   ("corsiAgainst", JVal.null),
   ("faceoffsCenterTotal", JVal.null),
   ("faceoffsCenterWon", JVal.null),
   ("faceoffsDefenceTotal", JVal.null),
   ("faceoffsDefenceWon", JVal.null),
   ("faceoffsOffenceTotal", JVal.null),
   ("faceoffsOffenceWon", JVal.null),
   ("fsZoneStartsDz", JVal.null),
   ("fsZoneStartsOz", JVal.null),
   ("powerplay2Goals", JVal.null),
   ("penaltykill2Goals", JVal.null),
   ("powerplayAssists", JVal.null),
   ("penaltykillAssists", JVal.null),
   ("goalsToEmptyGoal", JVal.null),
   ("fsTeamShots", JVal.null),
   ("fsTeamGoals", JVal.null),
   ("fsTeamShotsAgainst", JVal.null),
   ("fsTeamGoalsAgainst", JVal.null),
   ("timeofice", JVal.null),
   ("distance", JVal.null),
   ("totalPasses", JVal.null),
   ("successfulPasses", JVal.null),
   ("playerPassesUnderPressure", JVal.null),
   ("playerSuccessfulPassesUnderPressure", JVal.null),
   ("playerPassesUnderHighPressure", JVal.null),
   ("playerSuccessfulPassesUnderHighPressure", JVal.null),
   ("expectedGoalsPlayer", JVal.null),
   ("expectedGoalsTeam", JVal.null),
   ("expectedGoalsAgainst", JVal.null),
   ("expectedGoalsAgainstShotOnGoal", JVal.null),
   ("teamId", JVal.str "1"),
   ("teamGoals", JVal.null),
   ("teamShots", JVal.null),
   ("teamPowerPlayGoals", JVal.null),
   ("teamShortHandedGoalsAgainst", JVal.null),
   ("teamPenaltyMinutes", JVal.null),
   ("teamFaceOffWins", JVal.null),
   ("teamTwoMinutePenalties", JVal.null),
   ("teamFiveMinutePenalties", JVal.null),
   ("teamTenMinutePenalties", JVal.null),
   ("teamTwentyMinutePenalties", JVal.null),
   ("teamTotalDistanceTravelled", JVal.null),
   ("teamSide", JVal.str "home")]
    (List.mem_singleton.2 rfl)

theorem bind_assoc_except {α β γ : Type} (e : Except PyErr α)
    (f : α → Except PyErr β) (g : β → Except PyErr γ) :
    (e >>= f) >>= g = e >>= fun a => f a >>= g := by
  cases e <;> rfl

theorem bind_eq_of_pointwise {α β : Type} {e : Except PyErr α}
    {f g : α → Except PyErr β} (h : ∀ a, f a = g a) :
    e >>= f = e >>= g := by
  cases e with
  | error err => rfl
  | ok a => simp only [Bind.bind, Except.bind, h a]

theorem skater_process_period_eq (side : String)
    (puck_stats : List (List (String × JVal))) (i : Nat) (period : JVal)
    (m : List (JVal × List (List (String × JVal)))) :
    skater_process_period side puck_stats i period m
      = skater_period_records side puck_stats i period >>= fun rs =>
          rs.foldlM (fun m r => bucketAdd m (pyGet r "period") r) m := by
  unfold skater_process_period skater_period_records
  simp only []
  rw [bind_assoc_except]
  refine bind_eq_of_pointwise (fun tid => ?_)
  rw [bind_assoc_except]
  refine bind_eq_of_pointwise (fun praw => ?_)
  rw [bind_assoc_except]
  refine bind_eq_of_pointwise (fun players => ?_)
  simp only [Bind.bind, Except.bind]
  rw [List.foldlM_map]

theorem concatM_acc {α : Type}
    (get : α → Except PyErr (List (List (String × JVal)))) :
    ∀ (l : List α) (acc : List (List (String × JVal))),
      l.foldlM (fun acc a => get a >>= fun rs => .ok (acc ++ rs)) acc
        = (l.foldlM (fun acc a => get a >>= fun rs => .ok (acc ++ rs)) []) >>=
            fun R => .ok (acc ++ R)
  | [], acc => by simp [Bind.bind, Except.bind, Pure.pure, Except.pure]
  | a :: l, acc => by
    simp only [List.foldlM_cons]
    cases hget : get a with
    | error e => rfl
    | ok rs =>
      show List.foldlM (fun acc a => get a >>= fun rs => Except.ok (acc ++ rs))
          (acc ++ rs) l
        = List.foldlM (fun acc a => get a >>= fun rs => Except.ok (acc ++ rs))
            rs l >>= fun R => Except.ok (acc ++ R)
      rw [concatM_acc get l (acc ++ rs), concatM_acc get l rs]
      cases List.foldlM (fun acc a => get a >>= fun rs => Except.ok (acc ++ rs))
          [] l with
      | error e => rfl
      | ok R =>
        show Except.ok (acc ++ rs ++ R) = Except.ok (acc ++ (rs ++ R))
        rw [List.append_assoc]

theorem fold_records_bridge_ok {α : Type}
    (get : α → Except PyErr (List (List (String × JVal))))
    (F : List (JVal × List (List (String × JVal))) → α →
      Except PyErr (List (JVal × List (List (String × JVal)))))
    (hF : ∀ m a m₁, F m a = .ok m₁ →
      ∃ rs, get a = .ok rs ∧
        rs.foldlM (fun m r => bucketAdd m (pyGet r "period") r) m = .ok m₁) :
    ∀ (l : List α) (m m' : List (JVal × List (List (String × JVal)))),
      l.foldlM F m = .ok m' →
      ∃ R, l.foldlM (fun acc a => get a >>= fun rs => .ok (acc ++ rs)) [] = .ok R ∧
        R.foldlM (fun m r => bucketAdd m (pyGet r "period") r) m = .ok m'
  | [], m, m', h => by
    simp only [List.foldlM_nil] at h
    cases Except.ok.inj h
    exact ⟨[], rfl, rfl⟩
  | a :: l, m, m', h => by
    simp only [List.foldlM_cons] at h
    obtain ⟨m₁, h1, h2⟩ := bind_ok_iff.1 h
    obtain ⟨rs, hget, hfold⟩ := hF m a m₁ h1
    obtain ⟨R, hR, hRfold⟩ := fold_records_bridge_ok get F hF l m₁ m' h2
    refine ⟨rs ++ R, ?_, ?_⟩
    · rw [List.foldlM_cons, hget]
      show List.foldlM (fun acc a => get a >>= fun rs => Except.ok (acc ++ rs)) rs l
        = Except.ok (rs ++ R)
      rw [concatM_acc get l rs, hR]
      rfl
    · rw [List.foldlM_append, hfold]
      exact hRfold

theorem skater_side_step_ok (response : JVal)
    (puck_stats : List (List (String × JVal))) (side : String)
    (m m₁ : List (JVal × List (List (String × JVal))))
    (h : (do
      let teamPeriodsRaw ← pyAttrGet response side (.arr [])
      let team_periods ← pyIter teamPeriodsRaw
      team_periods.enum.foldlM
        (fun m (ip : Nat × JVal) =>
          skater_process_period side puck_stats ip.1 ip.2 m) m)
      = .ok m₁) :
    ∃ rs, skater_side_records response puck_stats side = .ok rs ∧
      rs.foldlM (fun m r => bucketAdd m (pyGet r "period") r) m = .ok m₁ := by
  obtain ⟨tpr, hattr, h⟩ := bind_ok_iff.1 h
  obtain ⟨tp, hiter, h⟩ := bind_ok_iff.1 h
  obtain ⟨R, hR, hRfold⟩ := fold_records_bridge_ok
    (fun ip : Nat × JVal => skater_period_records side puck_stats ip.1 ip.2)
    (fun m (ip : Nat × JVal) => skater_process_period side puck_stats ip.1 ip.2 m)
    (fun m ip m₁ hstep => by
      have hstep' : skater_process_period side puck_stats ip.1 ip.2 m = .ok m₁ :=
        hstep
      rw [skater_process_period_eq] at hstep'
      exact bind_ok_iff.1 hstep')
    tp.enum m m₁ h
  refine ⟨R, ?_, hRfold⟩
  unfold skater_side_records
  rw [hattr]
  show (pyIter tpr >>= fun tp =>
      tp.enum.foldlM (fun acc ip =>
        skater_period_records side puck_stats ip.1 ip.2 >>= fun prs =>
          Except.ok (acc ++ prs)) []) = .ok R
  rw [hiter]
  show tp.enum.foldlM (fun acc ip =>
      skater_period_records side puck_stats ip.1 ip.2 >>= fun prs =>
        Except.ok (acc ++ prs)) [] = .ok R
  exact hR

theorem skater_parse_by_period_ok {response : JVal}
    {out : List (List (List (String × JVal)))}
    (h : skater_parse_by_period response = .ok out) :
    ∃ rs m keys,
      skater_all_records response = .ok rs ∧
      rs.foldlM (fun m r => bucketAdd m (pyGet r "period") r) [] = .ok m ∧
      pySorted (m.map Prod.fst) = .ok keys ∧
      out = (keys.map (bucketGet m)).filter fun b => !b.isEmpty := by
  unfold skater_parse_by_period at h
  obtain ⟨praw, hattr, h⟩ := bind_ok_iff.1 h
  obtain ⟨puckItems, hiter, h⟩ := bind_ok_iff.1 h
  obtain ⟨m, hmfold, h⟩ := bind_ok_iff.1 h
  obtain ⟨keys, hkeys, hout⟩ := bind_ok_iff.1 h
  cases Except.ok.inj hout
  obtain ⟨R, hR, hRfold⟩ := fold_records_bridge_ok
    (skater_side_records response
      (puckItems.map fun p => parse_record p skater_PERIOD_PUCK_KEYS))
    (fun m (side : String) => do
      let teamPeriodsRaw ← pyAttrGet response side (.arr [])
      let team_periods ← pyIter teamPeriodsRaw
      team_periods.enum.foldlM
        (fun m (ip : Nat × JVal) => skater_process_period side
          (puckItems.map fun p => parse_record p skater_PERIOD_PUCK_KEYS)
          ip.1 ip.2 m) m)
    (fun m side m₁ hstep => skater_side_step_ok response _ side m m₁ hstep)
    ["homeTeam", "awayTeam"] [] m hmfold
  refine ⟨R, m, keys, ?_, hRfold, hkeys, rfl⟩
  unfold skater_all_records
  rw [hattr]
  show (pyIter praw >>= fun puckItems =>
      ["homeTeam", "awayTeam"].foldlM (fun acc side =>
        skater_side_records response
            (puckItems.map fun p => parse_record p skater_PERIOD_PUCK_KEYS) side
          >>= fun srs => Except.ok (acc ++ srs)) []) = .ok R
  rw [hiter]
  show ["homeTeam", "awayTeam"].foldlM (fun acc side =>
      skater_side_records response
          (puckItems.map fun p => parse_record p skater_PERIOD_PUCK_KEYS) side
        >>= fun srs => Except.ok (acc ++ srs)) [] = .ok R
  exact hR

/-!
## C9: characterizing the bucket map built by the fold
-/

theorem scalarEq_int (a b : Int) : scalarEq (.int a) (.int b) = decide (a = b) := by
  simp only [scalarEq, toNum?]
  exact decide_eq_decide.mpr (by exact_mod_cast Iff.rfl)

theorem bucketAdd_ok_hashable {m m' : List (JVal × List (List (String × JVal)))}
    {key : JVal} {r : List (String × JVal)}
    (h : bucketAdd m key r = .ok m') : hashable key = true := by
  unfold bucketAdd at h
  split at h
  · assumption
  · exact Except.noConfusion h

theorem bucketFind?_none_iff :
    ∀ {m : List (JVal × List (List (String × JVal)))} {key : JVal},
      bucketFind? m key = none ↔
        (m.map Prod.fst).any (fun k => scalarEq k key) = false
  | [], key => by simp [bucketFind?]
  | (k₀, b₀) :: rest, key => by
    cases hsc : scalarEq k₀ key with
    | true => simp [bucketFind?, hsc]
    | false =>
      simp only [bucketFind?, hsc, Bool.false_eq_true, if_false, List.map_cons,
        List.any_cons, hsc, Bool.false_or]
      exact bucketFind?_none_iff

theorem bucketAppend_of_none :
    ∀ {m : List (JVal × List (List (String × JVal)))} {key : JVal}
      (r : List (String × JVal)), bucketFind? m key = none →
      bucketAppend m key r = m ++ [(key, [r])]
  | [], key, r, _ => rfl
  | (k₀, b₀) :: rest, key, r, h => by
    cases hsc : scalarEq k₀ key with
    | true => simp [bucketFind?, hsc] at h
    | false =>
      simp only [bucketFind?, hsc, Bool.false_eq_true, if_false] at h
      simp only [bucketAppend, hsc, Bool.false_eq_true, if_false, List.cons_append,
        List.cons.injEq, true_and]
      exact bucketAppend_of_none r h

theorem bucketAppend_keys_found :
    ∀ {m : List (JVal × List (List (String × JVal)))} {key : JVal}
      {b : List (List (String × JVal))} (r : List (String × JVal)),
      bucketFind? m key = some b →
      (bucketAppend m key r).map Prod.fst = m.map Prod.fst
  | [], key, b, r, h => by simp [bucketFind?] at h
  | (k₀, b₀) :: rest, key, b, r, h => by
    cases hsc : scalarEq k₀ key with
    | true => simp [bucketAppend, hsc]
    | false =>
      simp only [bucketFind?, hsc, Bool.false_eq_true, if_false] at h
      simp only [bucketAppend, hsc, Bool.false_eq_true, if_false, List.map_cons,
        List.cons.injEq, true_and]
      exact bucketAppend_keys_found r h

theorem bucketGet_bucketAppend (key : JVal) (r : List (String × JVal)) :
    ∀ (m : List (JVal × List (List (String × JVal)))) (k : JVal),
      bucketGet (bucketAppend m key r) k
        = bucketGet m k ++ (if scalarEq k key then [r] else [])
  | [], k => by
    simp only [bucketAppend, bucketGet, bucketFind?]
    rw [scalarEq_symm key k]
    cases scalarEq k key <;> simp
  | (k₀, b₀) :: rest, k => by
    cases hsc : scalarEq k₀ key with
    | true =>
      simp only [bucketAppend, hsc, if_true]
      cases h₁ : scalarEq k₀ k with
      | true =>
        have hk : scalarEq k key = true :=
          scalarEq_trans ((scalarEq_symm k k₀).trans h₁) hsc
        simp [bucketGet, bucketFind?, h₁, hk]
      | false =>
        have hk : scalarEq k key = false := by
          cases hkk : scalarEq k key with
          | false => rfl
          | true =>
            have h2 := scalarEq_trans hsc ((scalarEq_symm key k).trans hkk)
            rw [h₁] at h2
            exact Bool.noConfusion h2
        simp [bucketGet, bucketFind?, h₁, hk]
    | false =>
      simp only [bucketAppend, hsc, Bool.false_eq_true, if_false]
      cases h₁ : scalarEq k₀ k with
      | true =>
        have hk : scalarEq k key = false := by
          cases hkk : scalarEq k key with
          | false => rfl
          | true =>
            have h2 := scalarEq_trans h₁ hkk
            rw [hsc] at h2
            exact Bool.noConfusion h2
        simp [bucketGet, bucketFind?, h₁, hk]
      | false =>
        simp only [bucketGet, bucketFind?, h₁, Bool.false_eq_true, if_false]
        exact bucketGet_bucketAppend key r rest k

theorem bucket_fold_get :
    ∀ (rs : List (List (String × JVal)))
      (m m' : List (JVal × List (List (String × JVal)))),
      rs.foldlM (fun m r => bucketAdd m (pyGet r "period") r) m = .ok m' →
      ∀ k, bucketGet m' k
        = bucketGet m k ++ (rs.filter fun r => scalarEq k (pyGet r "period"))
  | [], m, m', h, k => by
    simp only [List.foldlM_nil] at h
    cases Except.ok.inj h
    simp
  | r :: rest, m, m', h, k => by
    simp only [List.foldlM_cons] at h
    obtain ⟨m₁, h1, h2⟩ := bind_ok_iff.1 h
    obtain rfl := bucketAdd_ok h1
    have ih := bucket_fold_get rest _ m' h2 k
    rw [ih, bucketGet_bucketAppend (pyGet r "period") r m k, List.filter_cons]
    cases hsc : scalarEq k (pyGet r "period") <;>
      simp [hsc, List.append_assoc]

theorem bucket_fold_keys :
    ∀ (rs : List (List (String × JVal)))
      (m m' : List (JVal × List (List (String × JVal)))),
      rs.foldlM (fun m r => bucketAdd m (pyGet r "period") r) m = .ok m' →
      ∃ ks, m'.map Prod.fst = m.map Prod.fst ++ ks ∧
        ∀ k ∈ ks, ∃ r ∈ rs, pyGet r "period" = k
  | [], m, m', h => by
    simp only [List.foldlM_nil] at h
    cases Except.ok.inj h
    exact ⟨[], by simp, fun k hk => absurd hk (List.not_mem_nil k)⟩
  | r :: rest, m, m', h => by
    simp only [List.foldlM_cons] at h
    obtain ⟨m₁, h1, h2⟩ := bind_ok_iff.1 h
    obtain rfl := bucketAdd_ok h1
    obtain ⟨ks, hks, hksrc⟩ := bucket_fold_keys rest _ m' h2
    cases hfind : bucketFind? m (pyGet r "period") with
    | some b =>
      rw [bucketAppend_keys_found r hfind] at hks
      exact ⟨ks, hks, fun k hk =>
        have ⟨r', hr', hr'k⟩ := hksrc k hk
        ⟨r', List.mem_cons_of_mem _ hr', hr'k⟩⟩
    | none =>
      rw [bucketAppend_of_none r hfind] at hks
      refine ⟨pyGet r "period" :: ks, ?_, ?_⟩
      · rw [hks]
        simp
      · intro k hk
        rcases List.mem_cons.1 hk with hk | hk
        · exact ⟨r, List.mem_cons_self _ _, hk.symm⟩
        · have ⟨r', hr', hr'k⟩ := hksrc k hk
          exact ⟨r', List.mem_cons_of_mem _ hr', hr'k⟩

theorem bucket_fold_pairwise :
    ∀ (rs : List (List (String × JVal)))
      (m m' : List (JVal × List (List (String × JVal)))),
      rs.foldlM (fun m r => bucketAdd m (pyGet r "period") r) m = .ok m' →
      (m.map Prod.fst).Pairwise (fun a b => scalarEq a b = false) →
      (m'.map Prod.fst).Pairwise (fun a b => scalarEq a b = false)
  | [], m, m', h, hpw => by
    simp only [List.foldlM_nil] at h
    cases Except.ok.inj h
    exact hpw
  | r :: rest, m, m', h, hpw => by
    simp only [List.foldlM_cons] at h
    obtain ⟨m₁, h1, h2⟩ := bind_ok_iff.1 h
    obtain rfl := bucketAdd_ok h1
    refine bucket_fold_pairwise rest _ m' h2 ?_
    cases hfind : bucketFind? m (pyGet r "period") with
    | some b => rw [bucketAppend_keys_found r hfind]; exact hpw
    | none =>
      rw [bucketAppend_of_none r hfind]
      have hany := bucketFind?_none_iff.1 hfind
      rw [List.map_append]
      refine List.pairwise_append.2 ⟨hpw, by simp, ?_⟩
      intro a ha b hb
      simp only [List.map_cons, List.map_nil, List.mem_singleton] at hb
      subst hb
      exact Bool.eq_false_iff.mpr ((List.any_eq_false.1 hany) a ha)

theorem bucket_fold_cover :
    ∀ (rs : List (List (String × JVal)))
      (m m' : List (JVal × List (List (String × JVal)))),
      rs.foldlM (fun m r => bucketAdd m (pyGet r "period") r) m = .ok m' →
      ∀ r ∈ rs, (m'.map Prod.fst).any
        (fun k => scalarEq k (pyGet r "period")) = true
  | [], m, m', h, r, hr => absurd hr (List.not_mem_nil r)
  | r₀ :: rest, m, m', h, r, hr => by
    simp only [List.foldlM_cons] at h
    obtain ⟨m₁, h1, h2⟩ := bind_ok_iff.1 h
    have hhash := bucketAdd_ok_hashable h1
    obtain rfl := bucketAdd_ok h1
    rcases List.mem_cons.1 hr with hr | hr
    · subst hr
      obtain ⟨ks, hks, _⟩ := bucket_fold_keys rest _ m' h2
      rw [hks, List.any_append]
      have hleft : ((bucketAppend m (pyGet r "period") r).map Prod.fst).any
          (fun k => scalarEq k (pyGet r "period")) = true := by
        cases hfind : bucketFind? m (pyGet r "period") with
        | some b =>
          rw [bucketAppend_keys_found r hfind]
          cases hany : (m.map Prod.fst).any
              (fun k => scalarEq k (pyGet r "period")) with
          | true => rfl
          | false =>
            rw [bucketFind?_none_iff.2 hany] at hfind
            exact Option.noConfusion hfind
        | none =>
          rw [bucketAppend_of_none r hfind]
          simp only [List.map_append, List.any_append, List.map_cons, List.map_nil,
            List.any_cons, List.any_nil]
          rw [scalarEq_refl _ hhash]
          simp
      rw [hleft]
      rfl
    · exact bucket_fold_cover rest _ m' h2 r hr

theorem jint_list :
    ∀ (l : List JVal), (∀ x ∈ l, ∃ n : Int, x = .int n) →
      ∃ ns : List Int, l = ns.map .int
  | [], _ => ⟨[], rfl⟩
  | x :: xs, h => by
    obtain ⟨n, hn⟩ := h x (List.mem_cons_self _ _)
    obtain ⟨ns, hns⟩ := jint_list xs (fun y hy => h y (List.mem_cons_of_mem _ hy))
    exact ⟨n :: ns, by rw [hn, hns]; rfl⟩

theorem perm_insertionSort_lt {α : Type} [LinearOrder α] (l : List α) :
    (l.insertionSort (· < ·)).Perm l :=
  List.perm_insertionSort _ l

/-- C9: on a well-shaped response (all bucket periods are integers),
`SkaterGameStats._parse_by_period` returns exactly one bucket per
period number present among the constructed records, in strictly
ascending period order; each bucket is the sub-sequence (in processing
order: home side first, then away) of all records whose `period`
equals that bucket's period, so it holds the records of both sides; a
period with no records yields no bucket, and no emitted bucket is
empty. -/
theorem c9_by_period_buckets (response : JVal)
    (out : List (List (List (String × JVal))))
    (rs : List (List (String × JVal)))
    (h : skater_parse_by_period response = .ok out)
    (hrs : skater_all_records response = .ok rs)
    (hint : ∀ r ∈ rs, ∃ n : Int, pyGet r "period" = .int n) :
    (∀ b ∈ out, b ≠ []) ∧
    ∃ ns : List Int, ns.Sorted (· < ·) ∧
      out = ns.map (fun n =>
        rs.filter fun r => scalarEq (.int n) (pyGet r "period")) ∧
      ∀ n : Int, n ∈ ns ↔ ∃ r ∈ rs, pyGet r "period" = .int n := by
  obtain ⟨rs₀, m, keys, hrs₀, hmfold, hkeys, hout⟩ := skater_parse_by_period_ok h
  rw [hrs₀] at hrs
  cases Except.ok.inj hrs
  obtain ⟨ks, hks, hsrc⟩ := bucket_fold_keys rs [] m hmfold
  simp only [List.map_nil, List.nil_append] at hks
  have hpw : (m.map Prod.fst).Pairwise (fun a b => scalarEq a b = false) :=
    bucket_fold_pairwise rs [] m hmfold (by simp)
  have hkeyint : ∀ k ∈ m.map Prod.fst, ∃ n : Int, k = .int n := by
    intro k hk
    rw [hks] at hk
    obtain ⟨r, hr, hrk⟩ := hsrc k hk
    obtain ⟨n, hn⟩ := hint r hr
    exact ⟨n, by rw [← hrk, hn]⟩
  obtain ⟨ns₀, hns₀⟩ := jint_list _ hkeyint
  rw [hns₀] at hkeys
  rw [pySorted_map JVal.int
    (fun a b => (pyLt_int a b).trans
      (congrArg Except.ok (decide_eq_decide.mpr Iff.rfl))) ns₀] at hkeys
  have hkeys' := Except.ok.inj hkeys
  have hne : ns₀.Nodup := by
    have hmap : (ns₀.map JVal.int).Pairwise (fun a b => scalarEq a b = false) := by
      rw [← hns₀]
      exact hpw
    refine (List.pairwise_map.1 hmap).imp ?_
    intro a b hab
    rw [scalarEq_int] at hab
    exact of_decide_eq_false hab
  have hperm := perm_insertionSort_lt ns₀
  have hnodup := hperm.nodup_iff.2 hne
  have hsorted := (insertionSort_lt_sorted ns₀).lt_of_le hnodup
  have hget : ∀ k, bucketGet m k
      = rs.filter fun r => scalarEq k (pyGet r "period") := by
    intro k
    have hg := bucket_fold_get rs [] m hmfold k
    simpa using hg
  have hnonempty : ∀ k ∈ m.map Prod.fst, bucketGet m k ≠ [] := by
    intro k hk
    obtain ⟨n, rfl⟩ := hkeyint k hk
    obtain ⟨r, hr, hrk⟩ := hsrc _ (hks ▸ hk)
    rw [hget _]
    intro hemp
    have hrmem : r ∈ rs.filter
        fun r => scalarEq (JVal.int n) (pyGet r "period") := by
      refine List.mem_filter.2 ⟨hr, ?_⟩
      rw [hrk]
      exact scalarEq_refl _ rfl
    rw [hemp] at hrmem
    exact absurd hrmem (List.not_mem_nil r)
  have hmemkeys : ∀ k ∈ keys, k ∈ m.map Prod.fst := by
    intro k hk
    rw [← hkeys'] at hk
    obtain ⟨n, hn, rfl⟩ := List.mem_map.1 hk
    rw [hns₀]
    exact List.mem_map.2 ⟨n, hperm.mem_iff.1 hn, rfl⟩
  refine ⟨?_, ?_⟩
  · intro b hb
    rw [hout] at hb
    have hb' := (List.mem_filter.1 hb).1
    obtain ⟨k, hkmem, rfl⟩ := List.mem_map.1 hb'
    exact hnonempty k (hmemkeys k hkmem)
  · refine ⟨_, hsorted, ?_, ?_⟩
    · rw [hout, ← hkeys']
      have hfe : ∀ b ∈ ((ns₀.insertionSort (· < ·)).map JVal.int).map
          (bucketGet m), (!b.isEmpty) = true := by
        intro b hb
        obtain ⟨k, hkmem, rfl⟩ := List.mem_map.1 hb
        have hnz := hnonempty k (hmemkeys k (hkeys' ▸ hkmem))
        cases hb₀ : bucketGet m k with
        | nil => exact absurd hb₀ hnz
        | cons x xs => rfl
      rw [List.filter_eq_self.2 ?_, List.map_map]
      · refine List.map_congr_left ?_
        intro n _
        exact hget (JVal.int n)
      · exact hfe
    · intro n
      constructor
      · intro hn
        have hk : JVal.int n ∈ m.map Prod.fst := by
          rw [hns₀]
          exact List.mem_map.2 ⟨n, hperm.mem_iff.1 hn, rfl⟩
        obtain ⟨r, hr, hrk⟩ := hsrc _ (hks ▸ hk)
        exact ⟨r, hr, hrk⟩
      · rintro ⟨r, hr, hrk⟩
        have hcov := bucket_fold_cover rs [] m hmfold r hr
        rw [hrk] at hcov
        obtain ⟨k, hkmem, hkeq⟩ := List.any_eq_true.1 hcov
        obtain ⟨n', rfl⟩ := hkeyint k hkmem
        rw [scalarEq_int] at hkeq
        obtain rfl := of_decide_eq_true hkeq
        rw [hns₀] at hkmem
        obtain ⟨n₀, hn₀, hinj⟩ := List.mem_map.1 hkmem
        cases JVal.int.inj hinj
        exact hperm.mem_iff.2 hn₀

/-- Witness for C9: the bucket-structure theorem applied to a concrete
one-player, one-period response, every hypothesis discharged on the
concrete data. -/
theorem c9_by_period_buckets_witness :
    (∀ b ∈ ([[[("jerseyId", JVal.null),
  ("playerId", JVal.str "A"),
  ("points", JVal.null),
  ("period", JVal.int 1),
  ("assists", JVal.null),
  ("goals", JVal.null),
  ("validGoals", JVal.null),
  ("plusminus", JVal.null),
  ("plus", JVal.null),
  ("minus", JVal.null),
  ("shots", JVal.null),
  ("penaltyminutes", JVal.null),
  ("powerplayGoals", JVal.null),
  ("shortHandedGoals", JVal.null),
  ("winningGoal", JVal.null),
  ("blockedShots", JVal.null),
  ("faceoffsTotal", JVal.null),
  ("faceoffsWon", JVal.null),
  ("corsiFor", JVal.null),
  ("corsiAgainst", JVal.null),
  ("faceoffsCenterTotal", JVal.null),
  ("faceoffsCenterWon", JVal.null),
  ("faceoffsDefenceTotal", JVal.null),
  ("faceoffsDefenceWon", JVal.null),
  ("faceoffsOffenceTotal", JVal.null),
  ("faceoffsOffenceWon", JVal.null),
  ("fsZoneStartsDz", JVal.null),
  ("fsZoneStartsOz", JVal.null),
  ("powerplay2Goals", JVal.null),
  ("penaltykill2Goals", JVal.null),
  ("powerplayAssists", JVal.null),
  ("penaltykillAssists", JVal.null),
  ("goalsToEmptyGoal", JVal.null),
  ("fsTeamShots", JVal.null),
  ("fsTeamGoals", JVal.null),
  ("fsTeamShotsAgainst", JVal.null),
  ("fsTeamGoalsAgainst", JVal.null),
  ("timeofice", JVal.null),
  ("distance", JVal.null),
  ("totalPasses", JVal.null),
  ("successfulPasses", JVal.null),
  ("playerPassesUnderPressure", JVal.null),
  ("playerSuccessfulPassesUnderPressure", JVal.null),
  ("playerPassesUnderHighPressure", JVal.null),
  ("playerSuccessfulPassesUnderHighPressure", JVal.null),
  ("expectedGoalsPlayer", JVal.null),
  ("expectedGoalsTeam", JVal.null),
  ("expectedGoalsAgainst", JVal.null),
  ("expectedGoalsAgainstShotOnGoal", JVal.null),
  ("teamId", JVal.str "1"),
  ("teamGoals", JVal.null),
  ("teamShots", JVal.null),
  ("teamPowerPlayGoals", JVal.null),
  ("teamShortHandedGoalsAgainst", JVal.null),
  ("teamPenaltyMinutes", JVal.null),
  ("teamFaceOffWins", JVal.null),
  ("teamTwoMinutePenalties", JVal.null),
  ("teamFiveMinutePenalties", JVal.null),
  ("teamTenMinutePenalties", JVal.null),
  ("teamTwentyMinutePenalties", JVal.null),
  ("teamTotalDistanceTravelled", JVal.null),
  ("teamSide", JVal.str "home")]]] :
        List (List (List (String × JVal)))), b ≠ []) ∧
    ∃ ns : List Int, ns.Sorted (· < ·) ∧
      ([[[("jerseyId", JVal.null),
  ("playerId", JVal.str "A"),
  ("points", JVal.null),
  ("period", JVal.int 1),
  ("assists", JVal.null),
  ("goals", JVal.null),
  ("validGoals", JVal.null),
  ("plusminus", JVal.null),
  ("plus", JVal.null),
  ("minus", JVal.null),
  ("shots", JVal.null),
  ("penaltyminutes", JVal.null),
  ("powerplayGoals", JVal.null),
  ("shortHandedGoals", JVal.null),
  ("winningGoal", JVal.null),
  ("blockedShots", JVal.null),
  ("faceoffsTotal", JVal.null),
  ("faceoffsWon", JVal.null),
  ("corsiFor", JVal.null),
  ("corsiAgainst", JVal.null),
  ("faceoffsCenterTotal", JVal.null),
  ("faceoffsCenterWon", JVal.null),
  ("faceoffsDefenceTotal", JVal.null),
  ("faceoffsDefenceWon", JVal.null),
  ("faceoffsOffenceTotal", JVal.null),
  ("faceoffsOffenceWon", JVal.null),
  ("fsZoneStartsDz", JVal.null),
  ("fsZoneStartsOz", JVal.null),
  ("powerplay2Goals", JVal.null),
  ("penaltykill2Goals", JVal.null),
  ("powerplayAssists", JVal.null),
  ("penaltykillAssists", JVal.null),
  ("goalsToEmptyGoal", JVal.null),
  ("fsTeamShots", JVal.null),
  ("fsTeamGoals", JVal.null),
  ("fsTeamShotsAgainst", JVal.null),
  ("fsTeamGoalsAgainst", JVal.null),
  ("timeofice", JVal.null),
  ("distance", JVal.null),
  ("totalPasses", JVal.null),
  ("successfulPasses", JVal.null),
  ("playerPassesUnderPressure", JVal.null),
  ("playerSuccessfulPassesUnderPressure", JVal.null),
  ("playerPassesUnderHighPressure", JVal.null),
  ("playerSuccessfulPassesUnderHighPressure", JVal.null),
  ("expectedGoalsPlayer", JVal.null),
  ("expectedGoalsTeam", JVal.null),
  ("expectedGoalsAgainst", JVal.null),
  ("expectedGoalsAgainstShotOnGoal", JVal.null),
  ("teamId", JVal.str "1"),
  ("teamGoals", JVal.null),
  ("teamShots", JVal.null),
  ("teamPowerPlayGoals", JVal.null),
  ("teamShortHandedGoalsAgainst", JVal.null),
  ("teamPenaltyMinutes", JVal.null),
  ("teamFaceOffWins", JVal.null),
  ("teamTwoMinutePenalties", JVal.null),
  ("teamFiveMinutePenalties", JVal.null),
  ("teamTenMinutePenalties", JVal.null),
  ("teamTwentyMinutePenalties", JVal.null),
  ("teamTotalDistanceTravelled", JVal.null),
  ("teamSide", JVal.str "home")]]] :
          List (List (List (String × JVal))))
        = ns.map (fun n =>
            ([[("jerseyId", JVal.null),
  ("playerId", JVal.str "A"),
  ("points", JVal.null),
  ("period", JVal.int 1),
  ("assists", JVal.null),
  ("goals", JVal.null),
  ("validGoals", JVal.null),
  ("plusminus", JVal.null),
  ("plus", JVal.null),
  ("minus", JVal.null),
  ("shots", JVal.null),
  ("penaltyminutes", JVal.null),
  ("powerplayGoals", JVal.null),
  ("shortHandedGoals", JVal.null),
  ("winningGoal", JVal.null),
  ("blockedShots", JVal.null),
  ("faceoffsTotal", JVal.null),
  ("faceoffsWon", JVal.null),
  ("corsiFor", JVal.null),
  ("corsiAgainst", JVal.null),
  ("faceoffsCenterTotal", JVal.null),
  ("faceoffsCenterWon", JVal.null),
  ("faceoffsDefenceTotal", JVal.null),
  ("faceoffsDefenceWon", JVal.null),
  ("faceoffsOffenceTotal", JVal.null),
  ("faceoffsOffenceWon", JVal.null),
  ("fsZoneStartsDz", JVal.null),
  ("fsZoneStartsOz", JVal.null),
  ("powerplay2Goals", JVal.null),
  ("penaltykill2Goals", JVal.null),
  ("powerplayAssists", JVal.null),
  ("penaltykillAssists", JVal.null),
  ("goalsToEmptyGoal", JVal.null),
  ("fsTeamShots", JVal.null),
  ("fsTeamGoals", JVal.null),
  ("fsTeamShotsAgainst", JVal.null),
  ("fsTeamGoalsAgainst", JVal.null),
  ("timeofice", JVal.null),
  ("distance", JVal.null),
  ("totalPasses", JVal.null),
  ("successfulPasses", JVal.null),
  ("playerPassesUnderPressure", JVal.null),
  ("playerSuccessfulPassesUnderPressure", JVal.null),
  ("playerPassesUnderHighPressure", JVal.null),
  ("playerSuccessfulPassesUnderHighPressure", JVal.null),
  ("expectedGoalsPlayer", JVal.null),
  ("expectedGoalsTeam", JVal.null),
  ("expectedGoalsAgainst", JVal.null),
  ("expectedGoalsAgainstShotOnGoal", JVal.null),
  ("teamId", JVal.str "1"),
  ("teamGoals", JVal.null),
  ("teamShots", JVal.null),
  ("teamPowerPlayGoals", JVal.null),
  ("teamShortHandedGoalsAgainst", JVal.null),
  ("teamPenaltyMinutes", JVal.null),
  ("teamFaceOffWins", JVal.null),
  ("teamTwoMinutePenalties", JVal.null),
  ("teamFiveMinutePenalties", JVal.null),
  ("teamTenMinutePenalties", JVal.null),
  ("teamTwentyMinutePenalties", JVal.null),
  ("teamTotalDistanceTravelled", JVal.null),
  ("teamSide", JVal.str "home")]] :
                List (List (String × JVal))).filter
              fun r => scalarEq (.int n) (pyGet r "period")) ∧
      ∀ n : Int, n ∈ ns ↔ ∃ r ∈ ([[("jerseyId", JVal.null),
  ("playerId", JVal.str "A"),
  ("points", JVal.null),
  ("period", JVal.int 1),
  ("assists", JVal.null),
  ("goals", JVal.null),
  ("validGoals", JVal.null),
  ("plusminus", JVal.null),
  ("plus", JVal.null),
  ("minus", JVal.null),
  ("shots", JVal.null),
  ("penaltyminutes", JVal.null),
  ("powerplayGoals", JVal.null),
  ("shortHandedGoals", JVal.null),
  ("winningGoal", JVal.null),
  ("blockedShots", JVal.null),
  ("faceoffsTotal", JVal.null),
  ("faceoffsWon", JVal.null),
  ("corsiFor", JVal.null),
  ("corsiAgainst", JVal.null),
  ("faceoffsCenterTotal", JVal.null),
  ("faceoffsCenterWon", JVal.null),
  ("faceoffsDefenceTotal", JVal.null),
  ("faceoffsDefenceWon", JVal.null),
  ("faceoffsOffenceTotal", JVal.null),
  ("faceoffsOffenceWon", JVal.null),
  ("fsZoneStartsDz", JVal.null),
  ("fsZoneStartsOz", JVal.null),
  ("powerplay2Goals", JVal.null),
  ("penaltykill2Goals", JVal.null),
  ("powerplayAssists", JVal.null),
  ("penaltykillAssists", JVal.null),
  ("goalsToEmptyGoal", JVal.null),
  ("fsTeamShots", JVal.null),
  ("fsTeamGoals", JVal.null),
  ("fsTeamShotsAgainst", JVal.null),
  ("fsTeamGoalsAgainst", JVal.null),
  ("timeofice", JVal.null),
  ("distance", JVal.null),
  ("totalPasses", JVal.null),
  ("successfulPasses", JVal.null),
  ("playerPassesUnderPressure", JVal.null),
  ("playerSuccessfulPassesUnderPressure", JVal.null),
  ("playerPassesUnderHighPressure", JVal.null),
  ("playerSuccessfulPassesUnderHighPressure", JVal.null),
  ("expectedGoalsPlayer", JVal.null),
  ("expectedGoalsTeam", JVal.null),
  ("expectedGoalsAgainst", JVal.null),
  ("expectedGoalsAgainstShotOnGoal", JVal.null),
  ("teamId", JVal.str "1"),
  ("teamGoals", JVal.null),
  ("teamShots", JVal.null),
  ("teamPowerPlayGoals", JVal.null),
  ("teamShortHandedGoalsAgainst", JVal.null),
  ("teamPenaltyMinutes", JVal.null),
  ("teamFaceOffWins", JVal.null),
  ("teamTwoMinutePenalties", JVal.null),
  ("teamFiveMinutePenalties", JVal.null),
  ("teamTenMinutePenalties", JVal.null),
  ("teamTwentyMinutePenalties", JVal.null),
  ("teamTotalDistanceTravelled", JVal.null),
  ("teamSide", JVal.str "home")]] :
          List (List (String × JVal))), pyGet r "period" = .int n :=
  c9_by_period_buckets
    (JVal.obj [("homeTeam", JVal.arr [JVal.obj [
      ("teamId", JVal.str "1:T"),
      ("periodPlayerStats", JVal.arr [
        JVal.obj [("playerId", JVal.str "A"),
          ("period", JVal.obj [("period", JVal.int 1)])]])]])])
    [[[("jerseyId", JVal.null),
  ("playerId", JVal.str "A"),
  ("points", JVal.null),
  ("period", JVal.int 1),
  ("assists", JVal.null),
  ("goals", JVal.null),
  ("validGoals", JVal.null),
  ("plusminus", JVal.null),
  ("plus", JVal.null),
  ("minus", JVal.null),
  ("shots", JVal.null),
  ("penaltyminutes", JVal.null),
  ("powerplayGoals", JVal.null),
  ("shortHandedGoals", JVal.null),
  ("winningGoal", JVal.null),
  ("blockedShots", JVal.null),
  ("faceoffsTotal", JVal.null),
  ("faceoffsWon", JVal.null),
  ("corsiFor", JVal.null),
  ("corsiAgainst", JVal.null),
  ("faceoffsCenterTotal", JVal.null),
  ("faceoffsCenterWon", JVal.null),
  ("faceoffsDefenceTotal", JVal.null),
  ("faceoffsDefenceWon", JVal.null),
  ("faceoffsOffenceTotal", JVal.null),
  ("faceoffsOffenceWon", JVal.null),
  ("fsZoneStartsDz", JVal.null),
  ("fsZoneStartsOz", JVal.null),
  ("powerplay2Goals", JVal.null),
  ("penaltykill2Goals", JVal.null),
  ("powerplayAssists", JVal.null),
  ("penaltykillAssists", JVal.null),
  ("goalsToEmptyGoal", JVal.null),
  ("fsTeamShots", JVal.null),
  ("fsTeamGoals", JVal.null),
  ("fsTeamShotsAgainst", JVal.null),
  ("fsTeamGoalsAgainst", JVal.null),
  ("timeofice", JVal.null),
  ("distance", JVal.null),
  ("totalPasses", JVal.null),
  ("successfulPasses", JVal.null),
  ("playerPassesUnderPressure", JVal.null),
  ("playerSuccessfulPassesUnderPressure", JVal.null),
  ("playerPassesUnderHighPressure", JVal.null),
  ("playerSuccessfulPassesUnderHighPressure", JVal.null),
  ("expectedGoalsPlayer", JVal.null),
  ("expectedGoalsTeam", JVal.null),
  ("expectedGoalsAgainst", JVal.null),
  ("expectedGoalsAgainstShotOnGoal", JVal.null),
  ("teamId", JVal.str "1"),
  ("teamGoals", JVal.null),
  ("teamShots", JVal.null),
  ("teamPowerPlayGoals", JVal.null),
  ("teamShortHandedGoalsAgainst", JVal.null),
  ("teamPenaltyMinutes", JVal.null),
  ("teamFaceOffWins", JVal.null),
  ("teamTwoMinutePenalties", JVal.null),
  ("teamFiveMinutePenalties", JVal.null),
  ("teamTenMinutePenalties", JVal.null),
  ("teamTwentyMinutePenalties", JVal.null),
  ("teamTotalDistanceTravelled", JVal.null),
  ("teamSide", JVal.str "home")]]]
    [[("jerseyId", JVal.null),
  ("playerId", JVal.str "A"),
  ("points", JVal.null),
  ("period", JVal.int 1),
  ("assists", JVal.null),
  ("goals", JVal.null),
  ("validGoals", JVal.null),
  ("plusminus", JVal.null),
  ("plus", JVal.null),
  ("minus", JVal.null),
  ("shots", JVal.null),
  ("penaltyminutes", JVal.null),
  ("powerplayGoals", JVal.null),
  ("shortHandedGoals", JVal.null),
  ("winningGoal", JVal.null),
  ("blockedShots", JVal.null),
  ("faceoffsTotal", JVal.null),
  ("faceoffsWon", JVal.null),
  ("corsiFor", JVal.null),
  ("corsiAgainst", JVal.null),
  ("faceoffsCenterTotal", JVal.null),
  ("faceoffsCenterWon", JVal.null),
  ("faceoffsDefenceTotal", JVal.null),
  ("faceoffsDefenceWon", JVal.null),
  ("faceoffsOffenceTotal", JVal.null),
  ("faceoffsOffenceWon", JVal.null),
  ("fsZoneStartsDz", JVal.null),
  ("fsZoneStartsOz", JVal.null),
  ("powerplay2Goals", JVal.null),
  ("penaltykill2Goals", JVal.null),
  ("powerplayAssists", JVal.null),
  ("penaltykillAssists", JVal.null),
  ("goalsToEmptyGoal", JVal.null),
  ("fsTeamShots", JVal.null),
  ("fsTeamGoals", JVal.null),
  ("fsTeamShotsAgainst", JVal.null),
  ("fsTeamGoalsAgainst", JVal.null),
  ("timeofice", JVal.null),
  ("distance", JVal.null),
  ("totalPasses", JVal.null),
  ("successfulPasses", JVal.null),
  ("playerPassesUnderPressure", JVal.null),
  ("playerSuccessfulPassesUnderPressure", JVal.null),
  ("playerPassesUnderHighPressure", JVal.null),
  ("playerSuccessfulPassesUnderHighPressure", JVal.null),
  ("expectedGoalsPlayer", JVal.null),
  ("expectedGoalsTeam", JVal.null),
  ("expectedGoalsAgainst", JVal.null),
  ("expectedGoalsAgainstShotOnGoal", JVal.null),
  ("teamId", JVal.str "1"),
  ("teamGoals", JVal.null),
  ("teamShots", JVal.null),
  ("teamPowerPlayGoals", JVal.null),
  ("teamShortHandedGoalsAgainst", JVal.null),
  ("teamPenaltyMinutes", JVal.null),
  ("teamFaceOffWins", JVal.null),
  ("teamTwoMinutePenalties", JVal.null),
  ("teamFiveMinutePenalties", JVal.null),
  ("teamTenMinutePenalties", JVal.null),
  ("teamTwentyMinutePenalties", JVal.null),
  ("teamTotalDistanceTravelled", JVal.null),
  ("teamSide", JVal.str "home")]]
    rfl rfl
    (by
      intro r hr
      simp only [List.mem_singleton] at hr
      subst hr
      exact ⟨1, rfl⟩)
